import Mathlib

/-!
# TI Palmas PMIC header (include/linux/mfd/palmas.h)

A shallow embedding of the executable parts of the header (the address macros,
the inline register-access helpers, the ES-version comparison), of the
constant tables and enums it declares, and of the fuel-gauge data layout
(`cell_config`, `cell_state`, `ocv_config`, `edv_config`), followed by a model
of the fuel-gauge estimator that works on that layout.

Machine integers are `Nat`/`Int` with explicit reduction modulo `2^w` where a
C conversion or an unsigned operation can wrap.
-/

namespace Palmas

/-! ## Machine integers -/

/-- Conversion of an integer to C `int` (32 bit, two's complement). -/
def to_int (x : Int) : Int := (x + 2147483648) % 4294967296 - 2147483648

/-- Conversion of an integer to C `short` (16 bit, two's complement). -/
def to_short (x : Int) : Int := (x + 32768) % 65536 - 32768

/-! ## Constants -/

/-- Source: `#define PALMAS_NUM_CLIENTS 4`. -/
def PALMAS_NUM_CLIENTS : Nat := 4

/-- Source: `#define MAX_CAPACITY 0x7fff`. -/
def MAX_CAPACITY : Int := 0x7fff

/-- Source: `#define MAX_SOC 100`. -/
def MAX_SOC : Int := 100

/-- Source: `#define MAX_PERCENTAGE 100`. -/
def MAX_PERCENTAGE : Int := 100

/-- Source: `#define NO_LEARNING_CYCLES 25`. -/
def NO_LEARNING_CYCLES : Int := 25

/-- Source: `#define OCV_TABLE_SIZE 21`. -/
def OCV_TABLE_SIZE : Nat := 21

/-! ## Address macros -/

/-- Source: `#define PALMAS_BASE_TO_SLAVE(x) ((x >> 8) - 1)`, at the type the
helpers use it: `x` is `unsigned int`, so the subtraction is unsigned 32-bit,
and the result initialises `int slave_id`. -/
def PALMAS_BASE_TO_SLAVE (x : Nat) : Int :=
  to_int ((((x >>> 8) + 4294967296 - 1) % 4294967296 : Nat) : Int)

/-- Source: `#define PALMAS_BASE_TO_REG(x, y) ((x & 0xff) + y)`, at the type
the helpers use it: both arguments and the result are `unsigned int`. -/
def PALMAS_BASE_TO_REG (x y : Nat) : Nat := ((x &&& 0xff) + y) % 4294967296

/-- Source: `#define RTC_SLAVE 0`. -/
def RTC_SLAVE : Int := 0

def PALMAS_SMPS_DVS_BASE : Nat := 0x20
def PALMAS_RTC_BASE : Nat := 0x100
def PALMAS_VALIDITY_BASE : Nat := 0x118
def PALMAS_SMPS_BASE : Nat := 0x120
def PALMAS_LDO_BASE : Nat := 0x150
def PALMAS_DVFS_BASE : Nat := 0x180
def PALMAS_SIMCARD_BASE : Nat := 0x19E
def PALMAS_PMU_CONTROL_BASE : Nat := 0x1A0
def PALMAS_RESOURCE_BASE : Nat := 0x1D4
def PALMAS_PU_PD_OD_BASE : Nat := 0x1F0
def PALMAS_LED_BASE : Nat := 0x200
def PALMAS_INTERRUPT_BASE : Nat := 0x210
def PALMAS_FUEL_GAUGE_BASE : Nat := 0x230
def PALMAS_USB_OTG_BASE : Nat := 0x250
def PALMAS_VIBRATOR_BASE : Nat := 0x270
def PALMAS_GPIO_BASE : Nat := 0x280
def PALMAS_USB_BASE : Nat := 0x290
def PALMAS_GPADC_BASE : Nat := 0x2C0
def PALMAS_TRIM_GPADC_BASE : Nat := 0x3CD
def PALMAS_PAGE3_BASE : Nat := 0x300
def PALMAS_CHARGER_BASE : Nat := 0x400

/-- The block "Base addresses of IP blocks in Palmas", in source order. -/
def ip_block_bases : List Nat :=
  [PALMAS_SMPS_DVS_BASE, PALMAS_RTC_BASE, PALMAS_VALIDITY_BASE, PALMAS_SMPS_BASE,
   PALMAS_LDO_BASE, PALMAS_DVFS_BASE, PALMAS_SIMCARD_BASE, PALMAS_PMU_CONTROL_BASE,
   PALMAS_RESOURCE_BASE, PALMAS_PU_PD_OD_BASE, PALMAS_LED_BASE, PALMAS_INTERRUPT_BASE,
   PALMAS_FUEL_GAUGE_BASE, PALMAS_USB_OTG_BASE, PALMAS_VIBRATOR_BASE, PALMAS_GPIO_BASE,
   PALMAS_USB_BASE, PALMAS_GPADC_BASE, PALMAS_TRIM_GPADC_BASE, PALMAS_PAGE3_BASE,
   PALMAS_CHARGER_BASE]

/-! ## The device structure and the register-access helpers -/

/-- Source: `struct palmas`. Pointers are addresses. The two arrays are read
the way C reads them, by unchecked indexing: `regmap i` is the value of the
expression `palmas->regmap[i]`, and only `0 ≤ i < PALMAS_NUM_CLIENTS` are
slots of the array itself. -/
structure palmas where
  dev : Nat
  i2c_clients : Int → Nat
  regmap : Int → Nat
  id : Int
  irq : Int
  irq_mask : Nat
  irq_chip_data : Nat
  pmic : Nat
  rtc : Nat
  battery : Nat
  ngpio : Nat
  gpio_muxed : Nat
  led_muxed : Nat
  pwm_muxed : Nat
  design_revision : Int
  sw_otp_version : Int
  es_minor_version : Int
  es_major_version : Int

/-- One call of an operation of `linux/regmap.h`, with the arguments passed:
the map, the register address, and the operation's own arguments (pointers
are addresses). -/
inductive regmap_call where
  | regmap_read (map : Nat) (reg : Nat) (val : Nat)
  | regmap_write (map : Nat) (reg : Nat) (val : Nat)
  | regmap_bulk_write (map : Nat) (reg : Nat) (val : Nat) (val_count : Nat)
  | regmap_bulk_read (map : Nat) (reg : Nat) (val : Nat) (val_count : Nat)
  | regmap_update_bits (map : Nat) (reg : Nat) (mask : Nat) (val : Nat)
  deriving DecidableEq, Repr

/-- A computation over the regmap layer: it either returns an `int`, or calls
a regmap operation and continues with the `int` that the call returned. -/
inductive regmap_prog where
  | ret (r : Int)
  | call (c : regmap_call) (k : Int → regmap_prog)

/-- Runs a computation against a regmap layer `h` (the result of each call):
the value returned and the calls made, in order. -/
def regmap_prog.run (h : regmap_call → Int) : regmap_prog → Int × List regmap_call
  | .ret r => (r, [])
  | .call c k => let out := (k (h c)).run h; (out.1, c :: out.2)

/-- Source: `palmas_read`. -/
def palmas_read (p : palmas) (base reg val : Nat) : regmap_prog :=
  let addr := PALMAS_BASE_TO_REG base reg
  let slave_id := PALMAS_BASE_TO_SLAVE base
  .call (.regmap_read (p.regmap slave_id) addr val) .ret

/-- Source: `palmas_write`. -/
def palmas_write (p : palmas) (base reg value : Nat) : regmap_prog :=
  let addr := PALMAS_BASE_TO_REG base reg
  let slave_id := PALMAS_BASE_TO_SLAVE base
  .call (.regmap_write (p.regmap slave_id) addr value) .ret

/-- Source: `palmas_bulk_write`. -/
def palmas_bulk_write (p : palmas) (base reg val val_count : Nat) : regmap_prog :=
  let addr := PALMAS_BASE_TO_REG base reg
  let slave_id := PALMAS_BASE_TO_SLAVE base
  .call (.regmap_bulk_write (p.regmap slave_id) addr val val_count) .ret

/-- Source: `palmas_bulk_read`. -/
def palmas_bulk_read (p : palmas) (base reg val val_count : Nat) : regmap_prog :=
  let addr := PALMAS_BASE_TO_REG base reg
  let slave_id := PALMAS_BASE_TO_SLAVE base
  .call (.regmap_bulk_read (p.regmap slave_id) addr val val_count) .ret

/-- Source: `palmas_update_bits`. -/
def palmas_update_bits (p : palmas) (base reg mask val : Nat) : regmap_prog :=
  let addr := PALMAS_BASE_TO_REG base reg
  let slave_id := PALMAS_BASE_TO_SLAVE base
  .call (.regmap_update_bits (p.regmap slave_id) addr mask val) .ret

/-- Source: `palmas_is_es_version_or_less`; the `int` result is `true` (1) or
`false` (0). -/
def palmas_is_es_version_or_less (p : palmas) (major minor : Int) : Int :=
  if p.es_major_version < major then 1
  else if p.es_major_version = major ∧ p.es_minor_version ≤ minor then 1
  else 0

/-! ## Regulator identifiers -/

/-- Source: `enum palmas_regulators`, the enumerators before
`PALMAS_NUM_REGS`, in source order. -/
inductive palmas_regulators where
  | PALMAS_REG_SMPS12 | PALMAS_REG_SMPS123 | PALMAS_REG_SMPS3 | PALMAS_REG_SMPS45
  | PALMAS_REG_SMPS457 | PALMAS_REG_SMPS6 | PALMAS_REG_SMPS7 | PALMAS_REG_SMPS8
  | PALMAS_REG_SMPS9 | PALMAS_REG_SMPS10
  | PALMAS_REG_LDO1 | PALMAS_REG_LDO2 | PALMAS_REG_LDO3 | PALMAS_REG_LDO4
  | PALMAS_REG_LDO5 | PALMAS_REG_LDO6 | PALMAS_REG_LDO7 | PALMAS_REG_LDO8
  | PALMAS_REG_LDO9 | PALMAS_REG_LDO10 | PALMAS_REG_LDO11 | PALMAS_REG_LDO12
  | PALMAS_REG_LDO13 | PALMAS_REG_LDO14 | PALMAS_REG_LDOLN | PALMAS_REG_LDOUSB
  | PALMAS_REG_REGEN1 | PALMAS_REG_REGEN2 | PALMAS_REG_REGEN3 | PALMAS_REG_REGEN4
  | PALMAS_REG_REGEN5 | PALMAS_REG_REGEN7 | PALMAS_REG_SYSEN1 | PALMAS_REG_SYSEN2
  | PALMAS_REG_CHARGER_PUMP
  deriving DecidableEq, Repr

/-- The enumerators of `enum palmas_regulators` before `PALMAS_NUM_REGS`, as
the source lists them. -/
def palmas_regulators.listed : List palmas_regulators :=
  [.PALMAS_REG_SMPS12, .PALMAS_REG_SMPS123, .PALMAS_REG_SMPS3, .PALMAS_REG_SMPS45,
   .PALMAS_REG_SMPS457, .PALMAS_REG_SMPS6, .PALMAS_REG_SMPS7, .PALMAS_REG_SMPS8,
   .PALMAS_REG_SMPS9, .PALMAS_REG_SMPS10,
   .PALMAS_REG_LDO1, .PALMAS_REG_LDO2, .PALMAS_REG_LDO3, .PALMAS_REG_LDO4,
   .PALMAS_REG_LDO5, .PALMAS_REG_LDO6, .PALMAS_REG_LDO7, .PALMAS_REG_LDO8,
   .PALMAS_REG_LDO9, .PALMAS_REG_LDO10, .PALMAS_REG_LDO11, .PALMAS_REG_LDO12,
   .PALMAS_REG_LDO13, .PALMAS_REG_LDO14, .PALMAS_REG_LDOLN, .PALMAS_REG_LDOUSB,
   .PALMAS_REG_REGEN1, .PALMAS_REG_REGEN2, .PALMAS_REG_REGEN3, .PALMAS_REG_REGEN4,
   .PALMAS_REG_REGEN5, .PALMAS_REG_REGEN7, .PALMAS_REG_SYSEN1, .PALMAS_REG_SYSEN2,
   .PALMAS_REG_CHARGER_PUMP]

/-- The value of an enumerator: no enumerator of `enum palmas_regulators` has
an initialiser, so the first is 0 and each next one is the previous plus 1,
which is its position in the list. -/
def palmas_regulators.id (r : palmas_regulators) : Nat :=
  palmas_regulators.listed.indexOf r

/-- Source: the last enumerator `PALMAS_NUM_REGS` ("Total number of
regulators"): it follows every regulator, so its value is their number. -/
def PALMAS_NUM_REGS : Nat := palmas_regulators.listed.length

/-! ## Fuel-gauge data layout -/

/-- Source: `struct timeval`, as used by `struct cell_state`. -/
structure timeval where
  tv_sec : Int
  tv_usec : Int

/-- Source: `struct ocv_config`. Unsigned fields are `Nat`; `table` is the
array `unsigned short table[OCV_TABLE_SIZE]`. -/
structure ocv_config where
  voltage_diff : Nat
  current_diff : Nat
  sleep_enter_current : Nat
  sleep_enter_samples : Nat
  sleep_exit_current : Nat
  sleep_exit_samples : Nat
  long_sleep_current : Nat
  ocv_period : Nat
  relax_period : Nat
  flat_zone_low : Nat
  flat_zone_high : Nat
  max_ocv_discharge : Nat
  table : Fin OCV_TABLE_SIZE → Nat

/-- Source: `struct edv_point`. -/
structure edv_point where
  voltage : Int
  percent : Nat

/-- Source: `struct edv_state`. -/
structure edv_state where
  voltage : Int
  percent : Nat
  min_capacity : Int
  edv_cmp : Nat

/-- Source: `struct edv_config`; `edv` is the array `struct edv_point edv[3]`. -/
structure edv_config where
  averaging : Bool
  seq_edv : Nat
  filter_light : Nat
  filter_heavy : Nat
  overload_current : Int
  edv : Fin 3 → edv_point

/-- Source: `struct cell_config`. The pointers `ocv` and `edv` are `none`
when null. `design_capacity` is `unsigned short`, `design_qmax` is `short`. -/
structure cell_config where
  technology : Int
  cc_polarity : Bool
  cc_out : Bool
  ocv_below_edv1 : Bool
  cc_voltage : Int
  cc_current : Int
  cc_capacity : Nat
  seq_cc : Nat
  design_capacity : Nat
  design_qmax : Int
  r_sense : Nat
  qmax_adjust : Nat
  fcc_adjust : Nat
  max_overcharge : Nat
  electronics_load : Nat
  max_increment : Int
  max_decrement : Int
  low_temp : Nat
  deep_dsg_voltage : Nat
  max_dsg_estimate : Nat
  light_load : Nat
  near_full : Nat
  cycle_threshold : Nat
  recharge : Nat
  mode_switch_capacity : Nat
  call_period : Nat
  ocv : Option ocv_config
  edv : Option edv_config

/-- Source: `struct cell_state`. The `short` fields are `Int`, the unsigned
fields `Nat`; `config` is `none` when the pointer is null; `dev` and
`charge_status` are addresses. -/
structure cell_state where
  soc : Int
  nac : Int
  fcc : Int
  qmax : Int
  voltage : Int
  av_voltage : Int
  cur : Int
  av_current : Int
  temperature : Int
  cycle_count : Int
  sleep : Bool
  relax : Bool
  chg : Bool
  dsg : Bool
  edv0 : Bool
  edv1 : Bool
  edv2 : Bool
  ocv : Bool
  cc : Bool
  full : Bool
  vcq : Bool
  vdq : Bool
  init : Bool
  last_correction : timeval
  last_ocv : timeval
  sleep_timer : timeval
  el_timer : timeval
  cumulative_sleep : Nat
  prev_soc : Int
  learn_q : Int
  dod_eoc : Nat
  learn_offset : Int
  learned_cycle : Nat
  new_fcc : Int
  ocv_total_q : Int
  ocv_enter_q : Int
  negative_q : Int
  overcharge_q : Int
  charge_cycle_q : Int
  discharge_cycle_q : Int
  cycle_q : Int
  top_off_q : Int
  seq_cc_voltage : Nat
  seq_cc_current : Nat
  sleep_samples : Nat
  seq_edvs : Nat
  electronics_load : Nat
  cycle_dsg_estimate : Nat
  edv : edv_state
  updated : Bool
  calibrate : Bool
  config : Option cell_config
  dev : Nat
  charge_status : Nat

/-- The ranges of the C types of the fields that the capacity bookkeeping
reads: `fcc`, `nac` and `qmax` are `short`. -/
def cell_state.capacities_typed (s : cell_state) : Prop :=
  (-32768 ≤ s.nac ∧ s.nac ≤ 32767) ∧ (-32768 ≤ s.fcc ∧ s.fcc ≤ 32767) ∧
  (-32768 ≤ s.qmax ∧ s.qmax ≤ 32767)

instance (s : cell_state) : Decidable s.capacities_typed := by
  unfold cell_state.capacities_typed; infer_instance

/-- The ranges of the C types of the two design capacities of a
`cell_config`: `design_capacity` is `unsigned short`, `design_qmax` is
`short`. -/
def cell_config.capacities_typed (c : cell_config) : Prop :=
  c.design_capacity ≤ 65535 ∧ (-32768 ≤ c.design_qmax ∧ c.design_qmax ≤ 32767)

instance (c : cell_config) : Decidable c.capacities_typed := by
  unfold cell_config.capacities_typed; infer_instance

/-! ## Fuel-gauge estimator

The header declares only the data layout of the estimator. Its two operations,
`initialize` and `update`, are in the battery driver, which is not part of the
header; they are modelled here from the specification (§4.1, §7), step by
step, over the header's structures and C types. -/

/-- Modelled from the spec: the error of `initialize` (§4.1, §7
`ConfigError`); the estimator source is missing. -/
inductive ConfigError where
  | InvalidConfig
  deriving DecidableEq, Repr

/-- Modelled from the spec: the errors of `update` (§4.1, §7
`EstimatorError`); the estimator source is missing. -/
inductive EstimatorError where
  | InvalidSample
  | Uninitialized
  deriving DecidableEq, Repr

/-- Modelled from the spec: `RawSample { voltage_mV, current_mA,
temperature_dC }` of §4.1, the input of `update`; the estimator source is
missing. A positive current charges, a negative one discharges (§8: "at
current_mA=-200 (discharge)"). -/
structure RawSample where
  voltage_mV : Int
  current_mA : Int
  temperature_dC : Int

/-- Modelled from the spec: the "physically plausible range" of a sample
(§4.1 Failure, §7); the estimator source is missing. The spec gives no
numbers, so the bounds are parameters; the one bound it fixes is that a
negative voltage is impossible (§8, `voltage_mV = -5`). -/
structure sample_range where
  max_voltage_mV : Int
  max_current_mA : Int
  min_temperature_dC : Int
  max_temperature_dC : Int

/-- Modelled from the spec: the check "voltage/current/temperature are out of
physically plausible range" of §4.1, negated; the estimator source is
missing. -/
def sample_in_range (r : sample_range) (x : RawSample) : Bool :=
  decide (0 ≤ x.voltage_mV ∧ x.voltage_mV ≤ r.max_voltage_mV ∧
    -r.max_current_mA ≤ x.current_mA ∧ x.current_mA ≤ r.max_current_mA ∧
    r.min_temperature_dC ≤ x.temperature_dC ∧ x.temperature_dC ≤ r.max_temperature_dC)

/-- Modelled from the spec: "a fresh `CellState`" (§4.1 `initialize`) before
the fields that `initialize` sets: every counter zero, every flag cleared, no
configuration attached; the estimator source is missing. -/
def cell_state.fresh : cell_state :=
  { soc := 0, nac := 0, fcc := 0, qmax := 0, voltage := 0, av_voltage := 0, cur := 0,
    av_current := 0, temperature := 0, cycle_count := 0, sleep := false, relax := false,
    chg := false, dsg := false, edv0 := false, edv1 := false, edv2 := false, ocv := false,
    cc := false, full := false, vcq := false, vdq := false, init := false,
    last_correction := ⟨0, 0⟩, last_ocv := ⟨0, 0⟩, sleep_timer := ⟨0, 0⟩, el_timer := ⟨0, 0⟩,
    cumulative_sleep := 0, prev_soc := 0, learn_q := 0, dod_eoc := 0, learn_offset := 0,
    learned_cycle := 0, new_fcc := 0, ocv_total_q := 0, ocv_enter_q := 0, negative_q := 0,
    overcharge_q := 0, charge_cycle_q := 0, discharge_cycle_q := 0, cycle_q := 0,
    top_off_q := 0, seq_cc_voltage := 0, seq_cc_current := 0, sleep_samples := 0,
    seq_edvs := 0, electronics_load := 0, cycle_dsg_estimate := 0, edv := ⟨0, 0, 0, 0⟩,
    updated := false, calibrate := false, config := none, dev := 0, charge_status := 0 }

/-- Modelled from the spec: the validity of a `CellConfig` (§4.1
`initialize`: "capacity > 0, sense resistor > 0, at least one OCV table
entry"); the estimator source is missing. The table is an array of
`OCV_TABLE_SIZE` entries, so a configuration has no table entry exactly when
it has no `ocv_config`. -/
def cell_config.valid (c : cell_config) : Bool :=
  decide (0 < c.design_capacity) && decide (0 < c.r_sense) && c.ocv.isSome

/-- Modelled from the spec: `initialize(config) -> CellState` of §4.1 (the
name `initialize` is reserved in Lean); the estimator source is missing. It
fails with `ConfigError` on an invalid configuration; otherwise the state is
fresh with `nac = design_capacity`, `fcc = design_capacity`, `qmax =
design_qmax`, cycle count 0, all latches cleared, `init = false` (`soc` stays
at its fresh value until the first update), in the initial mode Relaxed
(§4.1 State machine). The stores go through the header's types: `nac`, `fcc`
and `qmax` are `short`. -/
def initialize_cell (config : cell_config) : Except ConfigError cell_state :=
  if config.valid then
    .ok { cell_state.fresh with
          nac := to_short config.design_capacity
          fcc := to_short config.design_capacity
          qmax := to_short config.design_qmax
          cycle_count := 0
          edv0 := false
          edv1 := false
          edv2 := false
          full := false
          init := false
          relax := true
          config := some config }
  else .error .InvalidConfig

/-- Modelled from the spec: `clamp` of §4.1 steps 3 and 7; the estimator
source is missing. -/
def clamp (x lo hi : Int) : Int := if x < lo then lo else if hi < x then hi else x

/-- Modelled from the spec: one step of the exponential low-pass filter of
§4.1 step 1 with time constant `k`: the average moves towards the sample by
`1 / (k + 1)` of their distance; the estimator source is missing. -/
def low_pass (k : Nat) (prev x : Int) : Int := prev + (x - prev).tdiv (k + 1)

/-- Modelled from the spec: the filter constant of §4.1 step 1, the heavy one
when the load is light (`|current| < light_load`), the light one otherwise;
no filtering without an `edv_config`; the estimator source is missing. -/
def filter_constant (cfg : cell_config) (x : RawSample) : Nat :=
  match cfg.edv with
  | none => 0
  | some e => if x.current_mA.natAbs < cfg.light_load then e.filter_heavy else e.filter_light

/-- Modelled from the spec: §4.1 step 1, "Low-pass filter voltage and current
into `av_voltage`/`av_current`"; the sample itself is recorded in `voltage`,
`cur` and `temperature`, and the clock `el_timer` advances by `dt` seconds;
the estimator source is missing. -/
def filter_sample (cfg : cell_config) (x : RawSample) (dt : Nat) (s : cell_state) :
    cell_state :=
  { s with
    voltage := to_short x.voltage_mV
    cur := to_short x.current_mA
    temperature := to_short x.temperature_dC
    av_voltage := to_short (low_pass (filter_constant cfg x) s.av_voltage x.voltage_mV)
    av_current := to_short (low_pass (filter_constant cfg x) s.av_current x.current_mA)
    el_timer := ⟨s.el_timer.tv_sec + dt, s.el_timer.tv_usec⟩ }

/-- Modelled from the spec: the states `{Charging, Discharging, Relaxed}` of
the per-sample mode classification (§4.1 State machine); the estimator source
is missing. -/
inductive gauge_mode where
  | Charging
  | Discharging
  | Relaxed
  deriving DecidableEq, Repr

/-- Modelled from the spec: §4.1 step 2, "chg if current_mA sign indicates
charge and magnitude exceeds a deadband; dsg if discharge; else relax"; the
deadband is the sequencer's current threshold `cc_current`; the estimator
source is missing. -/
def classify (cfg : cell_config) (x : RawSample) : gauge_mode :=
  if 0 < x.current_mA ∧ cfg.cc_current < x.current_mA then .Charging
  else if x.current_mA < 0 ∧ x.current_mA < -cfg.cc_current then .Discharging
  else .Relaxed

/-- Modelled from the spec: the committed mode of a state, read from its
`chg`/`dsg` flags (§3: `relax` is true only when neither); the estimator
source is missing. -/
def cell_state.mode (s : cell_state) : gauge_mode :=
  if s.chg then .Charging else if s.dsg then .Discharging else .Relaxed

/-- Modelled from the spec: committing a mode transition (§4.1 step 2);
the debounce counters restart, and the tracked EDV point is re-initialised
when discharge starts (§3 EdvState); the estimator source is missing. -/
def commit_mode (m : gauge_mode) (s : cell_state) : cell_state :=
  { s with
    chg := decide (m = .Charging)
    dsg := decide (m = .Discharging)
    relax := decide (m = .Relaxed)
    seq_cc_voltage := 0
    seq_cc_current := 0
    edv := if m = .Discharging then ⟨0, 0, 0, 0⟩ else s.edv }

/-- Modelled from the spec: §4.1 step 2 and State machine, the debounced mode
transition: a sample whose class is the committed mode clears the debounce
counters; any other sample counts up the counter of its bucket
(`seq_cc_current` for entering or leaving Charging, `seq_cc_voltage` for
entering or leaving Discharging) and clears the other one, and the transition
commits when the counter reaches the configured count `seq_cc`; the estimator
source is missing. -/
def classify_mode (cfg : cell_config) (x : RawSample) (s : cell_state) : cell_state :=
  let m := classify cfg x
  if m = s.mode then { s with seq_cc_voltage := 0, seq_cc_current := 0 }
  else if m = .Charging ∨ (m = .Relaxed ∧ s.mode = .Charging) then
    if cfg.seq_cc ≤ s.seq_cc_current + 1 then commit_mode m s
    else { s with seq_cc_current := (s.seq_cc_current + 1) % 256, seq_cc_voltage := 0 }
  else
    if cfg.seq_cc ≤ s.seq_cc_voltage + 1 then commit_mode m s
    else { s with seq_cc_voltage := (s.seq_cc_voltage + 1) % 256, seq_cc_current := 0 }

/-- Modelled from the spec: the charge of one integration step,
`current_mA * dt / 3600` (§4.1 step 3), in mAh with `dt` in seconds and C
integer division; the estimator source is missing. -/
def charge_step (x : RawSample) (dt : Nat) : Int := (x.current_mA * dt).tdiv 3600

/-- Modelled from the spec: §4.1 step 3, "Integrate coulombs: `nac +=
current_mA * dt / 3600` (sign per mode), clamp to `[0, fcc]`", with the
signed charge also accumulated "into the active accumulator bucket selected
by mode": `charge_cycle_q` while charging, `discharge_cycle_q` and the
discharge since full `learn_q` while discharging; the estimator source is
missing. -/
def integrate (x : RawSample) (dt : Nat) (s : cell_state) : cell_state :=
  let dq := charge_step x dt
  let nac := to_short (clamp (s.nac + dq) 0 s.fcc)
  if s.chg then
    { s with nac := nac, charge_cycle_q := to_short (s.charge_cycle_q + dq) }
  else if s.dsg then
    { s with nac := nac
             discharge_cycle_q := to_short (s.discharge_cycle_q - dq)
             learn_q := to_short (s.learn_q - dq) }
  else { s with nac := nac }

/-- Modelled from the spec: the rest bookkeeping behind §4.1 step 4: while
relaxed, `cumulative_sleep` counts the seconds at rest and `sleep_samples` the
consecutive samples that stayed within `voltage_diff`/`current_diff` of the
previous sample `prev`; leaving rest clears both and the `ocv` flag; the
estimator source is missing. -/
def track_rest (o : ocv_config) (prev : cell_state) (x : RawSample) (dt : Nat)
    (s : cell_state) : cell_state :=
  if s.relax then
    { s with
      cumulative_sleep := (s.cumulative_sleep + dt) % 4294967296
      sleep_samples :=
        if (x.voltage_mV - prev.voltage).natAbs ≤ o.voltage_diff ∧
            (x.current_mA - prev.cur).natAbs ≤ o.current_diff
        then (s.sleep_samples + 1) % 256 else 0 }
  else { s with cumulative_sleep := 0, sleep_samples := 0, ocv := false }

/-- Modelled from the spec: the percent of row `i` of the OCV table: the
`OCV_TABLE_SIZE` rows span 0 to `MAX_PERCENTAGE` in equal steps; the
estimator source is missing. -/
def ocv_row_percent (i : Nat) : Int := (i * MAX_PERCENTAGE).tdiv (OCV_TABLE_SIZE - 1 : Nat)

/-- Modelled from the spec: the search of §4.1 step 4 for the two rows that
bracket `v`, from row `i` upwards with `n` rows left, and the linear
interpolation between them; above the last row the result is the last row's
percent; the estimator source is missing. -/
def ocv_scan (table : Fin OCV_TABLE_SIZE → Nat) (v : Int) : Nat → Nat → Int
  | _, 0 => MAX_PERCENTAGE
  | i, n + 1 =>
    if h : i + 1 < OCV_TABLE_SIZE then
      if v < table ⟨i + 1, h⟩ then
        let lo : Int := table ⟨i, Nat.lt_of_succ_lt h⟩
        let hi : Int := table ⟨i + 1, h⟩
        ocv_row_percent i +
          ((ocv_row_percent (i + 1) - ocv_row_percent i) * (v - lo)).tdiv (hi - lo)
      else ocv_scan table v (i + 1) n
    else MAX_PERCENTAGE

/-- Modelled from the spec: the OCV table lookup of §4.1 step 4, "linear
interpolation between the two bracketing (voltage, percent) table rows,
extrapolation clamped at table ends"; the estimator source is missing. -/
def ocv_lookup (table : Fin OCV_TABLE_SIZE → Nat) (v : Int) : Int :=
  if v ≤ table ⟨0, by decide⟩ then 0
  else clamp (ocv_scan table v 0 (OCV_TABLE_SIZE - 1)) 0 MAX_PERCENTAGE

/-- Modelled from the spec: the condition of §4.1 step 4, "`relax` has held ≥
`relax_period` and voltage/current have been stable ... for
`sleep_enter_samples` consecutive samples", once per rest period (§8: "no
duplicate corrections within one rest interval"); the estimator source is
missing. -/
def ocv_due (o : ocv_config) (s : cell_state) : Bool :=
  s.relax && !s.ocv && decide (o.relax_period ≤ s.cumulative_sleep) &&
    decide (o.sleep_enter_samples ≤ s.sleep_samples)

/-- Modelled from the spec: the blend of §4.1 step 4: the reference capacity
`ref_soc * fcc / 100` is mixed into `nac` with a weight that grows with the
time at rest and is full once `ocv_period` has elapsed; the correction is
recorded in `ocv`, `init`, `last_ocv` and `last_correction`; the estimator
source is missing. -/
def ocv_blend (o : ocv_config) (x : RawSample) (s : cell_state) : cell_state :=
  let ref_nac := (ocv_lookup o.table x.voltage_mV * s.fcc).tdiv MAX_PERCENTAGE
  let w : Int := min s.cumulative_sleep o.ocv_period
  let nac := if o.ocv_period = 0 then ref_nac
             else s.nac + ((ref_nac - s.nac) * w).tdiv o.ocv_period
  { s with nac := to_short nac, ocv := true, init := true,
           last_ocv := s.el_timer, last_correction := s.el_timer }

/-- Modelled from the spec: §4.1 step 4, the OCV correction, applied when it
is due; the estimator source is missing. -/
def ocv_correct (o : ocv_config) (x : RawSample) (s : cell_state) : cell_state :=
  if ocv_due o s then ocv_blend o x s else s

/-- Modelled from the spec: "a full/near-full threshold
(`cell_config.near_full`) is ... reached" (§4.1 step 5): the remaining
capacity has reached `near_full`; the estimator source is missing. -/
def near_full_reached (cfg : cell_config) (s : cell_state) : Bool :=
  decide ((cfg.near_full : Int) ≤ s.nac)

/-- Modelled from the spec: latching one EDV point (§4.1 step 5): when the
voltage is below the point's voltage and the point is not latched yet, the
tracked `edv_state` captures the voltage, the point's percent and the
capacity at the crossing; the estimator source is missing. -/
def edv_capture (pt : edv_point) (latched : Bool) (x : RawSample) (s : cell_state) :
    cell_state :=
  if x.voltage_mV < pt.voltage ∧ latched = false then
    { s with edv := ⟨to_short x.voltage_mV, pt.percent, s.nac, 1⟩ }
  else s

/-- Modelled from the spec: §4.1 step 5, EDV tracking: a charge that has
reached near-full resets the three latches (and restarts `learn_q`, the
discharge counted since full); otherwise, while discharging, each configured
point whose voltage the sample is below is latched, from the shallowest
(`edv2`) to the deepest (`edv0`); the estimator source is missing. -/
def edv_track (cfg : cell_config) (x : RawSample) (s : cell_state) : cell_state :=
  if s.chg ∧ near_full_reached cfg s then
    { s with edv0 := false, edv1 := false, edv2 := false, learn_q := 0 }
  else if s.dsg then
    match cfg.edv with
    | none => s
    | some e =>
      let s2 := edv_capture (e.edv 2) s.edv2 x s
      let s1 := edv_capture (e.edv 1) s.edv1 x s2
      let s0 := edv_capture (e.edv 0) s.edv0 x s1
      { s0 with
        edv2 := s.edv2 || decide (x.voltage_mV < (e.edv 2).voltage)
        edv1 := s.edv1 || decide (x.voltage_mV < (e.edv 1).voltage)
        edv0 := s.edv0 || decide (x.voltage_mV < (e.edv 0).voltage) }
  else s

/-- Modelled from the spec: the bounded nudge of §4.1 step 6: when the
observed value differs from the learned one by more than the tolerance, the
learned value moves towards it by at most `max_increment` upwards and
`max_decrement` downwards; the estimator source is missing. -/
def nudge (learned observed : Int) (tolerance : Nat) (max_increment max_decrement : Int) :
    Int :=
  if (tolerance : Int) < |observed - learned| then
    learned + clamp (observed - learned) (-max_decrement) max_increment
  else learned

/-- Modelled from the spec: §4.1 step 6, cycle counting and learning: when
the accumulated discharge exceeds `cycle_threshold` the cycle count goes up by
one and the cycle accumulators restart; once more than `NO_LEARNING_CYCLES`
cycles have elapsed, `fcc` and `qmax` are nudged towards the coulomb-counted
discharge since full (`learn_q`); the estimator source is missing. -/
def cycle_learning (cfg : cell_config) (s : cell_state) : cell_state :=
  if (cfg.cycle_threshold : Int) < s.discharge_cycle_q then
    let n := to_short (s.cycle_count + 1)
    if NO_LEARNING_CYCLES < n then
      { s with
        cycle_count := n, charge_cycle_q := 0, discharge_cycle_q := 0, cycle_q := 0
        fcc := to_short (nudge s.fcc s.learn_q cfg.fcc_adjust cfg.max_increment
                  cfg.max_decrement)
        qmax := to_short (nudge s.qmax s.learn_q cfg.qmax_adjust cfg.max_increment
                  cfg.max_decrement)
        learned_cycle := n.toNat }
    else
      { s with cycle_count := n, charge_cycle_q := 0, discharge_cycle_q := 0, cycle_q := 0 }
  else s

/-- Modelled from the spec: §4.1 step 7, "Recompute `soc = clamp(100 * nac /
fcc, 0, 100)`", with C integer division (the quotient by `fcc = 0`, which the
spec leaves open, is taken as 0); the estimator source is missing. -/
def recompute_soc (s : cell_state) : cell_state :=
  { s with
    prev_soc := s.soc
    soc := clamp ((MAX_PERCENTAGE * s.nac).tdiv s.fcc) 0 MAX_SOC
    updated := true }

/-- Modelled from the spec: steps 1 to 3 of `update` (§4.1): filter, classify
the mode, integrate, and keep the rest bookkeeping that step 4 reads; the
estimator source is missing. -/
def update_integrate (cfg : cell_config) (s : cell_state) (x : RawSample) (dt : Nat) :
    cell_state :=
  let s3 := integrate x dt (classify_mode cfg x (filter_sample cfg x dt s))
  match cfg.ocv with
  | none => s3
  | some o => track_rest o s x dt s3

/-- Modelled from the spec: whether an accepted `update` applies the OCV
correction of step 4 (§4.1); the estimator source is missing. -/
def ocv_correction_applies (cfg : cell_config) (s : cell_state) (x : RawSample) (dt : Nat) :
    Bool :=
  match cfg.ocv with
  | none => false
  | some o => ocv_due o (update_integrate cfg s x dt)

/-- Modelled from the spec: steps 1 to 7 of `update` (§4.1) on an accepted
sample; the estimator source is missing. -/
def update_steps (cfg : cell_config) (s : cell_state) (x : RawSample) (dt : Nat) :
    cell_state :=
  let s3 := update_integrate cfg s x dt
  let s4 := match cfg.ocv with
            | none => s3
            | some o => ocv_correct o x s3
  recompute_soc (cycle_learning cfg (edv_track cfg x s4))

/-- Modelled from the spec: `update(state, sample, dt) -> Result<(),
EstimatorError>` of §4.1; the estimator source is missing. The result pairs
the return value with the state after the call. A sample out of the plausible
range is refused with `InvalidSample`, a state without configuration with
`Uninitialized` (the checks are made in the order in which §4.1 lists the
failures), and in both cases the state is the one passed in; otherwise the
seven steps run and the new state is committed. `dt` is in seconds; keeping
it positive is the caller's part (§4.1). -/
def update (r : sample_range) (s : cell_state) (x : RawSample) (dt : Nat) :
    Except EstimatorError Unit × cell_state :=
  if sample_in_range r x then
    match s.config with
    | none => (.error .Uninitialized, s)
    | some cfg => (.ok (), update_steps cfg s x dt)
  else (.error .InvalidSample, s)

/-- Modelled from the spec: a run of the estimator (§2: "an external sampling
driver periodically supplies ... readings"): the samples are fed to `update`
one after the other, each with its `dt`, and a refused sample is discarded
(§7); the estimator source is missing. -/
def run_updates (r : sample_range) (s : cell_state) : List (RawSample × Nat) → cell_state
  | [] => s
  | (x, dt) :: rest => run_updates r (update r s x dt).2 rest

/-! ## Fuel-gauge estimator: runs and events used to state the properties -/

/-- Modelled from the spec: a "charge-to-near-full event" (§4.1 step 5, §8
Monotonic EDV latching): an accepted update that leaves the estimator
charging (`chg`) with the threshold `cell_config.near_full` reached; the
estimator source is missing. -/
def charge_near_full_event (r : sample_range) (s : cell_state) (x : RawSample) (dt : Nat) :
    Bool :=
  sample_in_range r x &&
    match s.config with
    | none => false
    | some cfg => (update r s x dt).2.chg && near_full_reached cfg (update r s x dt).2

/-- Modelled from the spec: a run in which no update is a charge-to-near-full
event; the estimator source is missing. -/
def no_charge_near_full_event (r : sample_range) :
    cell_state → List (RawSample × Nat) → Bool
  | _, [] => true
  | s, (x, dt) :: rest =>
    !charge_near_full_event r s x dt && no_charge_near_full_event r (update r s x dt).2 rest

/-- Modelled from the spec: an update that only counts coulombs (§8 Coulomb-
counting round trip): the sample is accepted, the OCV correction of step 4
is not applied ("OCV correction disabled"), and the integration of step 3
does not hit the clamp to `[0, fcc]`; the estimator source is missing. -/
def coulomb_only_step (r : sample_range) (s : cell_state) (x : RawSample) (dt : Nat) : Bool :=
  sample_in_range r x &&
    match s.config with
    | none => false
    | some cfg =>
      !ocv_correction_applies cfg s x dt &&
        decide (0 ≤ s.nac + charge_step x dt ∧ s.nac + charge_step x dt ≤ s.fcc)

/-- Modelled from the spec: a run all of whose updates only count coulombs;
the estimator source is missing. -/
def coulomb_only_run (r : sample_range) : cell_state → List (RawSample × Nat) → Bool
  | _, [] => true
  | s, (x, dt) :: rest =>
    coulomb_only_step r s x dt && coulomb_only_run r (update r s x dt).2 rest

/-- The charge that a list of samples moves, in mA·s (3600 mA·s are 1 mAh):
the sum of `current_mA * dt`. -/
def charge_moved : List (RawSample × Nat) → Int
  | [] => 0
  | (x, dt) :: rest => x.current_mA * dt + charge_moved rest

/-- The charge that the integration step counts for a list of samples, in
mAh: the sum of the rounded steps `current_mA * dt / 3600`. -/
def charge_counted : List (RawSample × Nat) → Int
  | [] => 0
  | (x, dt) :: rest => charge_step x dt + charge_counted rest

/-- Modelled from the spec: a run during which the learning of step 6 (§4.1)
never adjusts FCC/QMAX: after each update the cycle count has not exceeded
`NO_LEARNING_CYCLES`; the estimator source is missing. -/
def learning_free_run (r : sample_range) : cell_state → List (RawSample × Nat) → Bool
  | _, [] => true
  | s, (x, dt) :: rest =>
    decide ((update r s x dt).2.cycle_count ≤ NO_LEARNING_CYCLES) &&
      learning_free_run r (update r s x dt).2 rest

/-- The capacity ordering `0 ≤ nac ≤ fcc ≤ qmax`, with `fcc` in the range of
`short`. -/
def capacities_ordered (s : cell_state) : Prop :=
  0 ≤ s.nac ∧ s.nac ≤ s.fcc ∧ s.fcc ≤ s.qmax ∧ s.fcc ≤ 32767

/-! ## Worked configurations -/

/-- A valid configuration used by the worked examples: 2000 mAh design
capacity, 2200 mAh design maximum, 21 OCV rows from 3000 mV in 60 mV steps,
EDV points at 3100, 3200 and 3300 mV, a 50 mA deadband debounced over 2
samples. -/
def example_config : cell_config :=
  { technology := 0, cc_polarity := false, cc_out := false, ocv_below_edv1 := false,
    cc_voltage := 4200, cc_current := 50, cc_capacity := 0, seq_cc := 2,
    design_capacity := 2000, design_qmax := 2200, r_sense := 10, qmax_adjust := 10,
    fcc_adjust := 10, max_overcharge := 0, electronics_load := 0, max_increment := 50,
    max_decrement := 50, low_temp := 0, deep_dsg_voltage := 3000, max_dsg_estimate := 0,
    light_load := 100, near_full := 1900, cycle_threshold := 1500, recharge := 0,
    mode_switch_capacity := 0, call_period := 1,
    ocv := some
      { voltage_diff := 5, current_diff := 5, sleep_enter_current := 10,
        sleep_enter_samples := 3, sleep_exit_current := 20, sleep_exit_samples := 2,
        long_sleep_current := 5, ocv_period := 7200, relax_period := 1800,
        flat_zone_low := 30, flat_zone_high := 60, max_ocv_discharge := 100,
        table := fun i => 3000 + 60 * i.val },
    edv := some
      { averaging := false, seq_edv := 2, filter_light := 3, filter_heavy := 7,
        overload_current := -2000, edv := fun i => ⟨3100 + 100 * i.val, 3 * i.val⟩ } }

/-- The plausible range used by the worked examples: up to 5000 mV, 5000 mA
either way, -40.0 to 90.0 degrees. -/
def example_range : sample_range := ⟨5000, 5000, -400, 900⟩

/-- The state that `initialize` returns for `example_config`. -/
def example_state : cell_state :=
  { cell_state.fresh with
    nac := 2000, fcc := 2000, qmax := 2200, relax := true, config := some example_config }

/-- The example configuration with a design capacity that `unsigned short`
holds and `short` does not. -/
def large_config : cell_config := { example_config with design_capacity := 40000 }

/-- The example configuration with the design capacity above the design
maximum. -/
def reversed_config : cell_config :=
  { example_config with design_capacity := 2200, design_qmax := 2000 }

/-- The state that `initialize` returns for `reversed_config`. -/
def reversed_state : cell_state :=
  { cell_state.fresh with
    nac := 2200, fcc := 2200, qmax := 2000, relax := true, config := some reversed_config }

/-- The example configuration with an undebounced mode switch, a cycle
threshold of 10 mAh and a learning step of up to 2000 mAh downwards. -/
def learning_config : cell_config :=
  { example_config with seq_cc := 1, cycle_threshold := 10, max_decrement := 2000 }

/-- The state that `initialize` returns for `learning_config`. -/
def learning_state : cell_state :=
  { cell_state.fresh with
    nac := 2000, fcc := 2000, qmax := 2200, relax := true, config := some learning_config }

/-- A discharging state half way down with `edv1` and `edv2` latched. -/
def latched_state : cell_state :=
  { example_state with
    nac := 1000, edv1 := true, edv2 := true, dsg := true, relax := false }

/-- The example state at 1000 mAh, away from both ends of `[0, fcc]`. -/
def half_state : cell_state := { example_state with nac := 1000 }

/-! ## Bit definitions

The header gives, for each register `R`, a block "Bit definitions for R" of
constants `X` (a single bit) or `X_MASK` (a field of several bits), each
followed by its companion `X_SHIFT`. -/

/-- One named bit or field of a register: the constant `X` or `X_MASK` of the
header, under its own name, with its value `mask` and the value `shift` of its
companion `X_SHIFT`. -/
structure bitfield where
  name : String
  mask : Nat
  shift : Nat
  deriving DecidableEq, Repr

/-- One block "Bit definitions for R" of the header: the register `reg` as
the comment names it and its bits and fields in source order. Constants of
the block that have no companion `_SHIFT` are not bits with a position and are
left out. -/
structure register_bits where
  reg : String
  fields : List bitfield
  deriving DecidableEq, Repr

/-- Source: the block "Bit definitions for CHARGE_PUMP_CTRL" (lines 661 to 667). -/
def charge_pump_bits : List register_bits :=
  [⟨"CHARGE_PUMP_CTRL",
     [⟨"PALMAS_CHARGE_PUMP_CTRL_MODE_SLEEP", 0x04, 2⟩,
      ⟨"PALMAS_CHARGE_PUMP_CTRL_MODE_ACTIVE", 0x01, 0⟩]⟩]

/-- Source: the blocks "Bit definitions for ..." of function RTC (lines 691 to 829). -/
def rtc_bits : List register_bits :=
  [⟨"SECONDS_REG",
     [⟨"PALMAS_SECONDS_REG_SEC1_MASK", 0x70, 4⟩,
      ⟨"PALMAS_SECONDS_REG_SEC0_MASK", 0x0f, 0⟩]⟩,
   ⟨"MINUTES_REG",
     [⟨"PALMAS_MINUTES_REG_MIN1_MASK", 0x70, 4⟩,
      ⟨"PALMAS_MINUTES_REG_MIN0_MASK", 0x0f, 0⟩]⟩,
   ⟨"HOURS_REG",
     [⟨"PALMAS_HOURS_REG_PM_NAM", 0x80, 7⟩,
      ⟨"PALMAS_HOURS_REG_HOUR1_MASK", 0x30, 4⟩,
      ⟨"PALMAS_HOURS_REG_HOUR0_MASK", 0x0f, 0⟩]⟩,
   ⟨"DAYS_REG",
     [⟨"PALMAS_DAYS_REG_DAY1_MASK", 0x30, 4⟩,
      ⟨"PALMAS_DAYS_REG_DAY0_MASK", 0x0f, 0⟩]⟩,
   ⟨"MONTHS_REG",
     [⟨"PALMAS_MONTHS_REG_MONTH1", 0x10, 4⟩,
      ⟨"PALMAS_MONTHS_REG_MONTH0_MASK", 0x0f, 0⟩]⟩,
   ⟨"YEARS_REG",
     [⟨"PALMAS_YEARS_REG_YEAR1_MASK", 0xf0, 4⟩,
      ⟨"PALMAS_YEARS_REG_YEAR0_MASK", 0x0f, 0⟩]⟩,
   ⟨"WEEKS_REG",
     [⟨"PALMAS_WEEKS_REG_WEEK_MASK", 0x07, 0⟩]⟩,
   ⟨"ALARM_SECONDS_REG",
     [⟨"PALMAS_ALARM_SECONDS_REG_ALARM_SEC1_MASK", 0x70, 4⟩,
      ⟨"PALMAS_ALARM_SECONDS_REG_ALARM_SEC0_MASK", 0x0f, 0⟩]⟩,
   ⟨"ALARM_MINUTES_REG",
     [⟨"PALMAS_ALARM_MINUTES_REG_ALARM_MIN1_MASK", 0x70, 4⟩,
      ⟨"PALMAS_ALARM_MINUTES_REG_ALARM_MIN0_MASK", 0x0f, 0⟩]⟩,
   ⟨"ALARM_HOURS_REG",
     [⟨"PALMAS_ALARM_HOURS_REG_ALARM_PM_NAM", 0x80, 7⟩,
      ⟨"PALMAS_ALARM_HOURS_REG_ALARM_HOUR1_MASK", 0x30, 4⟩,
      ⟨"PALMAS_ALARM_HOURS_REG_ALARM_HOUR0_MASK", 0x0f, 0⟩]⟩,
   ⟨"ALARM_DAYS_REG",
     [⟨"PALMAS_ALARM_DAYS_REG_ALARM_DAY1_MASK", 0x30, 4⟩,
      ⟨"PALMAS_ALARM_DAYS_REG_ALARM_DAY0_MASK", 0x0f, 0⟩]⟩,
   ⟨"ALARM_MONTHS_REG",
     [⟨"PALMAS_ALARM_MONTHS_REG_ALARM_MONTH1", 0x10, 4⟩,
      ⟨"PALMAS_ALARM_MONTHS_REG_ALARM_MONTH0_MASK", 0x0f, 0⟩]⟩,
   ⟨"ALARM_YEARS_REG",
     [⟨"PALMAS_ALARM_YEARS_REG_ALARM_YEAR1_MASK", 0xf0, 4⟩,
      ⟨"PALMAS_ALARM_YEARS_REG_ALARM_YEAR0_MASK", 0x0f, 0⟩]⟩,
   ⟨"RTC_CTRL_REG",
     [⟨"PALMAS_RTC_CTRL_REG_RTC_V_OPT", 0x80, 7⟩,
      ⟨"PALMAS_RTC_CTRL_REG_GET_TIME", 0x40, 6⟩,
      ⟨"PALMAS_RTC_CTRL_REG_SET_32_COUNTER", 0x20, 5⟩,
      ⟨"PALMAS_RTC_CTRL_REG_TEST_MODE", 0x10, 4⟩,
      ⟨"PALMAS_RTC_CTRL_REG_MODE_12_24", 0x08, 3⟩,
      ⟨"PALMAS_RTC_CTRL_REG_AUTO_COMP", 0x04, 2⟩,
      ⟨"PALMAS_RTC_CTRL_REG_ROUND_30S", 0x02, 1⟩,
      ⟨"PALMAS_RTC_CTRL_REG_STOP_RTC", 0x01, 0⟩]⟩,
   ⟨"RTC_STATUS_REG",
     [⟨"PALMAS_RTC_STATUS_REG_POWER_UP", 0x80, 7⟩,
      ⟨"PALMAS_RTC_STATUS_REG_ALARM", 0x40, 6⟩,
      ⟨"PALMAS_RTC_STATUS_REG_EVENT_1D", 0x20, 5⟩,
      ⟨"PALMAS_RTC_STATUS_REG_EVENT_1H", 0x10, 4⟩,
      ⟨"PALMAS_RTC_STATUS_REG_EVENT_1M", 0x08, 3⟩,
      ⟨"PALMAS_RTC_STATUS_REG_EVENT_1S", 0x04, 2⟩,
      ⟨"PALMAS_RTC_STATUS_REG_RUN", 0x02, 1⟩]⟩,
   ⟨"RTC_INTERRUPTS_REG",
     [⟨"PALMAS_RTC_INTERRUPTS_REG_IT_SLEEP_MASK_EN", 0x10, 4⟩,
      ⟨"PALMAS_RTC_INTERRUPTS_REG_IT_ALARM", 0x08, 3⟩,
      ⟨"PALMAS_RTC_INTERRUPTS_REG_IT_TIMER", 0x04, 2⟩,
      ⟨"PALMAS_RTC_INTERRUPTS_REG_EVERY_MASK", 0x03, 0⟩]⟩,
   ⟨"RTC_COMP_LSB_REG",
     [⟨"PALMAS_RTC_COMP_LSB_REG_RTC_COMP_LSB_MASK", 0xff, 0⟩]⟩,
   ⟨"RTC_COMP_MSB_REG",
     [⟨"PALMAS_RTC_COMP_MSB_REG_RTC_COMP_MSB_MASK", 0xff, 0⟩]⟩,
   ⟨"RTC_RES_PROG_REG",
     [⟨"PALMAS_RTC_RES_PROG_REG_SW_RES_PROG_MASK", 0x3f, 0⟩]⟩,
   ⟨"RTC_RESET_STATUS_REG",
     [⟨"PALMAS_RTC_RESET_STATUS_REG_RESET_STATUS", 0x01, 0⟩]⟩]

/-- Source: the blocks "Bit definitions for ..." of function BACKUP (lines 841 to 871). -/
def backup_bits : List register_bits :=
  [⟨"BACKUP0",
     [⟨"PALMAS_BACKUP0_BACKUP_MASK", 0xff, 0⟩]⟩,
   ⟨"BACKUP1",
     [⟨"PALMAS_BACKUP1_BACKUP_MASK", 0xff, 0⟩]⟩,
   ⟨"BACKUP2",
     [⟨"PALMAS_BACKUP2_BACKUP_MASK", 0xff, 0⟩]⟩,
   ⟨"BACKUP3",
     [⟨"PALMAS_BACKUP3_BACKUP_MASK", 0xff, 0⟩]⟩,
   ⟨"BACKUP4",
     [⟨"PALMAS_BACKUP4_BACKUP_MASK", 0xff, 0⟩]⟩,
   ⟨"BACKUP5",
     [⟨"PALMAS_BACKUP5_BACKUP_MASK", 0xff, 0⟩]⟩,
   ⟨"BACKUP6",
     [⟨"PALMAS_BACKUP6_BACKUP_MASK", 0xff, 0⟩]⟩,
   ⟨"BACKUP7",
     [⟨"PALMAS_BACKUP7_BACKUP_MASK", 0xff, 0⟩]⟩]

/-- Source: the blocks "Bit definitions for ..." of function SMPS (lines 910 to 1191). -/
def smps_bits : List register_bits :=
  [⟨"SMPS12_CTRL",
     [⟨"PALMAS_SMPS12_CTRL_WR_S", 0x80, 7⟩,
      ⟨"PALMAS_SMPS12_CTRL_ROOF_FLOOR_EN", 0x40, 6⟩,
      ⟨"PALMAS_SMPS12_CTRL_STATUS_MASK", 0x30, 4⟩,
      ⟨"PALMAS_SMPS12_CTRL_MODE_SLEEP_MASK", 0x0c, 2⟩,
      ⟨"PALMAS_SMPS12_CTRL_MODE_ACTIVE_MASK", 0x03, 0⟩]⟩,
   ⟨"SMPS12_TSTEP",
     [⟨"PALMAS_SMPS12_TSTEP_TSTEP_MASK", 0x03, 0⟩]⟩,
   ⟨"SMPS12_FORCE",
     [⟨"PALMAS_SMPS12_FORCE_CMD", 0x80, 7⟩,
      ⟨"PALMAS_SMPS12_FORCE_VSEL_MASK", 0x7f, 0⟩]⟩,
   ⟨"SMPS12_VOLTAGE",
     [⟨"PALMAS_SMPS12_VOLTAGE_RANGE", 0x80, 7⟩,
      ⟨"PALMAS_SMPS12_VOLTAGE_VSEL_MASK", 0x7f, 0⟩]⟩,
   ⟨"SMPS3_CTRL",
     [⟨"PALMAS_SMPS3_CTRL_WR_S", 0x80, 7⟩,
      ⟨"PALMAS_SMPS3_CTRL_STATUS_MASK", 0x30, 4⟩,
      ⟨"PALMAS_SMPS3_CTRL_MODE_SLEEP_MASK", 0x0c, 2⟩,
      ⟨"PALMAS_SMPS3_CTRL_MODE_ACTIVE_MASK", 0x03, 0⟩]⟩,
   ⟨"SMPS3_VOLTAGE",
     [⟨"PALMAS_SMPS3_VOLTAGE_RANGE", 0x80, 7⟩,
      ⟨"PALMAS_SMPS3_VOLTAGE_VSEL_MASK", 0x7f, 0⟩]⟩,
   ⟨"SMPS45_CTRL",
     [⟨"PALMAS_SMPS45_CTRL_WR_S", 0x80, 7⟩,
      ⟨"PALMAS_SMPS45_CTRL_ROOF_FLOOR_EN", 0x40, 6⟩,
      ⟨"PALMAS_SMPS45_CTRL_STATUS_MASK", 0x30, 4⟩,
      ⟨"PALMAS_SMPS45_CTRL_MODE_SLEEP_MASK", 0x0c, 2⟩,
      ⟨"PALMAS_SMPS45_CTRL_MODE_ACTIVE_MASK", 0x03, 0⟩]⟩,
   ⟨"SMPS45_TSTEP",
     [⟨"PALMAS_SMPS45_TSTEP_TSTEP_MASK", 0x03, 0⟩]⟩,
   ⟨"SMPS45_FORCE",
     [⟨"PALMAS_SMPS45_FORCE_CMD", 0x80, 7⟩,
      ⟨"PALMAS_SMPS45_FORCE_VSEL_MASK", 0x7f, 0⟩]⟩,
   ⟨"SMPS45_VOLTAGE",
     [⟨"PALMAS_SMPS45_VOLTAGE_RANGE", 0x80, 7⟩,
      ⟨"PALMAS_SMPS45_VOLTAGE_VSEL_MASK", 0x7f, 0⟩]⟩,
   ⟨"SMPS6_CTRL",
     [⟨"PALMAS_SMPS6_CTRL_WR_S", 0x80, 7⟩,
      ⟨"PALMAS_SMPS6_CTRL_ROOF_FLOOR_EN", 0x40, 6⟩,
      ⟨"PALMAS_SMPS6_CTRL_STATUS_MASK", 0x30, 4⟩,
      ⟨"PALMAS_SMPS6_CTRL_MODE_SLEEP_MASK", 0x0c, 2⟩,
      ⟨"PALMAS_SMPS6_CTRL_MODE_ACTIVE_MASK", 0x03, 0⟩]⟩,
   ⟨"SMPS6_TSTEP",
     [⟨"PALMAS_SMPS6_TSTEP_TSTEP_MASK", 0x03, 0⟩]⟩,
   ⟨"SMPS6_FORCE",
     [⟨"PALMAS_SMPS6_FORCE_CMD", 0x80, 7⟩,
      ⟨"PALMAS_SMPS6_FORCE_VSEL_MASK", 0x7f, 0⟩]⟩,
   ⟨"SMPS6_VOLTAGE",
     [⟨"PALMAS_SMPS6_VOLTAGE_RANGE", 0x80, 7⟩,
      ⟨"PALMAS_SMPS6_VOLTAGE_VSEL_MASK", 0x7f, 0⟩]⟩,
   ⟨"SMPS7_CTRL",
     [⟨"PALMAS_SMPS7_CTRL_WR_S", 0x80, 7⟩,
      ⟨"PALMAS_SMPS7_CTRL_STATUS_MASK", 0x30, 4⟩,
      ⟨"PALMAS_SMPS7_CTRL_MODE_SLEEP_MASK", 0x0c, 2⟩,
      ⟨"PALMAS_SMPS7_CTRL_MODE_ACTIVE_MASK", 0x03, 0⟩]⟩,
   ⟨"SMPS7_VOLTAGE",
     [⟨"PALMAS_SMPS7_VOLTAGE_RANGE", 0x80, 7⟩,
      ⟨"PALMAS_SMPS7_VOLTAGE_VSEL_MASK", 0x7f, 0⟩]⟩,
   ⟨"SMPS8_CTRL",
     [⟨"PALMAS_SMPS8_CTRL_WR_S", 0x80, 7⟩,
      ⟨"PALMAS_SMPS8_CTRL_ROOF_FLOOR_EN", 0x40, 6⟩,
      ⟨"PALMAS_SMPS8_CTRL_STATUS_MASK", 0x30, 4⟩,
      ⟨"PALMAS_SMPS8_CTRL_MODE_SLEEP_MASK", 0x0c, 2⟩,
      ⟨"PALMAS_SMPS8_CTRL_MODE_ACTIVE_MASK", 0x03, 0⟩]⟩,
   ⟨"SMPS8_TSTEP",
     [⟨"PALMAS_SMPS8_TSTEP_TSTEP_MASK", 0x03, 0⟩]⟩,
   ⟨"SMPS8_FORCE",
     [⟨"PALMAS_SMPS8_FORCE_CMD", 0x80, 7⟩,
      ⟨"PALMAS_SMPS8_FORCE_VSEL_MASK", 0x7f, 0⟩]⟩,
   ⟨"SMPS8_VOLTAGE",
     [⟨"PALMAS_SMPS8_VOLTAGE_RANGE", 0x80, 7⟩,
      ⟨"PALMAS_SMPS8_VOLTAGE_VSEL_MASK", 0x7f, 0⟩]⟩,
   ⟨"SMPS9_CTRL",
     [⟨"PALMAS_SMPS9_CTRL_WR_S", 0x80, 7⟩,
      ⟨"PALMAS_SMPS9_CTRL_STATUS_MASK", 0x30, 4⟩,
      ⟨"PALMAS_SMPS9_CTRL_MODE_SLEEP_MASK", 0x0c, 2⟩,
      ⟨"PALMAS_SMPS9_CTRL_MODE_ACTIVE_MASK", 0x03, 0⟩]⟩,
   ⟨"SMPS9_VOLTAGE",
     [⟨"PALMAS_SMPS9_VOLTAGE_RANGE", 0x80, 7⟩,
      ⟨"PALMAS_SMPS9_VOLTAGE_VSEL_MASK", 0x7f, 0⟩]⟩,
   ⟨"SMPS10_CTRL",
     [⟨"PALMAS_SMPS10_CTRL_MODE_SLEEP_MASK", 0xf0, 4⟩,
      ⟨"PALMAS_SMPS10_CTRL_MODE_ACTIVE_MASK", 0x0f, 0⟩]⟩,
   ⟨"SMPS10_STATUS",
     [⟨"PALMAS_SMPS10_STATUS_STATUS_MASK", 0x0f, 0⟩]⟩,
   ⟨"SMPS_CTRL",
     [⟨"PALMAS_SMPS_CTRL_SMPS45_SMPS457_EN", 0x20, 5⟩,
      ⟨"PALMAS_SMPS_CTRL_SMPS12_SMPS123_EN", 0x10, 4⟩,
      ⟨"PALMAS_SMPS_CTRL_SMPS45_PHASE_CTRL_MASK", 0x0c, 2⟩,
      ⟨"PALMAS_SMPS_CTRL_SMPS123_PHASE_CTRL_MASK", 0x03, 0⟩]⟩,
   ⟨"SMPS_PD_CTRL",
     [⟨"PALMAS_SMPS_PD_CTRL_SMPS9", 0x40, 6⟩,
      ⟨"PALMAS_SMPS_PD_CTRL_SMPS8", 0x20, 5⟩,
      ⟨"PALMAS_SMPS_PD_CTRL_SMPS7", 0x10, 4⟩,
      ⟨"PALMAS_SMPS_PD_CTRL_SMPS6", 0x08, 3⟩,
      ⟨"PALMAS_SMPS_PD_CTRL_SMPS45", 0x04, 2⟩,
      ⟨"PALMAS_SMPS_PD_CTRL_SMPS3", 0x02, 1⟩,
      ⟨"PALMAS_SMPS_PD_CTRL_SMPS12", 0x01, 0⟩]⟩,
   ⟨"SMPS_THERMAL_EN",
     [⟨"PALMAS_SMPS_THERMAL_EN_SMPS9", 0x40, 6⟩,
      ⟨"PALMAS_SMPS_THERMAL_EN_SMPS8", 0x20, 5⟩,
      ⟨"PALMAS_SMPS_THERMAL_EN_SMPS6", 0x08, 3⟩,
      ⟨"PALMAS_SMPS_THERMAL_EN_SMPS457", 0x04, 2⟩,
      ⟨"PALMAS_SMPS_THERMAL_EN_SMPS123", 0x01, 0⟩]⟩,
   ⟨"SMPS_THERMAL_STATUS",
     [⟨"PALMAS_SMPS_THERMAL_STATUS_SMPS9", 0x40, 6⟩,
      ⟨"PALMAS_SMPS_THERMAL_STATUS_SMPS8", 0x20, 5⟩,
      ⟨"PALMAS_SMPS_THERMAL_STATUS_SMPS6", 0x08, 3⟩,
      ⟨"PALMAS_SMPS_THERMAL_STATUS_SMPS457", 0x04, 2⟩,
      ⟨"PALMAS_SMPS_THERMAL_STATUS_SMPS123", 0x01, 0⟩]⟩,
   ⟨"SMPS_SHORT_STATUS",
     [⟨"PALMAS_SMPS_SHORT_STATUS_SMPS10", 0x80, 7⟩,
      ⟨"PALMAS_SMPS_SHORT_STATUS_SMPS9", 0x40, 6⟩,
      ⟨"PALMAS_SMPS_SHORT_STATUS_SMPS8", 0x20, 5⟩,
      ⟨"PALMAS_SMPS_SHORT_STATUS_SMPS7", 0x10, 4⟩,
      ⟨"PALMAS_SMPS_SHORT_STATUS_SMPS6", 0x08, 3⟩,
      ⟨"PALMAS_SMPS_SHORT_STATUS_SMPS45", 0x04, 2⟩,
      ⟨"PALMAS_SMPS_SHORT_STATUS_SMPS3", 0x02, 1⟩,
      ⟨"PALMAS_SMPS_SHORT_STATUS_SMPS12", 0x01, 0⟩]⟩,
   ⟨"SMPS_NEGATIVE_CURRENT_LIMIT_EN",
     [⟨"PALMAS_SMPS_NEGATIVE_CURRENT_LIMIT_EN_SMPS9", 0x40, 6⟩,
      ⟨"PALMAS_SMPS_NEGATIVE_CURRENT_LIMIT_EN_SMPS8", 0x20, 5⟩,
      ⟨"PALMAS_SMPS_NEGATIVE_CURRENT_LIMIT_EN_SMPS7", 0x10, 4⟩,
      ⟨"PALMAS_SMPS_NEGATIVE_CURRENT_LIMIT_EN_SMPS6", 0x08, 3⟩,
      ⟨"PALMAS_SMPS_NEGATIVE_CURRENT_LIMIT_EN_SMPS45", 0x04, 2⟩,
      ⟨"PALMAS_SMPS_NEGATIVE_CURRENT_LIMIT_EN_SMPS3", 0x02, 1⟩,
      ⟨"PALMAS_SMPS_NEGATIVE_CURRENT_LIMIT_EN_SMPS12", 0x01, 0⟩]⟩,
   ⟨"SMPS_POWERGOOD_MASK1",
     [⟨"PALMAS_SMPS_POWERGOOD_MASK1_SMPS10", 0x80, 7⟩,
      ⟨"PALMAS_SMPS_POWERGOOD_MASK1_SMPS9", 0x40, 6⟩,
      ⟨"PALMAS_SMPS_POWERGOOD_MASK1_SMPS8", 0x20, 5⟩,
      ⟨"PALMAS_SMPS_POWERGOOD_MASK1_SMPS7", 0x10, 4⟩,
      ⟨"PALMAS_SMPS_POWERGOOD_MASK1_SMPS6", 0x08, 3⟩,
      ⟨"PALMAS_SMPS_POWERGOOD_MASK1_SMPS45", 0x04, 2⟩,
      ⟨"PALMAS_SMPS_POWERGOOD_MASK1_SMPS3", 0x02, 1⟩,
      ⟨"PALMAS_SMPS_POWERGOOD_MASK1_SMPS12", 0x01, 0⟩]⟩,
   ⟨"SMPS_POWERGOOD_MASK2",
     [⟨"PALMAS_SMPS_POWERGOOD_MASK2_POWERGOOD_TYPE_SELECT", 0x80, 7⟩,
      ⟨"PALMAS_SMPS_POWERGOOD_MASK2_GPIO_7", 0x04, 2⟩,
      ⟨"PALMAS_SMPS_POWERGOOD_MASK2_VBUS", 0x02, 1⟩,
      ⟨"PALMAS_SMPS_POWERGOOD_MASK2_ACOK", 0x01, 0⟩]⟩]

/-- Source: the blocks "Bit definitions for ..." of function LDO (lines 1232 to 1563). -/
def ldo_bits : List register_bits :=
  [⟨"LDO1_CTRL",
     [⟨"PALMAS_LDO1_CTRL_WR_S", 0x80, 7⟩,
      ⟨"PALMAS_LDO1_CTRL_LDO_BYPASS_EN", 0x40, 6⟩,
      ⟨"PALMAS_LDO1_CTRL_STATUS", 0x10, 4⟩,
      ⟨"PALMAS_LDO1_CTRL_MODE_SLEEP", 0x04, 2⟩,
      ⟨"PALMAS_LDO1_CTRL_MODE_ACTIVE", 0x01, 0⟩]⟩,
   ⟨"LDO1_VOLTAGE",
     [⟨"PALMAS_LDO1_VOLTAGE_VSEL_MASK", 0x3f, 0⟩]⟩,
   ⟨"LDO2_CTRL",
     [⟨"PALMAS_LDO2_CTRL_WR_S", 0x80, 7⟩,
      ⟨"PALMAS_LDO2_CTRL_LDO_BYPASS_EN", 0x40, 6⟩,
      ⟨"PALMAS_LDO2_CTRL_STATUS", 0x10, 4⟩,
      ⟨"PALMAS_LDO2_CTRL_MODE_SLEEP", 0x04, 2⟩,
      ⟨"PALMAS_LDO2_CTRL_MODE_ACTIVE", 0x01, 0⟩]⟩,
   ⟨"LDO2_VOLTAGE",
     [⟨"PALMAS_LDO2_VOLTAGE_VSEL_MASK", 0x3f, 0⟩]⟩,
   ⟨"LDO3_CTRL",
     [⟨"PALMAS_LDO3_CTRL_WR_S", 0x80, 7⟩,
      ⟨"PALMAS_LDO3_CTRL_STATUS", 0x10, 4⟩,
      ⟨"PALMAS_LDO3_CTRL_MODE_SLEEP", 0x04, 2⟩,
      ⟨"PALMAS_LDO3_CTRL_MODE_ACTIVE", 0x01, 0⟩]⟩,
   ⟨"LDO3_VOLTAGE",
     [⟨"PALMAS_LDO3_VOLTAGE_VSEL_MASK", 0x3f, 0⟩]⟩,
   ⟨"LDO4_CTRL",
     [⟨"PALMAS_LDO4_CTRL_WR_S", 0x80, 7⟩,
      ⟨"PALMAS_LDO4_CTRL_LDO_BYPASS_EN", 0x40, 6⟩,
      ⟨"PALMAS_LDO4_CTRL_STATUS", 0x10, 4⟩,
      ⟨"PALMAS_LDO4_CTRL_MODE_SLEEP", 0x04, 2⟩,
      ⟨"PALMAS_LDO4_CTRL_MODE_ACTIVE", 0x01, 0⟩]⟩,
   ⟨"LDO4_VOLTAGE",
     [⟨"PALMAS_LDO4_VOLTAGE_VSEL_MASK", 0x3f, 0⟩]⟩,
   ⟨"LDO5_CTRL",
     [⟨"PALMAS_LDO5_CTRL_WR_S", 0x80, 7⟩,
      ⟨"PALMAS_LDO5_CTRL_STATUS", 0x10, 4⟩,
      ⟨"PALMAS_LDO5_CTRL_MODE_SLEEP", 0x04, 2⟩,
      ⟨"PALMAS_LDO5_CTRL_MODE_ACTIVE", 0x01, 0⟩]⟩,
   ⟨"LDO5_VOLTAGE",
     [⟨"PALMAS_LDO5_VOLTAGE_VSEL_MASK", 0x3f, 0⟩]⟩,
   ⟨"LDO6_CTRL",
     [⟨"PALMAS_LDO6_CTRL_WR_S", 0x80, 7⟩,
      ⟨"PALMAS_LDO6_CTRL_LDO_BYPASS_EN", 0x40, 6⟩,
      ⟨"PALMAS_LDO6_CTRL_LDO_VIB_EN", 0x40, 6⟩,
      ⟨"PALMAS_LDO6_CTRL_STATUS", 0x10, 4⟩,
      ⟨"PALMAS_LDO6_CTRL_MODE_SLEEP", 0x04, 2⟩,
      ⟨"PALMAS_LDO6_CTRL_MODE_ACTIVE", 0x01, 0⟩]⟩,
   ⟨"LDO6_VOLTAGE",
     [⟨"PALMAS_LDO6_VOLTAGE_VSEL_MASK", 0x3f, 0⟩]⟩,
   ⟨"LDO7_CTRL",
     [⟨"PALMAS_LDO7_CTRL_WR_S", 0x80, 7⟩,
      ⟨"PALMAS_LDO7_CTRL_STATUS", 0x10, 4⟩,
      ⟨"PALMAS_LDO7_CTRL_MODE_SLEEP", 0x04, 2⟩,
      ⟨"PALMAS_LDO7_CTRL_MODE_ACTIVE", 0x01, 0⟩]⟩,
   ⟨"LDO7_VOLTAGE",
     [⟨"PALMAS_LDO7_VOLTAGE_VSEL_MASK", 0x3f, 0⟩]⟩,
   ⟨"LDO8_CTRL",
     [⟨"PALMAS_LDO8_CTRL_WR_S", 0x80, 7⟩,
      ⟨"PALMAS_LDO8_CTRL_LDO_TRACKING_EN", 0x40, 6⟩,
      ⟨"PALMAS_LDO8_CTRL_STATUS", 0x10, 4⟩,
      ⟨"PALMAS_LDO8_CTRL_MODE_SLEEP", 0x04, 2⟩,
      ⟨"PALMAS_LDO8_CTRL_MODE_ACTIVE", 0x01, 0⟩]⟩,
   ⟨"LDO8_VOLTAGE",
     [⟨"PALMAS_LDO8_VOLTAGE_VSEL_MASK", 0x3f, 0⟩]⟩,
   ⟨"LDO9_CTRL",
     [⟨"PALMAS_LDO9_CTRL_WR_S", 0x80, 7⟩,
      ⟨"PALMAS_LDO9_CTRL_LDO_BYPASS_EN", 0x40, 6⟩,
      ⟨"PALMAS_LDO9_CTRL_STATUS", 0x10, 4⟩,
      ⟨"PALMAS_LDO9_CTRL_MODE_SLEEP", 0x04, 2⟩,
      ⟨"PALMAS_LDO9_CTRL_MODE_ACTIVE", 0x01, 0⟩]⟩,
   ⟨"LDO9_VOLTAGE",
     [⟨"PALMAS_LDO9_VOLTAGE_VSEL_MASK", 0x3f, 0⟩]⟩,
   ⟨"LDO10_CTRL",
     [⟨"PALMAS_LDO10_CTRL_WR_S", 0x80, 7⟩,
      ⟨"PALMAS_LDO10_CTRL_LDO_BYPASS_EN", 0x40, 6⟩,
      ⟨"PALMAS_LDO10_CTRL_STATUS", 0x10, 4⟩,
      ⟨"PALMAS_LDO10_CTRL_MODE_SLEEP", 0x04, 2⟩,
      ⟨"PALMAS_LDO10_CTRL_MODE_ACTIVE", 0x01, 0⟩]⟩,
   ⟨"LDO10_VOLTAGE",
     [⟨"PALMAS_LDO10_VOLTAGE_VSEL_MASK", 0x3f, 0⟩]⟩,
   ⟨"LDO11_CTRL",
     [⟨"PALMAS_LDO11_CTRL_WR_S", 0x80, 7⟩,
      ⟨"PALMAS_LDO11_CTRL_LDO_BYPASS_EN", 0x40, 6⟩,
      ⟨"PALMAS_LDO11_CTRL_STATUS", 0x10, 4⟩,
      ⟨"PALMAS_LDO11_CTRL_MODE_SLEEP", 0x04, 2⟩,
      ⟨"PALMAS_LDO11_CTRL_MODE_ACTIVE", 0x01, 0⟩]⟩,
   ⟨"LDO11_VOLTAGE",
     [⟨"PALMAS_LDO11_VOLTAGE_VSEL_MASK", 0x3f, 0⟩]⟩,
   ⟨"LDO12_CTRL",
     [⟨"PALMAS_LDO12_CTRL_WR_S", 0x80, 7⟩,
      ⟨"PALMAS_LDO12_CTRL_LDO_BYPASS_EN", 0x40, 6⟩,
      ⟨"PALMAS_LDO12_CTRL_STATUS", 0x10, 4⟩,
      ⟨"PALMAS_LDO12_CTRL_MODE_SLEEP", 0x04, 2⟩,
      ⟨"PALMAS_LDO12_CTRL_MODE_ACTIVE", 0x01, 0⟩]⟩,
   ⟨"LDO12_VOLTAGE",
     [⟨"PALMAS_LDO12_VOLTAGE_VSEL_MASK", 0x3f, 0⟩]⟩,
   ⟨"LDO13_CTRL",
     [⟨"PALMAS_LDO13_CTRL_WR_S", 0x80, 7⟩,
      ⟨"PALMAS_LDO13_CTRL_LDO_BYPASS_EN", 0x40, 6⟩,
      ⟨"PALMAS_LDO13_CTRL_STATUS", 0x10, 4⟩,
      ⟨"PALMAS_LDO13_CTRL_MODE_SLEEP", 0x04, 2⟩,
      ⟨"PALMAS_LDO13_CTRL_MODE_ACTIVE", 0x01, 0⟩]⟩,
   ⟨"LDO13_VOLTAGE",
     [⟨"PALMAS_LDO13_VOLTAGE_VSEL_MASK", 0x3f, 0⟩]⟩,
   ⟨"LDO14_CTRL",
     [⟨"PALMAS_LDO14_CTRL_WR_S", 0x80, 7⟩,
      ⟨"PALMAS_LDO14_CTRL_LDO_BYPASS_EN", 0x40, 6⟩,
      ⟨"PALMAS_LDO14_CTRL_STATUS", 0x10, 4⟩,
      ⟨"PALMAS_LDO14_CTRL_MODE_SLEEP", 0x04, 2⟩,
      ⟨"PALMAS_LDO14_CTRL_MODE_ACTIVE", 0x01, 0⟩]⟩,
   ⟨"LDO14_VOLTAGE",
     [⟨"PALMAS_LDO14_VOLTAGE_VSEL_MASK", 0x3f, 0⟩]⟩,
   ⟨"LDOLN_CTRL",
     [⟨"PALMAS_LDOLN_CTRL_WR_S", 0x80, 7⟩,
      ⟨"PALMAS_LDOLN_CTRL_STATUS", 0x10, 4⟩,
      ⟨"PALMAS_LDOLN_CTRL_MODE_SLEEP", 0x04, 2⟩,
      ⟨"PALMAS_LDOLN_CTRL_MODE_ACTIVE", 0x01, 0⟩]⟩,
   ⟨"LDOLN_VOLTAGE",
     [⟨"PALMAS_LDOLN_VOLTAGE_VSEL_MASK", 0x3f, 0⟩]⟩,
   ⟨"LDOUSB_CTRL",
     [⟨"PALMAS_LDOUSB_CTRL_WR_S", 0x80, 7⟩,
      ⟨"PALMAS_LDOUSB_CTRL_STATUS", 0x10, 4⟩,
      ⟨"PALMAS_LDOUSB_CTRL_MODE_SLEEP", 0x04, 2⟩,
      ⟨"PALMAS_LDOUSB_CTRL_MODE_ACTIVE", 0x01, 0⟩]⟩,
   ⟨"LDOUSB_VOLTAGE",
     [⟨"PALMAS_LDOUSB_VOLTAGE_VSEL_MASK", 0x3f, 0⟩]⟩,
   ⟨"LDO_CTRL",
     [⟨"PALMAS_LDO_CTRL_VREF_425", 0x08, 3⟩,
      ⟨"PALMAS_LDO_CTRL_LDOUSB_ON_VBUS_VSYS", 0x01, 0⟩]⟩,
   ⟨"LDO_PD_CTRL1",
     [⟨"PALMAS_LDO_PD_CTRL1_LDO8", 0x80, 7⟩,
      ⟨"PALMAS_LDO_PD_CTRL1_LDO7", 0x40, 6⟩,
      ⟨"PALMAS_LDO_PD_CTRL1_LDO6", 0x20, 5⟩,
      ⟨"PALMAS_LDO_PD_CTRL1_LDO5", 0x10, 4⟩,
      ⟨"PALMAS_LDO_PD_CTRL1_LDO4", 0x08, 3⟩,
      ⟨"PALMAS_LDO_PD_CTRL1_LDO3", 0x04, 2⟩,
      ⟨"PALMAS_LDO_PD_CTRL1_LDO2", 0x02, 1⟩,
      ⟨"PALMAS_LDO_PD_CTRL1_LDO1", 0x01, 0⟩]⟩,
   ⟨"LDO_PD_CTRL2",
     [⟨"PALMAS_LDO_PD_CTRL2_LDO14", 0x80, 7⟩,
      ⟨"PALMAS_LDO_PD_CTRL2_LDO13", 0x40, 6⟩,
      ⟨"PALMAS_LDO_PD_CTRL2_LDO12", 0x20, 5⟩,
      ⟨"PALMAS_LDO_PD_CTRL2_LDO11", 0x10, 4⟩,
      ⟨"PALMAS_LDO_PD_CTRL2_LDO10", 0x08, 3⟩,
      ⟨"PALMAS_LDO_PD_CTRL2_LDOUSB", 0x04, 2⟩,
      ⟨"PALMAS_LDO_PD_CTRL2_LDOLN", 0x02, 1⟩,
      ⟨"PALMAS_LDO_PD_CTRL2_LDO9", 0x01, 0⟩]⟩,
   ⟨"LDO_SHORT_STATUS1",
     [⟨"PALMAS_LDO_SHORT_STATUS1_LDO8", 0x80, 7⟩,
      ⟨"PALMAS_LDO_SHORT_STATUS1_LDO7", 0x40, 6⟩,
      ⟨"PALMAS_LDO_SHORT_STATUS1_LDO6", 0x20, 5⟩,
      ⟨"PALMAS_LDO_SHORT_STATUS1_LDO5", 0x10, 4⟩,
      ⟨"PALMAS_LDO_SHORT_STATUS1_LDO4", 0x08, 3⟩,
      ⟨"PALMAS_LDO_SHORT_STATUS1_LDO3", 0x04, 2⟩,
      ⟨"PALMAS_LDO_SHORT_STATUS1_LDO2", 0x02, 1⟩,
      ⟨"PALMAS_LDO_SHORT_STATUS1_LDO1", 0x01, 0⟩]⟩,
   ⟨"LDO_SHORT_STATUS2",
     [⟨"PALMAS_LDO_SHORT_STATUS2_LDO14", 0x80, 7⟩,
      ⟨"PALMAS_LDO_SHORT_STATUS2_LDO13", 0x40, 6⟩,
      ⟨"PALMAS_LDO_SHORT_STATUS2_LDO12", 0x20, 5⟩,
      ⟨"PALMAS_LDO_SHORT_STATUS2_LDO11", 0x10, 4⟩,
      ⟨"PALMAS_LDO_SHORT_STATUS2_LDO10", 0x08, 3⟩,
      ⟨"PALMAS_LDO_SHORT_STATUS2_LDOVANA", 0x08, 3⟩,
      ⟨"PALMAS_LDO_SHORT_STATUS2_LDOUSB", 0x04, 2⟩,
      ⟨"PALMAS_LDO_SHORT_STATUS2_LDOLN", 0x02, 1⟩,
      ⟨"PALMAS_LDO_SHORT_STATUS2_LDO9", 0x01, 0⟩]⟩]

/-- Source: the blocks "Bit definitions for ..." of function SIMCARD (lines 1583 to 1601). -/
def simcard_bits : List register_bits :=
  [⟨"SIM_DEBOUNCE",
     [⟨"PALMAS_SIM_DEBOUNCE_SIM2_IR", 0x80, 7⟩,
      ⟨"PALMAS_SIM_DEBOUNCE_SIM1_IR", 0x40, 6⟩,
      ⟨"PALMAS_SIM_DEBOUNCE_SIM_DET1_PIN_STATE", 0x20, 5⟩,
      ⟨"PALMAS_SIM_DEBOUNCE_DBCNT_MASK", 0x1F, 0⟩]⟩,
   ⟨"SIM_PWR_DOWN",
     [⟨"PALMAS_SIM_PWR_DOWN_PWRDNEN2", 0x80, 7⟩,
      ⟨"PALMAS_SIM_PWR_DOWN_PWRDNEN1", 0x40, 6⟩,
      ⟨"PALMAS_SIM_PWR_DOWN_SIM_DET2_PIN_STATE", 0x20, 5⟩,
      ⟨"PALMAS_SIM_PWR_DOWN_PWRDNCNT_MASK", 0x1F, 0⟩]⟩]

/-- Source: the blocks "Bit definitions for ..." of function PMU_CONTROL (lines 1628 to 1862). -/
def pmu_control_bits : List register_bits :=
  [⟨"DEV_CTRL",
     [⟨"PALMAS_DEV_CTRL_DEV_STATUS_MASK", 0x0c, 2⟩,
      ⟨"PALMAS_DEV_CTRL_SW_RST", 0x02, 1⟩,
      ⟨"PALMAS_DEV_CTRL_DEV_ON", 0x01, 0⟩]⟩,
   ⟨"POWER_CTRL",
     [⟨"PALMAS_POWER_CTRL_ENABLE2_MASK", 0x04, 2⟩,
      ⟨"PALMAS_POWER_CTRL_ENABLE1_MASK", 0x02, 1⟩,
      ⟨"PALMAS_POWER_CTRL_NSLEEP_MASK", 0x01, 0⟩]⟩,
   ⟨"VSYS_LO",
     [⟨"PALMAS_VSYS_LO_THRESHOLD_MASK", 0x1f, 0⟩]⟩,
   ⟨"VSYS_MON",
     [⟨"PALMAS_VSYS_MON_ENABLE", 0x80, 7⟩,
      ⟨"PALMAS_VSYS_MON_THRESHOLD_MASK", 0x3f, 0⟩]⟩,
   ⟨"VBAT_MON",
     [⟨"PALMAS_VBAT_MON_ENABLE", 0x80, 7⟩,
      ⟨"PALMAS_VBAT_MON_THRESHOLD_MASK", 0x3f, 0⟩]⟩,
   ⟨"WATCHDOG",
     [⟨"PALMAS_WATCHDOG_LOCK", 0x20, 5⟩,
      ⟨"PALMAS_WATCHDOG_ENABLE", 0x10, 4⟩,
      ⟨"PALMAS_WATCHDOG_MODE", 0x08, 3⟩,
      ⟨"PALMAS_WATCHDOG_TIMER_MASK", 0x07, 0⟩]⟩,
   ⟨"BOOT_STATUS",
     [⟨"PALMAS_BOOT_STATUS_BOOT1", 0x02, 1⟩,
      ⟨"PALMAS_BOOT_STATUS_BOOT0", 0x01, 0⟩]⟩,
   ⟨"BATTERY_BOUNCE",
     [⟨"PALMAS_BATTERY_BOUNCE_BB_DELAY_MASK", 0x3f, 0⟩]⟩,
   ⟨"BACKUP_BATTERY_CTRL",
     [⟨"PALMAS_BACKUP_BATTERY_CTRL_VRTC_18_15", 0x80, 7⟩,
      ⟨"PALMAS_BACKUP_BATTERY_CTRL_VRTC_EN_SLP", 0x40, 6⟩,
      ⟨"PALMAS_BACKUP_BATTERY_CTRL_VRTC_EN_OFF", 0x20, 5⟩,
      ⟨"PALMAS_BACKUP_BATTERY_CTRL_VRTC_PWEN", 0x10, 4⟩,
      ⟨"PALMAS_BACKUP_BATTERY_CTRL_BBS_BBC_LOW_ICHRG", 0x08, 3⟩,
      ⟨"PALMAS_BACKUP_BATTERY_CTRL_BB_SEL_MASK", 0x06, 1⟩,
      ⟨"PALMAS_BACKUP_BATTERY_CTRL_BB_CHG_EN", 0x01, 0⟩]⟩,
   ⟨"LONG_PRESS_KEY",
     [⟨"PALMAS_LONG_PRESS_KEY_LPK_LOCK", 0x80, 7⟩,
      ⟨"PALMAS_LONG_PRESS_KEY_LPK_INT_CLR", 0x10, 4⟩,
      ⟨"PALMAS_LONG_PRESS_KEY_LPK_TIME_MASK", 0x0c, 2⟩,
      ⟨"PALMAS_LONG_PRESS_KEY_PWRON_DEBOUNCE_MASK", 0x03, 0⟩]⟩,
   ⟨"OSC_THERM_CTRL",
     [⟨"PALMAS_OSC_THERM_CTRL_VANA_ON_IN_SLEEP", 0x80, 7⟩,
      ⟨"PALMAS_OSC_THERM_CTRL_INT_MASK_IN_SLEEP", 0x40, 6⟩,
      ⟨"PALMAS_OSC_THERM_CTRL_RC15MHZ_ON_IN_SLEEP", 0x20, 5⟩,
      ⟨"PALMAS_OSC_THERM_CTRL_THERM_OFF_IN_SLEEP", 0x10, 4⟩,
      ⟨"PALMAS_OSC_THERM_CTRL_THERM_HD_SEL_MASK", 0x0c, 2⟩,
      ⟨"PALMAS_OSC_THERM_CTRL_OSC_BYPASS", 0x02, 1⟩,
      ⟨"PALMAS_OSC_THERM_CTRL_OSC_HPMODE", 0x01, 0⟩]⟩,
   ⟨"BATDEBOUNCING",
     [⟨"PALMAS_BATDEBOUNCING_BAT_DEB_BYPASS", 0x80, 7⟩,
      ⟨"PALMAS_BATDEBOUNCING_BINS_DEB_MASK", 0x78, 3⟩,
      ⟨"PALMAS_BATDEBOUNCING_BEXT_DEB_MASK", 0x07, 0⟩]⟩,
   ⟨"SWOFF_HWRST",
     [⟨"PALMAS_SWOFF_HWRST_PWRON_LPK", 0x80, 7⟩,
      ⟨"PALMAS_SWOFF_HWRST_PWRDOWN", 0x40, 6⟩,
      ⟨"PALMAS_SWOFF_HWRST_WTD", 0x20, 5⟩,
      ⟨"PALMAS_SWOFF_HWRST_TSHUT", 0x10, 4⟩,
      ⟨"PALMAS_SWOFF_HWRST_RESET_IN", 0x08, 3⟩,
      ⟨"PALMAS_SWOFF_HWRST_SW_RST", 0x04, 2⟩,
      ⟨"PALMAS_SWOFF_HWRST_VSYS_LO", 0x02, 1⟩,
      ⟨"PALMAS_SWOFF_HWRST_GPADC_SHUTDOWN", 0x01, 0⟩]⟩,
   ⟨"SWOFF_COLDRST",
     [⟨"PALMAS_SWOFF_COLDRST_PWRON_LPK", 0x80, 7⟩,
      ⟨"PALMAS_SWOFF_COLDRST_PWRDOWN", 0x40, 6⟩,
      ⟨"PALMAS_SWOFF_COLDRST_WTD", 0x20, 5⟩,
      ⟨"PALMAS_SWOFF_COLDRST_TSHUT", 0x10, 4⟩,
      ⟨"PALMAS_SWOFF_COLDRST_RESET_IN", 0x08, 3⟩,
      ⟨"PALMAS_SWOFF_COLDRST_SW_RST", 0x04, 2⟩,
      ⟨"PALMAS_SWOFF_COLDRST_VSYS_LO", 0x02, 1⟩,
      ⟨"PALMAS_SWOFF_COLDRST_GPADC_SHUTDOWN", 0x01, 0⟩]⟩,
   ⟨"SWOFF_STATUS",
     [⟨"PALMAS_SWOFF_STATUS_PWRON_LPK", 0x80, 7⟩,
      ⟨"PALMAS_SWOFF_STATUS_PWRDOWN", 0x40, 6⟩,
      ⟨"PALMAS_SWOFF_STATUS_WTD", 0x20, 5⟩,
      ⟨"PALMAS_SWOFF_STATUS_TSHUT", 0x10, 4⟩,
      ⟨"PALMAS_SWOFF_STATUS_RESET_IN", 0x08, 3⟩,
      ⟨"PALMAS_SWOFF_STATUS_SW_RST", 0x04, 2⟩,
      ⟨"PALMAS_SWOFF_STATUS_VSYS_LO", 0x02, 1⟩,
      ⟨"PALMAS_SWOFF_STATUS_GPADC_SHUTDOWN", 0x01, 0⟩]⟩,
   ⟨"PMU_CONFIG",
     [⟨"PALMAS_PMU_CONFIG_MULTI_CELL_EN", 0x40, 6⟩,
      ⟨"PALMAS_PMU_CONFIG_SPARE_MASK", 0x30, 4⟩,
      ⟨"PALMAS_PMU_CONFIG_SWOFF_DLY_MASK", 0x0c, 2⟩,
      ⟨"PALMAS_PMU_CONFIG_GATE_RESET_OUT", 0x02, 1⟩,
      ⟨"PALMAS_PMU_CONFIG_AUTODEVON", 0x01, 0⟩]⟩,
   ⟨"SPARE",
     [⟨"PALMAS_SPARE_SPARE_MASK", 0xf8, 3⟩,
      ⟨"PALMAS_SPARE_REGEN3_OD", 0x04, 2⟩,
      ⟨"PALMAS_SPARE_REGEN2_OD", 0x02, 1⟩,
      ⟨"PALMAS_SPARE_REGEN1_OD", 0x01, 0⟩]⟩,
   ⟨"PMU_SECONDARY_INT",
     [⟨"PALMAS_PMU_SECONDARY_INT_VBUS_OVV_INT_SRC", 0x80, 7⟩,
      ⟨"PALMAS_PMU_SECONDARY_INT_CHARG_DET_N_INT_SRC", 0x40, 6⟩,
      ⟨"PALMAS_PMU_SECONDARY_INT_BB_INT_SRC", 0x20, 5⟩,
      ⟨"PALMAS_PMU_SECONDARY_INT_FBI_INT_SRC", 0x10, 4⟩,
      ⟨"PALMAS_PMU_SECONDARY_INT_VBUS_OVV_MASK", 0x08, 3⟩,
      ⟨"PALMAS_PMU_SECONDARY_INT_CHARG_DET_N_MASK", 0x04, 2⟩,
      ⟨"PALMAS_PMU_SECONDARY_INT_BB_MASK", 0x02, 1⟩,
      ⟨"PALMAS_PMU_SECONDARY_INT_FBI_MASK", 0x01, 0⟩]⟩,
   ⟨"SW_REVISION",
     [⟨"PALMAS_SW_REVISION_SW_REVISION_MASK", 0xff, 0⟩]⟩,
   ⟨"EXT_CHRG_CTRL",
     [⟨"PALMAS_EXT_CHRG_CTRL_VBUS_OVV_STATUS", 0x80, 7⟩,
      ⟨"PALMAS_EXT_CHRG_CTRL_CHARG_DET_N_STATUS", 0x40, 6⟩,
      ⟨"PALMAS_EXT_CHRG_CTRL_VSYS_DEBOUNCE_DELAY", 0x08, 3⟩,
      ⟨"PALMAS_EXT_CHRG_CTRL_CHRG_DET_N", 0x04, 2⟩,
      ⟨"PALMAS_EXT_CHRG_CTRL_AUTO_ACA_EN", 0x02, 1⟩,
      ⟨"PALMAS_EXT_CHRG_CTRL_AUTO_LDOUSB_EN", 0x01, 0⟩]⟩,
   ⟨"PMU_SECONDARY_INT2",
     [⟨"PALMAS_PMU_SECONDARY_INT2_DVFS2_INT_SRC", 0x20, 5⟩,
      ⟨"PALMAS_PMU_SECONDARY_INT2_DVFS1_INT_SRC", 0x10, 4⟩,
      ⟨"PALMAS_PMU_SECONDARY_INT2_DVFS2_MASK", 0x02, 1⟩,
      ⟨"PALMAS_PMU_SECONDARY_INT2_DVFS1_MASK", 0x01, 0⟩]⟩,
   ⟨"USB_CHGCTL1", []⟩,
   ⟨"USB_CHGCTL2", []⟩]

/-- Source: the blocks "Bit definitions for ..." of function RESOURCE (lines 1897 to 2211). -/
def resource_bits : List register_bits :=
  [⟨"CLK32KG_CTRL",
     [⟨"PALMAS_CLK32KG_CTRL_STATUS", 0x10, 4⟩,
      ⟨"PALMAS_CLK32KG_CTRL_MODE_SLEEP", 0x04, 2⟩,
      ⟨"PALMAS_CLK32KG_CTRL_MODE_ACTIVE", 0x01, 0⟩]⟩,
   ⟨"CLK32KGAUDIO_CTRL",
     [⟨"PALMAS_CLK32KGAUDIO_CTRL_STATUS", 0x10, 4⟩,
      ⟨"PALMAS_CLK32KGAUDIO_CTRL_RESERVED3", 0x08, 3⟩,
      ⟨"PALMAS_CLK32KGAUDIO_CTRL_MODE_SLEEP", 0x04, 2⟩,
      ⟨"PALMAS_CLK32KGAUDIO_CTRL_MODE_ACTIVE", 0x01, 0⟩]⟩,
   ⟨"REGEN1_CTRL",
     [⟨"PALMAS_REGEN1_CTRL_STATUS", 0x10, 4⟩,
      ⟨"PALMAS_REGEN1_CTRL_MODE_SLEEP", 0x04, 2⟩,
      ⟨"PALMAS_REGEN1_CTRL_MODE_ACTIVE", 0x01, 0⟩]⟩,
   ⟨"REGEN2_CTRL",
     [⟨"PALMAS_REGEN2_CTRL_STATUS", 0x10, 4⟩,
      ⟨"PALMAS_REGEN2_CTRL_MODE_SLEEP", 0x04, 2⟩,
      ⟨"PALMAS_REGEN2_CTRL_MODE_ACTIVE", 0x01, 0⟩]⟩,
   ⟨"SYSEN1_CTRL",
     [⟨"PALMAS_SYSEN1_CTRL_STATUS", 0x10, 4⟩,
      ⟨"PALMAS_SYSEN1_CTRL_MODE_SLEEP", 0x04, 2⟩,
      ⟨"PALMAS_SYSEN1_CTRL_MODE_ACTIVE", 0x01, 0⟩]⟩,
   ⟨"SYSEN2_CTRL",
     [⟨"PALMAS_SYSEN2_CTRL_STATUS", 0x10, 4⟩,
      ⟨"PALMAS_SYSEN2_CTRL_MODE_SLEEP", 0x04, 2⟩,
      ⟨"PALMAS_SYSEN2_CTRL_MODE_ACTIVE", 0x01, 0⟩]⟩,
   ⟨"NSLEEP_RES_ASSIGN",
     [⟨"PALMAS_NSLEEP_RES_ASSIGN_REGEN4", 0x80, 7⟩,
      ⟨"PALMAS_NSLEEP_RES_ASSIGN_REGEN3", 0x40, 6⟩,
      ⟨"PALMAS_NSLEEP_RES_ASSIGN_CLK32KGAUDIO", 0x20, 5⟩,
      ⟨"PALMAS_NSLEEP_RES_ASSIGN_CLK32KG", 0x10, 4⟩,
      ⟨"PALMAS_NSLEEP_RES_ASSIGN_SYSEN2", 0x08, 3⟩,
      ⟨"PALMAS_NSLEEP_RES_ASSIGN_SYSEN1", 0x04, 2⟩,
      ⟨"PALMAS_NSLEEP_RES_ASSIGN_REGEN2", 0x02, 1⟩,
      ⟨"PALMAS_NSLEEP_RES_ASSIGN_REGEN1", 0x01, 0⟩]⟩,
   ⟨"NSLEEP_SMPS_ASSIGN",
     [⟨"PALMAS_NSLEEP_SMPS_ASSIGN_SMPS10", 0x80, 7⟩,
      ⟨"PALMAS_NSLEEP_SMPS_ASSIGN_SMPS9", 0x40, 6⟩,
      ⟨"PALMAS_NSLEEP_SMPS_ASSIGN_SMPS8", 0x20, 5⟩,
      ⟨"PALMAS_NSLEEP_SMPS_ASSIGN_SMPS7", 0x10, 4⟩,
      ⟨"PALMAS_NSLEEP_SMPS_ASSIGN_SMPS6", 0x08, 3⟩,
      ⟨"PALMAS_NSLEEP_SMPS_ASSIGN_SMPS45", 0x04, 2⟩,
      ⟨"PALMAS_NSLEEP_SMPS_ASSIGN_SMPS3", 0x02, 1⟩,
      ⟨"PALMAS_NSLEEP_SMPS_ASSIGN_SMPS12", 0x01, 0⟩]⟩,
   ⟨"NSLEEP_LDO_ASSIGN1",
     [⟨"PALMAS_NSLEEP_LDO_ASSIGN1_LDO8", 0x80, 7⟩,
      ⟨"PALMAS_NSLEEP_LDO_ASSIGN1_LDO7", 0x40, 6⟩,
      ⟨"PALMAS_NSLEEP_LDO_ASSIGN1_LDO6", 0x20, 5⟩,
      ⟨"PALMAS_NSLEEP_LDO_ASSIGN1_LDO5", 0x10, 4⟩,
      ⟨"PALMAS_NSLEEP_LDO_ASSIGN1_LDO4", 0x08, 3⟩,
      ⟨"PALMAS_NSLEEP_LDO_ASSIGN1_LDO3", 0x04, 2⟩,
      ⟨"PALMAS_NSLEEP_LDO_ASSIGN1_LDO2", 0x02, 1⟩,
      ⟨"PALMAS_NSLEEP_LDO_ASSIGN1_LDO1", 0x01, 0⟩]⟩,
   ⟨"NSLEEP_LDO_ASSIGN2",
     [⟨"PALMAS_NSLEEP_LDO_ASSIGN2_LDO14", 0x80, 7⟩,
      ⟨"PALMAS_NSLEEP_LDO_ASSIGN2_LDO13", 0x40, 6⟩,
      ⟨"PALMAS_NSLEEP_LDO_ASSIGN2_LDO12", 0x20, 5⟩,
      ⟨"PALMAS_NSLEEP_LDO_ASSIGN2_LDO11", 0x10, 4⟩,
      ⟨"PALMAS_NSLEEP_LDO_ASSIGN2_LDO10", 0x08, 3⟩,
      ⟨"PALMAS_NSLEEP_LDO_ASSIGN2_LDOUSB", 0x04, 2⟩,
      ⟨"PALMAS_NSLEEP_LDO_ASSIGN2_LDOLN", 0x02, 1⟩,
      ⟨"PALMAS_NSLEEP_LDO_ASSIGN2_LDO9", 0x01, 0⟩]⟩,
   ⟨"ENABLE1_RES_ASSIGN",
     [⟨"PALMAS_ENABLE1_RES_ASSIGN_REGEN4", 0x80, 7⟩,
      ⟨"PALMAS_ENABLE1_RES_ASSIGN_REGEN3", 0x40, 6⟩,
      ⟨"PALMAS_ENABLE1_RES_ASSIGN_CLK32KGAUDIO", 0x20, 5⟩,
      ⟨"PALMAS_ENABLE1_RES_ASSIGN_CLK32KG", 0x10, 4⟩,
      ⟨"PALMAS_ENABLE1_RES_ASSIGN_SYSEN2", 0x08, 3⟩,
      ⟨"PALMAS_ENABLE1_RES_ASSIGN_SYSEN1", 0x04, 2⟩,
      ⟨"PALMAS_ENABLE1_RES_ASSIGN_REGEN2", 0x02, 1⟩,
      ⟨"PALMAS_ENABLE1_RES_ASSIGN_REGEN1", 0x01, 0⟩]⟩,
   ⟨"ENABLE1_SMPS_ASSIGN",
     [⟨"PALMAS_ENABLE1_SMPS_ASSIGN_SMPS10", 0x80, 7⟩,
      ⟨"PALMAS_ENABLE1_SMPS_ASSIGN_SMPS9", 0x40, 6⟩,
      ⟨"PALMAS_ENABLE1_SMPS_ASSIGN_SMPS8", 0x20, 5⟩,
      ⟨"PALMAS_ENABLE1_SMPS_ASSIGN_SMPS7", 0x10, 4⟩,
      ⟨"PALMAS_ENABLE1_SMPS_ASSIGN_SMPS6", 0x08, 3⟩,
      ⟨"PALMAS_ENABLE1_SMPS_ASSIGN_SMPS45", 0x04, 2⟩,
      ⟨"PALMAS_ENABLE1_SMPS_ASSIGN_SMPS3", 0x02, 1⟩,
      ⟨"PALMAS_ENABLE1_SMPS_ASSIGN_SMPS12", 0x01, 0⟩]⟩,
   ⟨"ENABLE1_LDO_ASSIGN1",
     [⟨"PALMAS_ENABLE1_LDO_ASSIGN1_LDO8", 0x80, 7⟩,
      ⟨"PALMAS_ENABLE1_LDO_ASSIGN1_LDO7", 0x40, 6⟩,
      ⟨"PALMAS_ENABLE1_LDO_ASSIGN1_LDO6", 0x20, 5⟩,
      ⟨"PALMAS_ENABLE1_LDO_ASSIGN1_LDO5", 0x10, 4⟩,
      ⟨"PALMAS_ENABLE1_LDO_ASSIGN1_LDO4", 0x08, 3⟩,
      ⟨"PALMAS_ENABLE1_LDO_ASSIGN1_LDO3", 0x04, 2⟩,
      ⟨"PALMAS_ENABLE1_LDO_ASSIGN1_LDO2", 0x02, 1⟩,
      ⟨"PALMAS_ENABLE1_LDO_ASSIGN1_LDO1", 0x01, 0⟩]⟩,
   ⟨"ENABLE1_LDO_ASSIGN2",
     [⟨"PALMAS_ENABLE1_LDO_ASSIGN2_LDO14", 0x80, 7⟩,
      ⟨"PALMAS_ENABLE1_LDO_ASSIGN2_LDO13", 0x40, 6⟩,
      ⟨"PALMAS_ENABLE1_LDO_ASSIGN2_LDO12", 0x20, 5⟩,
      ⟨"PALMAS_ENABLE1_LDO_ASSIGN2_LDO11", 0x10, 4⟩,
      ⟨"PALMAS_ENABLE1_LDO_ASSIGN2_LDO10", 0x08, 3⟩,
      ⟨"PALMAS_ENABLE1_LDO_ASSIGN2_LDOUSB", 0x04, 2⟩,
      ⟨"PALMAS_ENABLE1_LDO_ASSIGN2_LDOLN", 0x02, 1⟩,
      ⟨"PALMAS_ENABLE1_LDO_ASSIGN2_LDO9", 0x01, 0⟩]⟩,
   ⟨"ENABLE2_RES_ASSIGN",
     [⟨"PALMAS_ENABLE2_RES_ASSIGN_REGEN4", 0x80, 7⟩,
      ⟨"PALMAS_ENABLE2_RES_ASSIGN_REGEN3", 0x40, 6⟩,
      ⟨"PALMAS_ENABLE2_RES_ASSIGN_CLK32KGAUDIO", 0x20, 5⟩,
      ⟨"PALMAS_ENABLE2_RES_ASSIGN_CLK32KG", 0x10, 4⟩,
      ⟨"PALMAS_ENABLE2_RES_ASSIGN_SYSEN2", 0x08, 3⟩,
      ⟨"PALMAS_ENABLE2_RES_ASSIGN_SYSEN1", 0x04, 2⟩,
      ⟨"PALMAS_ENABLE2_RES_ASSIGN_REGEN2", 0x02, 1⟩,
      ⟨"PALMAS_ENABLE2_RES_ASSIGN_REGEN1", 0x01, 0⟩]⟩,
   ⟨"ENABLE2_SMPS_ASSIGN",
     [⟨"PALMAS_ENABLE2_SMPS_ASSIGN_SMPS10", 0x80, 7⟩,
      ⟨"PALMAS_ENABLE2_SMPS_ASSIGN_SMPS9", 0x40, 6⟩,
      ⟨"PALMAS_ENABLE2_SMPS_ASSIGN_SMPS8", 0x20, 5⟩,
      ⟨"PALMAS_ENABLE2_SMPS_ASSIGN_SMPS7", 0x10, 4⟩,
      ⟨"PALMAS_ENABLE2_SMPS_ASSIGN_SMPS6", 0x08, 3⟩,
      ⟨"PALMAS_ENABLE2_SMPS_ASSIGN_SMPS45", 0x04, 2⟩,
      ⟨"PALMAS_ENABLE2_SMPS_ASSIGN_SMPS3", 0x02, 1⟩,
      ⟨"PALMAS_ENABLE2_SMPS_ASSIGN_SMPS12", 0x01, 0⟩]⟩,
   ⟨"ENABLE2_LDO_ASSIGN1",
     [⟨"PALMAS_ENABLE2_LDO_ASSIGN1_LDO8", 0x80, 7⟩,
      ⟨"PALMAS_ENABLE2_LDO_ASSIGN1_LDO7", 0x40, 6⟩,
      ⟨"PALMAS_ENABLE2_LDO_ASSIGN1_LDO6", 0x20, 5⟩,
      ⟨"PALMAS_ENABLE2_LDO_ASSIGN1_LDO5", 0x10, 4⟩,
      ⟨"PALMAS_ENABLE2_LDO_ASSIGN1_LDO4", 0x08, 3⟩,
      ⟨"PALMAS_ENABLE2_LDO_ASSIGN1_LDO3", 0x04, 2⟩,
      ⟨"PALMAS_ENABLE2_LDO_ASSIGN1_LDO2", 0x02, 1⟩,
      ⟨"PALMAS_ENABLE2_LDO_ASSIGN1_LDO1", 0x01, 0⟩]⟩,
   ⟨"ENABLE2_LDO_ASSIGN2",
     [⟨"PALMAS_ENABLE2_LDO_ASSIGN2_LDO14", 0x80, 7⟩,
      ⟨"PALMAS_ENABLE2_LDO_ASSIGN2_LDO13", 0x40, 6⟩,
      ⟨"PALMAS_ENABLE2_LDO_ASSIGN2_LDO12", 0x20, 5⟩,
      ⟨"PALMAS_ENABLE2_LDO_ASSIGN2_LDO11", 0x10, 4⟩,
      ⟨"PALMAS_ENABLE2_LDO_ASSIGN2_LDO10", 0x08, 3⟩,
      ⟨"PALMAS_ENABLE2_LDO_ASSIGN2_LDOUSB", 0x04, 2⟩,
      ⟨"PALMAS_ENABLE2_LDO_ASSIGN2_LDOLN", 0x02, 1⟩,
      ⟨"PALMAS_ENABLE2_LDO_ASSIGN2_LDO9", 0x01, 0⟩]⟩,
   ⟨"REGEN3_CTRL",
     [⟨"PALMAS_REGEN3_CTRL_STATUS", 0x10, 4⟩,
      ⟨"PALMAS_REGEN3_CTRL_MODE_SLEEP", 0x04, 2⟩,
      ⟨"PALMAS_REGEN3_CTRL_MODE_ACTIVE", 0x01, 0⟩]⟩,
   ⟨"REGEN4_CTRL",
     [⟨"PALMAS_REGEN4_CTRL_STATUS", 0x10, 4⟩,
      ⟨"PALMAS_REGEN4_CTRL_MODE_SLEEP", 0x04, 2⟩,
      ⟨"PALMAS_REGEN4_CTRL_MODE_ACTIVE", 0x01, 0⟩]⟩,
   ⟨"REGEN5_CTRL",
     [⟨"PALMAS_REGEN5_CTRL_STATUS", 0x10, 4⟩,
      ⟨"PALMAS_REGEN5_CTRL_MODE_SLEEP", 0x04, 2⟩,
      ⟨"PALMAS_REGEN5_CTRL_MODE_ACTIVE", 0x01, 0⟩]⟩,
   ⟨"REGEN7_CTRL",
     [⟨"PALMAS_REGEN7_CTRL_STATUS", 0x10, 4⟩,
      ⟨"PALMAS_REGEN7_CTRL_MODE_SLEEP", 0x04, 2⟩,
      ⟨"PALMAS_REGEN7_CTRL_MODE_ACTIVE", 0x01, 0⟩]⟩,
   ⟨"NSLEEP_RES_ASSIGN2",
     [⟨"PALMAS_NSLEEP_RES_ASSIGN_REGEN7", 0x04, 2⟩,
      ⟨"PALMAS_NSLEEP_RES_ASSIGN_REGEN5", 0x01, 0⟩]⟩,
   ⟨"ENABLE1_RES_ASSIGN2",
     [⟨"PALMAS_ENABLE1_RES_ASSIGN_REGEN7", 0x04, 2⟩,
      ⟨"PALMAS_ENABLE1_RES_ASSIGN_REGEN5", 0x01, 0⟩]⟩,
   ⟨"ENABLE2_RES_ASSIGN2",
     [⟨"PALMAS_ENABLE2_RES_ASSIGN_REGEN7", 0x04, 2⟩,
      ⟨"PALMAS_ENABLE2_RES_ASSIGN_REGEN5", 0x01, 0⟩]⟩]

/-- Source: the blocks "Bit definitions for ..." of function PAD_CONTROL (lines 2229 to 2389). -/
def pad_control_bits : List register_bits :=
  [⟨"OD_OUTPUT_CTRL2",
     [⟨"PALMAS_OD_OUTPUT_CTRL2_OD_REGEN7", 0x40, 6⟩,
      ⟨"PALMAS_OD_OUTPUT_CTRL2_OD_REGEN5", 0x10, 4⟩,
      ⟨"PALMAS_OD_OUTPUT_CTRL2_OD_REGEN4", 0x08, 3⟩,
      ⟨"PALMAS_OD_OUTPUT_CTRL2_OD_REGEN2", 0x02, 1⟩,
      ⟨"PALMAS_OD_OUTPUT_CTRL2_OD_REGEN1", 0x01, 0⟩]⟩,
   ⟨"POLARITY_CTRL2",
     [⟨"PALMAS_POLARITY_CTRL2_DET_POLARITY", 0x01, 0⟩]⟩,
   ⟨"PU_PD_INPUT_CTRL1",
     [⟨"PALMAS_PU_PD_INPUT_CTRL1_RESET_IN_PD", 0x40, 6⟩,
      ⟨"PALMAS_PU_PD_INPUT_CTRL1_GPADC_START_PU", 0x20, 5⟩,
      ⟨"PALMAS_PU_PD_INPUT_CTRL1_GPADC_START_PD", 0x10, 4⟩,
      ⟨"PALMAS_PU_PD_INPUT_CTRL1_PWRDOWN_PD", 0x04, 2⟩,
      ⟨"PALMAS_PU_PD_INPUT_CTRL1_NRESWARM_PU", 0x02, 1⟩]⟩,
   ⟨"PU_PD_INPUT_CTRL2",
     [⟨"PALMAS_PU_PD_INPUT_CTRL2_ENABLE2_PU", 0x20, 5⟩,
      ⟨"PALMAS_PU_PD_INPUT_CTRL2_ENABLE2_PD", 0x10, 4⟩,
      ⟨"PALMAS_PU_PD_INPUT_CTRL2_ENABLE1_PU", 0x08, 3⟩,
      ⟨"PALMAS_PU_PD_INPUT_CTRL2_ENABLE1_PD", 0x04, 2⟩,
      ⟨"PALMAS_PU_PD_INPUT_CTRL2_NSLEEP_PU", 0x02, 1⟩,
      ⟨"PALMAS_PU_PD_INPUT_CTRL2_NSLEEP_PD", 0x01, 0⟩]⟩,
   ⟨"PU_PD_INPUT_CTRL3",
     [⟨"PALMAS_PU_PD_INPUT_CTRL3_ACOK_PD", 0x40, 6⟩,
      ⟨"PALMAS_PU_PD_INPUT_CTRL3_CHRG_DET_N_PD", 0x10, 4⟩,
      ⟨"PALMAS_PU_PD_INPUT_CTRL3_POWERHOLD_PD", 0x04, 2⟩,
      ⟨"PALMAS_PU_PD_INPUT_CTRL3_MSECURE_PD", 0x01, 0⟩]⟩,
   ⟨"PU_PD_INPUT_CTRL5",
     [⟨"PALMAS_PU_PD_INPUT_CTRL5_DET2_PU", 0x80, 7⟩,
      ⟨"PALMAS_PU_PD_INPUT_CTRL5_DET2_PD", 0x40, 6⟩,
      ⟨"PALMAS_PU_PD_INPUT_CTRL5_DET1_PU", 0x20, 5⟩,
      ⟨"PALMAS_PU_PD_INPUT_CTRL5_DET1_PD", 0x10, 4⟩]⟩,
   ⟨"OD_OUTPUT_CTRL",
     [⟨"PALMAS_OD_OUTPUT_CTRL_PWM_2_OD", 0x80, 7⟩,
      ⟨"PALMAS_OD_OUTPUT_CTRL_VBUSDET_OD", 0x40, 6⟩,
      ⟨"PALMAS_OD_OUTPUT_CTRL_PWM_1_OD", 0x20, 5⟩,
      ⟨"PALMAS_OD_OUTPUT_CTRL_INT_OD", 0x08, 3⟩]⟩,
   ⟨"POLARITY_CTRL",
     [⟨"PALMAS_POLARITY_CTRL_INT_POLARITY", 0x80, 7⟩,
      ⟨"PALMAS_POLARITY_CTRL_ENABLE2_POLARITY", 0x40, 6⟩,
      ⟨"PALMAS_POLARITY_CTRL_ENABLE1_POLARITY", 0x20, 5⟩,
      ⟨"PALMAS_POLARITY_CTRL_NSLEEP_POLARITY", 0x10, 4⟩,
      ⟨"PALMAS_POLARITY_CTRL_RESET_IN_POLARITY", 0x08, 3⟩,
      ⟨"PALMAS_POLARITY_CTRL_GPIO_3_CHRG_DET_N_POLARITY", 0x04, 2⟩,
      ⟨"PALMAS_POLARITY_CTRL_POWERGOOD_USB_PSEL_POLARITY", 0x02, 1⟩,
      ⟨"PALMAS_POLARITY_CTRL_PWRDOWN_POLARITY", 0x01, 0⟩]⟩,
   ⟨"PRIMARY_SECONDARY_PAD1",
     [⟨"PALMAS_PRIMARY_SECONDARY_PAD1_GPIO_3", 0x80, 7⟩,
      ⟨"PALMAS_PRIMARY_SECONDARY_PAD1_GPIO_2_MASK", 0x60, 5⟩,
      ⟨"PALMAS_PRIMARY_SECONDARY_PAD1_GPIO_1_MASK", 0x18, 3⟩,
      ⟨"PALMAS_PRIMARY_SECONDARY_PAD1_GPIO_0", 0x04, 2⟩,
      ⟨"PALMAS_PRIMARY_SECONDARY_PAD1_VAC", 0x02, 1⟩,
      ⟨"PALMAS_PRIMARY_SECONDARY_PAD1_POWERGOOD", 0x01, 0⟩]⟩,
   ⟨"PRIMARY_SECONDARY_PAD2",
     [⟨"PALMAS_PRIMARY_SECONDARY_PAD2_GPIO_4_MSB", 0x04, 6⟩,
      ⟨"PALMAS_PRIMARY_SECONDARY_PAD2_GPIO_7_MASK", 0x30, 4⟩,
      ⟨"PALMAS_PRIMARY_SECONDARY_PAD2_GPIO_6", 0x08, 3⟩,
      ⟨"PALMAS_PRIMARY_SECONDARY_PAD2_GPIO_5_MASK", 0x06, 1⟩,
      ⟨"PALMAS_PRIMARY_SECONDARY_PAD2_GPIO_4", 0x01, 0⟩]⟩,
   ⟨"I2C_SPI",
     [⟨"PALMAS_I2C_SPI_I2C2OTP_EN", 0x80, 7⟩,
      ⟨"PALMAS_I2C_SPI_I2C2OTP_PAGESEL", 0x40, 6⟩,
      ⟨"PALMAS_I2C_SPI_ID_I2C2", 0x20, 5⟩,
      ⟨"PALMAS_I2C_SPI_I2C_SPI", 0x10, 4⟩,
      ⟨"PALMAS_I2C_SPI_ID_I2C1_MASK", 0x0f, 0⟩]⟩,
   ⟨"PU_PD_INPUT_CTRL4",
     [⟨"PALMAS_PU_PD_INPUT_CTRL4_DVFS2_DAT_PD", 0x40, 6⟩,
      ⟨"PALMAS_PU_PD_INPUT_CTRL4_DVFS2_CLK_PD", 0x10, 4⟩,
      ⟨"PALMAS_PU_PD_INPUT_CTRL4_DVFS1_DAT_PD", 0x04, 2⟩,
      ⟨"PALMAS_PU_PD_INPUT_CTRL4_DVFS1_CLK_PD", 0x01, 0⟩]⟩,
   ⟨"PRIMARY_SECONDARY_PAD3",
     [⟨"PALMAS_PRIMARY_SECONDARY_PAD3_DVFS2", 0x02, 1⟩,
      ⟨"PALMAS_PRIMARY_SECONDARY_PAD3_DVFS1", 0x01, 0⟩]⟩,
   ⟨"PRIMARY_SECONDARY_PAD4",
     [⟨"PALMAS_PRIMARY_SECONDARY_PAD4_GPIO_15_MASK", 0x80, 7⟩,
      ⟨"PALMAS_PRIMARY_SECONDARY_PAD4_GPIO_14_MASK", 0x40, 6⟩,
      ⟨"PALMAS_PRIMARY_SECONDARY_PAD4_GPIO_13_MASK", 0x20, 5⟩,
      ⟨"PALMAS_PRIMARY_SECONDARY_PAD4_GPIO_12_MASK", 0x10, 4⟩,
      ⟨"PALMAS_PRIMARY_SECONDARY_PAD4_GPIO_11_MASK", 0x08, 3⟩,
      ⟨"PALMAS_PRIMARY_SECONDARY_PAD4_GPIO_10_MASK", 0x04, 2⟩,
      ⟨"PALMAS_PRIMARY_SECONDARY_PAD4_GPIO_9_MASK", 0x02, 1⟩,
      ⟨"PALMAS_PRIMARY_SECONDARY_PAD4_GPIO_8_MASK", 0x01, 0⟩]⟩]

/-- Source: the blocks "Bit definitions for ..." of function LED_PWM (lines 2397 to 2421). -/
def led_pwm_bits : List register_bits :=
  [⟨"LED_PERIOD_CTRL",
     [⟨"PALMAS_LED_PERIOD_CTRL_LED_2_PERIOD_MASK", 0x38, 3⟩,
      ⟨"PALMAS_LED_PERIOD_CTRL_LED_1_PERIOD_MASK", 0x07, 0⟩]⟩,
   ⟨"LED_CTRL",
     [⟨"PALMAS_LED_CTRL_LED_2_SEQ", 0x20, 5⟩,
      ⟨"PALMAS_LED_CTRL_LED_1_SEQ", 0x10, 4⟩,
      ⟨"PALMAS_LED_CTRL_LED_2_ON_TIME_MASK", 0x0c, 2⟩,
      ⟨"PALMAS_LED_CTRL_LED_1_ON_TIME_MASK", 0x03, 0⟩]⟩,
   ⟨"PWM_CTRL1",
     [⟨"PALMAS_PWM_CTRL1_PWM_FREQ_EN", 0x02, 1⟩,
      ⟨"PALMAS_PWM_CTRL1_PWM_FREQ_SEL", 0x01, 0⟩]⟩,
   ⟨"PWM_CTRL2",
     [⟨"PALMAS_PWM_CTRL2_PWM_DUTY_SEL_MASK", 0xff, 0⟩]⟩]

/-- Source: the blocks "Bit definitions for ..." of function INTERRUPT (lines 2465 to 2865). -/
def interrupt_bits : List register_bits :=
  [⟨"INT1_STATUS",
     [⟨"PALMAS_INT1_STATUS_VBAT_MON", 0x80, 7⟩,
      ⟨"PALMAS_INT1_STATUS_VSYS_MON", 0x40, 6⟩,
      ⟨"PALMAS_INT1_STATUS_HOTDIE", 0x20, 5⟩,
      ⟨"PALMAS_INT1_STATUS_PWRDOWN", 0x10, 4⟩,
      ⟨"PALMAS_INT1_STATUS_RPWRON", 0x08, 3⟩,
      ⟨"PALMAS_INT1_STATUS_LONG_PRESS_KEY", 0x04, 2⟩,
      ⟨"PALMAS_INT1_STATUS_PWRON", 0x02, 1⟩,
      ⟨"PALMAS_INT1_STATUS_CHARG_DET_N_VBUS_OVV", 0x01, 0⟩]⟩,
   ⟨"INT1_MASK",
     [⟨"PALMAS_INT1_MASK_VBAT_MON", 0x80, 7⟩,
      ⟨"PALMAS_INT1_MASK_VSYS_MON", 0x40, 6⟩,
      ⟨"PALMAS_INT1_MASK_HOTDIE", 0x20, 5⟩,
      ⟨"PALMAS_INT1_MASK_PWRDOWN", 0x10, 4⟩,
      ⟨"PALMAS_INT1_MASK_RPWRON", 0x08, 3⟩,
      ⟨"PALMAS_INT1_MASK_LONG_PRESS_KEY", 0x04, 2⟩,
      ⟨"PALMAS_INT1_MASK_PWRON", 0x02, 1⟩,
      ⟨"PALMAS_INT1_MASK_CHARG_DET_N_VBUS_OVV", 0x01, 0⟩]⟩,
   ⟨"INT1_LINE_STATE",
     [⟨"PALMAS_INT1_LINE_STATE_VBAT_MON", 0x80, 7⟩,
      ⟨"PALMAS_INT1_LINE_STATE_VSYS_MON", 0x40, 6⟩,
      ⟨"PALMAS_INT1_LINE_STATE_HOTDIE", 0x20, 5⟩,
      ⟨"PALMAS_INT1_LINE_STATE_PWRDOWN", 0x10, 4⟩,
      ⟨"PALMAS_INT1_LINE_STATE_RPWRON", 0x08, 3⟩,
      ⟨"PALMAS_INT1_LINE_STATE_LONG_PRESS_KEY", 0x04, 2⟩,
      ⟨"PALMAS_INT1_LINE_STATE_PWRON", 0x02, 1⟩,
      ⟨"PALMAS_INT1_LINE_STATE_CHARG_DET_N_VBUS_OVV", 0x01, 0⟩]⟩,
   ⟨"INT2_STATUS",
     [⟨"PALMAS_INT2_STATUS_VAC_ACOK", 0x80, 7⟩,
      ⟨"PALMAS_INT2_STATUS_SHORT", 0x40, 6⟩,
      ⟨"PALMAS_INT2_STATUS_FBI_BB", 0x20, 5⟩,
      ⟨"PALMAS_INT2_STATUS_RESET_IN", 0x10, 4⟩,
      ⟨"PALMAS_INT2_STATUS_BATREMOVAL", 0x08, 3⟩,
      ⟨"PALMAS_INT2_STATUS_WDT", 0x04, 2⟩,
      ⟨"PALMAS_INT2_STATUS_RTC_TIMER", 0x02, 1⟩,
      ⟨"PALMAS_INT2_STATUS_RTC_ALARM", 0x01, 0⟩]⟩,
   ⟨"INT2_MASK",
     [⟨"PALMAS_INT2_MASK_VAC_ACOK", 0x80, 7⟩,
      ⟨"PALMAS_INT2_MASK_SHORT", 0x40, 6⟩,
      ⟨"PALMAS_INT2_MASK_FBI_BB", 0x20, 5⟩,
      ⟨"PALMAS_INT2_MASK_RESET_IN", 0x10, 4⟩,
      ⟨"PALMAS_INT2_MASK_BATREMOVAL", 0x08, 3⟩,
      ⟨"PALMAS_INT2_MASK_WDT", 0x04, 2⟩,
      ⟨"PALMAS_INT2_MASK_RTC_TIMER", 0x02, 1⟩,
      ⟨"PALMAS_INT2_MASK_RTC_ALARM", 0x01, 0⟩]⟩,
   ⟨"INT2_LINE_STATE",
     [⟨"PALMAS_INT2_LINE_STATE_VAC_ACOK", 0x80, 7⟩,
      ⟨"PALMAS_INT2_LINE_STATE_SHORT", 0x40, 6⟩,
      ⟨"PALMAS_INT2_LINE_STATE_FBI_BB", 0x20, 5⟩,
      ⟨"PALMAS_INT2_LINE_STATE_RESET_IN", 0x10, 4⟩,
      ⟨"PALMAS_INT2_LINE_STATE_BATREMOVAL", 0x08, 3⟩,
      ⟨"PALMAS_INT2_LINE_STATE_WDT", 0x04, 2⟩,
      ⟨"PALMAS_INT2_LINE_STATE_RTC_TIMER", 0x02, 1⟩,
      ⟨"PALMAS_INT2_LINE_STATE_RTC_ALARM", 0x01, 0⟩]⟩,
   ⟨"INT3_STATUS",
     [⟨"PALMAS_INT3_STATUS_VBUS", 0x80, 7⟩,
      ⟨"PALMAS_INT3_STATUS_VBUS_OTG", 0x40, 6⟩,
      ⟨"PALMAS_INT3_STATUS_ID", 0x20, 5⟩,
      ⟨"PALMAS_INT3_STATUS_ID_OTG", 0x10, 4⟩,
      ⟨"PALMAS_INT3_STATUS_GPADC_EOC_RT", 0x08, 3⟩,
      ⟨"PALMAS_INT3_STATUS_GPADC_EOC_SW", 0x04, 2⟩,
      ⟨"PALMAS_INT3_STATUS_GPADC_AUTO_1", 0x02, 1⟩,
      ⟨"PALMAS_INT3_STATUS_GPADC_AUTO_0", 0x01, 0⟩]⟩,
   ⟨"INT3_MASK",
     [⟨"PALMAS_INT3_MASK_VBUS", 0x80, 7⟩,
      ⟨"PALMAS_INT3_MASK_VBUS_OTG", 0x40, 6⟩,
      ⟨"PALMAS_INT3_MASK_ID", 0x20, 5⟩,
      ⟨"PALMAS_INT3_MASK_ID_OTG", 0x10, 4⟩,
      ⟨"PALMAS_INT3_MASK_GPADC_EOC_RT", 0x08, 3⟩,
      ⟨"PALMAS_INT3_MASK_GPADC_EOC_SW", 0x04, 2⟩,
      ⟨"PALMAS_INT3_MASK_GPADC_AUTO_1", 0x02, 1⟩,
      ⟨"PALMAS_INT3_MASK_GPADC_AUTO_0", 0x01, 0⟩]⟩,
   ⟨"INT3_LINE_STATE",
     [⟨"PALMAS_INT3_LINE_STATE_VBUS", 0x80, 7⟩,
      ⟨"PALMAS_INT3_LINE_STATE_VBUS_OTG", 0x40, 6⟩,
      ⟨"PALMAS_INT3_LINE_STATE_ID", 0x20, 5⟩,
      ⟨"PALMAS_INT3_LINE_STATE_ID_OTG", 0x10, 4⟩,
      ⟨"PALMAS_INT3_LINE_STATE_GPADC_EOC_RT", 0x08, 3⟩,
      ⟨"PALMAS_INT3_LINE_STATE_GPADC_EOC_SW", 0x04, 2⟩,
      ⟨"PALMAS_INT3_LINE_STATE_GPADC_AUTO_1", 0x02, 1⟩,
      ⟨"PALMAS_INT3_LINE_STATE_GPADC_AUTO_0", 0x01, 0⟩]⟩,
   ⟨"INT4_STATUS",
     [⟨"PALMAS_INT4_STATUS_GPIO_7", 0x80, 7⟩,
      ⟨"PALMAS_INT4_STATUS_GPIO_6", 0x40, 6⟩,
      ⟨"PALMAS_INT4_STATUS_GPIO_5", 0x20, 5⟩,
      ⟨"PALMAS_INT4_STATUS_GPIO_4", 0x10, 4⟩,
      ⟨"PALMAS_INT4_STATUS_GPIO_3", 0x08, 3⟩,
      ⟨"PALMAS_INT4_STATUS_GPIO_2", 0x04, 2⟩,
      ⟨"PALMAS_INT4_STATUS_GPIO_1", 0x02, 1⟩,
      ⟨"PALMAS_INT4_STATUS_GPIO_0", 0x01, 0⟩]⟩,
   ⟨"INT4_MASK",
     [⟨"PALMAS_INT4_MASK_GPIO_7", 0x80, 7⟩,
      ⟨"PALMAS_INT4_MASK_GPIO_6", 0x40, 6⟩,
      ⟨"PALMAS_INT4_MASK_GPIO_5", 0x20, 5⟩,
      ⟨"PALMAS_INT4_MASK_GPIO_4", 0x10, 4⟩,
      ⟨"PALMAS_INT4_MASK_GPIO_3", 0x08, 3⟩,
      ⟨"PALMAS_INT4_MASK_GPIO_2", 0x04, 2⟩,
      ⟨"PALMAS_INT4_MASK_GPIO_1", 0x02, 1⟩,
      ⟨"PALMAS_INT4_MASK_GPIO_0", 0x01, 0⟩]⟩,
   ⟨"INT4_LINE_STATE",
     [⟨"PALMAS_INT4_LINE_STATE_GPIO_7", 0x80, 7⟩,
      ⟨"PALMAS_INT4_LINE_STATE_GPIO_6", 0x40, 6⟩,
      ⟨"PALMAS_INT4_LINE_STATE_GPIO_5", 0x20, 5⟩,
      ⟨"PALMAS_INT4_LINE_STATE_GPIO_4", 0x10, 4⟩,
      ⟨"PALMAS_INT4_LINE_STATE_GPIO_3", 0x08, 3⟩,
      ⟨"PALMAS_INT4_LINE_STATE_GPIO_2", 0x04, 2⟩,
      ⟨"PALMAS_INT4_LINE_STATE_GPIO_1", 0x02, 1⟩,
      ⟨"PALMAS_INT4_LINE_STATE_GPIO_0", 0x01, 0⟩]⟩,
   ⟨"INT4_EDGE_DETECT1",
     [⟨"PALMAS_INT4_EDGE_DETECT1_GPIO_3_RISING", 0x80, 7⟩,
      ⟨"PALMAS_INT4_EDGE_DETECT1_GPIO_3_FALLING", 0x40, 6⟩,
      ⟨"PALMAS_INT4_EDGE_DETECT1_GPIO_2_RISING", 0x20, 5⟩,
      ⟨"PALMAS_INT4_EDGE_DETECT1_GPIO_2_FALLING", 0x10, 4⟩,
      ⟨"PALMAS_INT4_EDGE_DETECT1_GPIO_1_RISING", 0x08, 3⟩,
      ⟨"PALMAS_INT4_EDGE_DETECT1_GPIO_1_FALLING", 0x04, 2⟩,
      ⟨"PALMAS_INT4_EDGE_DETECT1_GPIO_0_RISING", 0x02, 1⟩,
      ⟨"PALMAS_INT4_EDGE_DETECT1_GPIO_0_FALLING", 0x01, 0⟩]⟩,
   ⟨"INT4_EDGE_DETECT2",
     [⟨"PALMAS_INT4_EDGE_DETECT2_GPIO_7_RISING", 0x80, 7⟩,
      ⟨"PALMAS_INT4_EDGE_DETECT2_GPIO_7_FALLING", 0x40, 6⟩,
      ⟨"PALMAS_INT4_EDGE_DETECT2_GPIO_6_RISING", 0x20, 5⟩,
      ⟨"PALMAS_INT4_EDGE_DETECT2_GPIO_6_FALLING", 0x10, 4⟩,
      ⟨"PALMAS_INT4_EDGE_DETECT2_GPIO_5_RISING", 0x08, 3⟩,
      ⟨"PALMAS_INT4_EDGE_DETECT2_GPIO_5_FALLING", 0x04, 2⟩,
      ⟨"PALMAS_INT4_EDGE_DETECT2_GPIO_4_RISING", 0x02, 1⟩,
      ⟨"PALMAS_INT4_EDGE_DETECT2_GPIO_4_FALLING", 0x01, 0⟩]⟩,
   ⟨"INT5_STATUS",
     [⟨"PALMAS_INT5_STATUS_GPIO_15", 0x80, 7⟩,
      ⟨"PALMAS_INT5_STATUS_GPIO_14", 0x40, 6⟩,
      ⟨"PALMAS_INT5_STATUS_GPIO_13", 0x20, 5⟩,
      ⟨"PALMAS_INT5_STATUS_GPIO_12", 0x10, 4⟩,
      ⟨"PALMAS_INT5_STATUS_GPIO_11", 0x08, 3⟩,
      ⟨"PALMAS_INT5_STATUS_GPIO_10", 0x04, 2⟩,
      ⟨"PALMAS_INT5_STATUS_GPIO_9", 0x02, 1⟩,
      ⟨"PALMAS_INT5_STATUS_GPIO_8", 0x01, 0⟩]⟩,
   ⟨"INT5_MASK",
     [⟨"PALMAS_INT5_MASK_GPIO_15", 0x80, 7⟩,
      ⟨"PALMAS_INT5_MASK_GPIO_14", 0x40, 6⟩,
      ⟨"PALMAS_INT5_MASK_GPIO_13", 0x20, 5⟩,
      ⟨"PALMAS_INT5_MASK_GPIO_12", 0x10, 4⟩,
      ⟨"PALMAS_INT5_MASK_GPIO_11", 0x08, 3⟩,
      ⟨"PALMAS_INT5_MASK_GPIO_10", 0x04, 2⟩,
      ⟨"PALMAS_INT5_MASK_GPIO_9", 0x02, 1⟩,
      ⟨"PALMAS_INT5_MASK_GPIO_8", 0x01, 0⟩]⟩,
   ⟨"INT5_LINE_STATE",
     [⟨"PALMAS_INT5_LINE_STATE_GPIO_15", 0x80, 7⟩,
      ⟨"PALMAS_INT5_LINE_STATE_GPIO_14", 0x40, 6⟩,
      ⟨"PALMAS_INT5_LINE_STATE_GPIO_13", 0x20, 5⟩,
      ⟨"PALMAS_INT5_LINE_STATE_GPIO_12", 0x10, 4⟩,
      ⟨"PALMAS_INT5_LINE_STATE_GPIO_11", 0x08, 3⟩,
      ⟨"PALMAS_INT5_LINE_STATE_GPIO_10", 0x04, 2⟩,
      ⟨"PALMAS_INT5_LINE_STATE_GPIO_9", 0x02, 1⟩,
      ⟨"PALMAS_INT5_LINE_STATE_GPIO_8", 0x01, 0⟩]⟩,
   ⟨"INT5_EDGE_DETECT1",
     [⟨"PALMAS_INT5_EDGE_DETECT1_GPIO_11_RISING", 0x80, 7⟩,
      ⟨"PALMAS_INT5_EDGE_DETECT1_GPIO_11_FALLING", 0x40, 6⟩,
      ⟨"PALMAS_INT5_EDGE_DETECT1_GPIO_10_RISING", 0x20, 5⟩,
      ⟨"PALMAS_INT5_EDGE_DETECT1_GPIO_10_FALLING", 0x10, 4⟩,
      ⟨"PALMAS_INT5_EDGE_DETECT1_GPIO_9_RISING", 0x08, 3⟩,
      ⟨"PALMAS_INT5_EDGE_DETECT1_GPIO_9_FALLING", 0x04, 2⟩,
      ⟨"PALMAS_INT5_EDGE_DETECT1_GPIO_8_RISING", 0x02, 1⟩,
      ⟨"PALMAS_INT5_EDGE_DETECT1_GPIO_8_FALLING", 0x01, 0⟩]⟩,
   ⟨"INT5_EDGE_DETECT2",
     [⟨"PALMAS_INT5_EDGE_DETECT2_GPIO_15_RISING", 0x80, 7⟩,
      ⟨"PALMAS_INT5_EDGE_DETECT2_GPIO_15_FALLING", 0x40, 6⟩,
      ⟨"PALMAS_INT5_EDGE_DETECT2_GPIO_14_RISING", 0x20, 5⟩,
      ⟨"PALMAS_INT5_EDGE_DETECT2_GPIO_14_FALLING", 0x10, 4⟩,
      ⟨"PALMAS_INT5_EDGE_DETECT2_GPIO_13_RISING", 0x08, 3⟩,
      ⟨"PALMAS_INT5_EDGE_DETECT2_GPIO_13_FALLING", 0x04, 2⟩,
      ⟨"PALMAS_INT5_EDGE_DETECT2_GPIO_12_RISING", 0x02, 1⟩,
      ⟨"PALMAS_INT5_EDGE_DETECT2_GPIO_12_FALLING", 0x01, 0⟩]⟩,
   ⟨"INT_CTRL",
     [⟨"PALMAS_INT_CTRL_INT_PENDING", 0x04, 2⟩,
      ⟨"PALMAS_INT_CTRL_INT_CLEAR", 0x01, 0⟩]⟩,
   ⟨"INT6_STATUS",
     [⟨"PALMAS_INT6_STATUS_SIM2", 0x80, 7⟩,
      ⟨"PALMAS_INT6_STATUS_SIM1", 0x40, 6⟩,
      ⟨"PALMAS_INT6_STATUS_CHARGER", 0x20, 5⟩,
      ⟨"PALMAS_INT6_STATUS_CC_AUTOCAL", 0x10, 4⟩,
      ⟨"PALMAS_INT6_STATUS_CC_BAT_STABLE", 0x08, 3⟩,
      ⟨"PALMAS_INT6_STATUS_CC_OVC_LIMIT", 0x04, 2⟩,
      ⟨"PALMAS_INT6_STATUS_CC_SYNC_EOC", 0x02, 1⟩,
      ⟨"PALMAS_INT6_STATUS_CC_EOC", 0x01, 0⟩]⟩,
   ⟨"INT6_MASK",
     [⟨"PALMAS_INT6_MASK_SIM2", 0x80, 7⟩,
      ⟨"PALMAS_INT6_MASK_SIM1", 0x40, 6⟩,
      ⟨"PALMAS_INT6_MASK_CHARGER", 0x20, 5⟩,
      ⟨"PALMAS_INT6_MASK_CC_AUTOCAL", 0x10, 4⟩,
      ⟨"PALMAS_INT6_MASK_CC_BAT_STABLE", 0x08, 3⟩,
      ⟨"PALMAS_INT6_MASK_CC_OVC_LIMIT", 0x04, 2⟩,
      ⟨"PALMAS_INT6_MASK_CC_SYNC_EOC", 0x02, 1⟩,
      ⟨"PALMAS_INT6_MASK_CC_EOC", 0x01, 0⟩]⟩,
   ⟨"INT6_LINE_STATE",
     [⟨"PALMAS_INT6_LINE_STATE_SIM2", 0x80, 7⟩,
      ⟨"PALMAS_INT6_LINE_STATE_SIM1", 0x40, 6⟩,
      ⟨"PALMAS_INT6_LINE_STATE_CHARGER", 0x20, 5⟩,
      ⟨"PALMAS_INT6_LINE_STATE_CC_AUTOCAL", 0x10, 4⟩,
      ⟨"PALMAS_INT6_LINE_STATE_CC_BAT_STABLE", 0x08, 3⟩,
      ⟨"PALMAS_INT6_LINE_STATE_CC_OVC_LIMIT", 0x04, 2⟩,
      ⟨"PALMAS_INT6_LINE_STATE_CC_SYNC_EOC", 0x02, 1⟩,
      ⟨"PALMAS_INT6_LINE_STATE_CC_EOC", 0x01, 0⟩]⟩]

/-- Source: the blocks "Bit definitions for ..." of function USB_OTG (lines 2893 to 3173). -/
def usb_otg_bits : List register_bits :=
  [⟨"USB_WAKEUP",
     [⟨"PALMAS_USB_WAKEUP_ID_WK_UP_COMP", 0x01, 0⟩]⟩,
   ⟨"USB_VBUS_CTRL_SET",
     [⟨"PALMAS_USB_VBUS_CTRL_SET_VBUS_CHRG_VSYS", 0x80, 7⟩,
      ⟨"PALMAS_USB_VBUS_CTRL_SET_VBUS_DISCHRG", 0x20, 5⟩,
      ⟨"PALMAS_USB_VBUS_CTRL_SET_VBUS_IADP_SRC", 0x10, 4⟩,
      ⟨"PALMAS_USB_VBUS_CTRL_SET_VBUS_IADP_SINK", 0x08, 3⟩,
      ⟨"PALMAS_USB_VBUS_CTRL_SET_VBUS_ACT_COMP", 0x04, 2⟩]⟩,
   ⟨"USB_VBUS_CTRL_CLR",
     [⟨"PALMAS_USB_VBUS_CTRL_CLR_VBUS_CHRG_VSYS", 0x80, 7⟩,
      ⟨"PALMAS_USB_VBUS_CTRL_CLR_VBUS_DISCHRG", 0x20, 5⟩,
      ⟨"PALMAS_USB_VBUS_CTRL_CLR_VBUS_IADP_SRC", 0x10, 4⟩,
      ⟨"PALMAS_USB_VBUS_CTRL_CLR_VBUS_IADP_SINK", 0x08, 3⟩,
      ⟨"PALMAS_USB_VBUS_CTRL_CLR_VBUS_ACT_COMP", 0x04, 2⟩]⟩,
   ⟨"USB_ID_CTRL_SET",
     [⟨"PALMAS_USB_ID_CTRL_SET_ID_PU_220K", 0x80, 7⟩,
      ⟨"PALMAS_USB_ID_CTRL_SET_ID_PU_100K", 0x40, 6⟩,
      ⟨"PALMAS_USB_ID_CTRL_SET_ID_GND_DRV", 0x20, 5⟩,
      ⟨"PALMAS_USB_ID_CTRL_SET_ID_SRC_16U", 0x10, 4⟩,
      ⟨"PALMAS_USB_ID_CTRL_SET_ID_SRC_5U", 0x08, 3⟩,
      ⟨"PALMAS_USB_ID_CTRL_SET_ID_ACT_COMP", 0x04, 2⟩]⟩,
   ⟨"USB_ID_CTRL_CLEAR",
     [⟨"PALMAS_USB_ID_CTRL_CLEAR_ID_PU_220K", 0x80, 7⟩,
      ⟨"PALMAS_USB_ID_CTRL_CLEAR_ID_PU_100K", 0x40, 6⟩,
      ⟨"PALMAS_USB_ID_CTRL_CLEAR_ID_GND_DRV", 0x20, 5⟩,
      ⟨"PALMAS_USB_ID_CTRL_CLEAR_ID_SRC_16U", 0x10, 4⟩,
      ⟨"PALMAS_USB_ID_CTRL_CLEAR_ID_SRC_5U", 0x08, 3⟩,
      ⟨"PALMAS_USB_ID_CTRL_CLEAR_ID_ACT_COMP", 0x04, 2⟩]⟩,
   ⟨"USB_VBUS_INT_SRC",
     [⟨"PALMAS_USB_VBUS_INT_SRC_VOTG_SESS_VLD", 0x80, 7⟩,
      ⟨"PALMAS_USB_VBUS_INT_SRC_VADP_PRB", 0x40, 6⟩,
      ⟨"PALMAS_USB_VBUS_INT_SRC_VADP_SNS", 0x20, 5⟩,
      ⟨"PALMAS_USB_VBUS_INT_SRC_VA_VBUS_VLD", 0x08, 3⟩,
      ⟨"PALMAS_USB_VBUS_INT_SRC_VA_SESS_VLD", 0x04, 2⟩,
      ⟨"PALMAS_USB_VBUS_INT_SRC_VB_SESS_VLD", 0x02, 1⟩,
      ⟨"PALMAS_USB_VBUS_INT_SRC_VB_SESS_END", 0x01, 0⟩]⟩,
   ⟨"USB_VBUS_INT_LATCH_SET",
     [⟨"PALMAS_USB_VBUS_INT_LATCH_SET_VOTG_SESS_VLD", 0x80, 7⟩,
      ⟨"PALMAS_USB_VBUS_INT_LATCH_SET_VADP_PRB", 0x40, 6⟩,
      ⟨"PALMAS_USB_VBUS_INT_LATCH_SET_VADP_SNS", 0x20, 5⟩,
      ⟨"PALMAS_USB_VBUS_INT_LATCH_SET_ADP", 0x10, 4⟩,
      ⟨"PALMAS_USB_VBUS_INT_LATCH_SET_VA_VBUS_VLD", 0x08, 3⟩,
      ⟨"PALMAS_USB_VBUS_INT_LATCH_SET_VA_SESS_VLD", 0x04, 2⟩,
      ⟨"PALMAS_USB_VBUS_INT_LATCH_SET_VB_SESS_VLD", 0x02, 1⟩,
      ⟨"PALMAS_USB_VBUS_INT_LATCH_SET_VB_SESS_END", 0x01, 0⟩]⟩,
   ⟨"USB_VBUS_INT_LATCH_CLR",
     [⟨"PALMAS_USB_VBUS_INT_LATCH_CLR_VOTG_SESS_VLD", 0x80, 7⟩,
      ⟨"PALMAS_USB_VBUS_INT_LATCH_CLR_VADP_PRB", 0x40, 6⟩,
      ⟨"PALMAS_USB_VBUS_INT_LATCH_CLR_VADP_SNS", 0x20, 5⟩,
      ⟨"PALMAS_USB_VBUS_INT_LATCH_CLR_ADP", 0x10, 4⟩,
      ⟨"PALMAS_USB_VBUS_INT_LATCH_CLR_VA_VBUS_VLD", 0x08, 3⟩,
      ⟨"PALMAS_USB_VBUS_INT_LATCH_CLR_VA_SESS_VLD", 0x04, 2⟩,
      ⟨"PALMAS_USB_VBUS_INT_LATCH_CLR_VB_SESS_VLD", 0x02, 1⟩,
      ⟨"PALMAS_USB_VBUS_INT_LATCH_CLR_VB_SESS_END", 0x01, 0⟩]⟩,
   ⟨"USB_VBUS_INT_EN_LO_SET",
     [⟨"PALMAS_USB_VBUS_INT_EN_LO_SET_VOTG_SESS_VLD", 0x80, 7⟩,
      ⟨"PALMAS_USB_VBUS_INT_EN_LO_SET_VADP_PRB", 0x40, 6⟩,
      ⟨"PALMAS_USB_VBUS_INT_EN_LO_SET_VADP_SNS", 0x20, 5⟩,
      ⟨"PALMAS_USB_VBUS_INT_EN_LO_SET_VA_VBUS_VLD", 0x08, 3⟩,
      ⟨"PALMAS_USB_VBUS_INT_EN_LO_SET_VA_SESS_VLD", 0x04, 2⟩,
      ⟨"PALMAS_USB_VBUS_INT_EN_LO_SET_VB_SESS_VLD", 0x02, 1⟩,
      ⟨"PALMAS_USB_VBUS_INT_EN_LO_SET_VB_SESS_END", 0x01, 0⟩]⟩,
   ⟨"USB_VBUS_INT_EN_LO_CLR",
     [⟨"PALMAS_USB_VBUS_INT_EN_LO_CLR_VOTG_SESS_VLD", 0x80, 7⟩,
      ⟨"PALMAS_USB_VBUS_INT_EN_LO_CLR_VADP_PRB", 0x40, 6⟩,
      ⟨"PALMAS_USB_VBUS_INT_EN_LO_CLR_VADP_SNS", 0x20, 5⟩,
      ⟨"PALMAS_USB_VBUS_INT_EN_LO_CLR_VA_VBUS_VLD", 0x08, 3⟩,
      ⟨"PALMAS_USB_VBUS_INT_EN_LO_CLR_VA_SESS_VLD", 0x04, 2⟩,
      ⟨"PALMAS_USB_VBUS_INT_EN_LO_CLR_VB_SESS_VLD", 0x02, 1⟩,
      ⟨"PALMAS_USB_VBUS_INT_EN_LO_CLR_VB_SESS_END", 0x01, 0⟩]⟩,
   ⟨"USB_VBUS_INT_EN_HI_SET",
     [⟨"PALMAS_USB_VBUS_INT_EN_HI_SET_VOTG_SESS_VLD", 0x80, 7⟩,
      ⟨"PALMAS_USB_VBUS_INT_EN_HI_SET_VADP_PRB", 0x40, 6⟩,
      ⟨"PALMAS_USB_VBUS_INT_EN_HI_SET_VADP_SNS", 0x20, 5⟩,
      ⟨"PALMAS_USB_VBUS_INT_EN_HI_SET_ADP", 0x10, 4⟩,
      ⟨"PALMAS_USB_VBUS_INT_EN_HI_SET_VA_VBUS_VLD", 0x08, 3⟩,
      ⟨"PALMAS_USB_VBUS_INT_EN_HI_SET_VA_SESS_VLD", 0x04, 2⟩,
      ⟨"PALMAS_USB_VBUS_INT_EN_HI_SET_VB_SESS_VLD", 0x02, 1⟩,
      ⟨"PALMAS_USB_VBUS_INT_EN_HI_SET_VB_SESS_END", 0x01, 0⟩]⟩,
   ⟨"USB_VBUS_INT_EN_HI_CLR",
     [⟨"PALMAS_USB_VBUS_INT_EN_HI_CLR_VOTG_SESS_VLD", 0x80, 7⟩,
      ⟨"PALMAS_USB_VBUS_INT_EN_HI_CLR_VADP_PRB", 0x40, 6⟩,
      ⟨"PALMAS_USB_VBUS_INT_EN_HI_CLR_VADP_SNS", 0x20, 5⟩,
      ⟨"PALMAS_USB_VBUS_INT_EN_HI_CLR_ADP", 0x10, 4⟩,
      ⟨"PALMAS_USB_VBUS_INT_EN_HI_CLR_VA_VBUS_VLD", 0x08, 3⟩,
      ⟨"PALMAS_USB_VBUS_INT_EN_HI_CLR_VA_SESS_VLD", 0x04, 2⟩,
      ⟨"PALMAS_USB_VBUS_INT_EN_HI_CLR_VB_SESS_VLD", 0x02, 1⟩,
      ⟨"PALMAS_USB_VBUS_INT_EN_HI_CLR_VB_SESS_END", 0x01, 0⟩]⟩,
   ⟨"USB_ID_INT_SRC",
     [⟨"PALMAS_USB_ID_INT_SRC_ID_FLOAT", 0x10, 4⟩,
      ⟨"PALMAS_USB_ID_INT_SRC_ID_A", 0x08, 3⟩,
      ⟨"PALMAS_USB_ID_INT_SRC_ID_B", 0x04, 2⟩,
      ⟨"PALMAS_USB_ID_INT_SRC_ID_C", 0x02, 1⟩,
      ⟨"PALMAS_USB_ID_INT_SRC_ID_GND", 0x01, 0⟩]⟩,
   ⟨"USB_ID_INT_LATCH_SET",
     [⟨"PALMAS_USB_ID_INT_LATCH_SET_ID_FLOAT", 0x10, 4⟩,
      ⟨"PALMAS_USB_ID_INT_LATCH_SET_ID_A", 0x08, 3⟩,
      ⟨"PALMAS_USB_ID_INT_LATCH_SET_ID_B", 0x04, 2⟩,
      ⟨"PALMAS_USB_ID_INT_LATCH_SET_ID_C", 0x02, 1⟩,
      ⟨"PALMAS_USB_ID_INT_LATCH_SET_ID_GND", 0x01, 0⟩]⟩,
   ⟨"USB_ID_INT_LATCH_CLR",
     [⟨"PALMAS_USB_ID_INT_LATCH_CLR_ID_FLOAT", 0x10, 4⟩,
      ⟨"PALMAS_USB_ID_INT_LATCH_CLR_ID_A", 0x08, 3⟩,
      ⟨"PALMAS_USB_ID_INT_LATCH_CLR_ID_B", 0x04, 2⟩,
      ⟨"PALMAS_USB_ID_INT_LATCH_CLR_ID_C", 0x02, 1⟩,
      ⟨"PALMAS_USB_ID_INT_LATCH_CLR_ID_GND", 0x01, 0⟩]⟩,
   ⟨"USB_ID_INT_EN_LO_SET",
     [⟨"PALMAS_USB_ID_INT_EN_LO_SET_ID_FLOAT", 0x10, 4⟩,
      ⟨"PALMAS_USB_ID_INT_EN_LO_SET_ID_A", 0x08, 3⟩,
      ⟨"PALMAS_USB_ID_INT_EN_LO_SET_ID_B", 0x04, 2⟩,
      ⟨"PALMAS_USB_ID_INT_EN_LO_SET_ID_C", 0x02, 1⟩,
      ⟨"PALMAS_USB_ID_INT_EN_LO_SET_ID_GND", 0x01, 0⟩]⟩,
   ⟨"USB_ID_INT_EN_LO_CLR",
     [⟨"PALMAS_USB_ID_INT_EN_LO_CLR_ID_FLOAT", 0x10, 4⟩,
      ⟨"PALMAS_USB_ID_INT_EN_LO_CLR_ID_A", 0x08, 3⟩,
      ⟨"PALMAS_USB_ID_INT_EN_LO_CLR_ID_B", 0x04, 2⟩,
      ⟨"PALMAS_USB_ID_INT_EN_LO_CLR_ID_C", 0x02, 1⟩,
      ⟨"PALMAS_USB_ID_INT_EN_LO_CLR_ID_GND", 0x01, 0⟩]⟩,
   ⟨"USB_ID_INT_EN_HI_SET",
     [⟨"PALMAS_USB_ID_INT_EN_HI_SET_ID_FLOAT", 0x10, 4⟩,
      ⟨"PALMAS_USB_ID_INT_EN_HI_SET_ID_A", 0x08, 3⟩,
      ⟨"PALMAS_USB_ID_INT_EN_HI_SET_ID_B", 0x04, 2⟩,
      ⟨"PALMAS_USB_ID_INT_EN_HI_SET_ID_C", 0x02, 1⟩,
      ⟨"PALMAS_USB_ID_INT_EN_HI_SET_ID_GND", 0x01, 0⟩]⟩,
   ⟨"USB_ID_INT_EN_HI_CLR",
     [⟨"PALMAS_USB_ID_INT_EN_HI_CLR_ID_FLOAT", 0x10, 4⟩,
      ⟨"PALMAS_USB_ID_INT_EN_HI_CLR_ID_A", 0x08, 3⟩,
      ⟨"PALMAS_USB_ID_INT_EN_HI_CLR_ID_B", 0x04, 2⟩,
      ⟨"PALMAS_USB_ID_INT_EN_HI_CLR_ID_C", 0x02, 1⟩,
      ⟨"PALMAS_USB_ID_INT_EN_HI_CLR_ID_GND", 0x01, 0⟩]⟩,
   ⟨"USB_OTG_ADP_CTRL",
     [⟨"PALMAS_USB_OTG_ADP_CTRL_ADP_EN", 0x04, 2⟩,
      ⟨"PALMAS_USB_OTG_ADP_CTRL_ADP_MODE_MASK", 0x03, 0⟩]⟩,
   ⟨"USB_OTG_ADP_HIGH",
     [⟨"PALMAS_USB_OTG_ADP_HIGH_T_ADP_HIGH_MASK", 0xff, 0⟩]⟩,
   ⟨"USB_OTG_ADP_LOW",
     [⟨"PALMAS_USB_OTG_ADP_LOW_T_ADP_LOW_MASK", 0xff, 0⟩]⟩,
   ⟨"USB_OTG_ADP_RISE",
     [⟨"PALMAS_USB_OTG_ADP_RISE_T_ADP_RISE_MASK", 0xff, 0⟩]⟩,
   ⟨"USB_OTG_REVISION",
     [⟨"PALMAS_USB_OTG_REVISION_OTG_REV", 0x01, 0⟩]⟩]

/-- Source: the blocks "Bit definitions for ..." of function VIBRATOR (lines 3178 to 3182). -/
def vibrator_bits : List register_bits :=
  [⟨"VIBRA_CTRL",
     [⟨"PALMAS_VIBRA_CTRL_PWM_DUTY_SEL_MASK", 0x06, 1⟩,
      ⟨"PALMAS_VIBRA_CTRL_PWM_FREQ_SEL", 0x01, 0⟩]⟩]

/-- Source: the blocks "Bit definitions for ..." of function GPIO (lines 3204 to 3478). -/
def gpio_bits : List register_bits :=
  [⟨"GPIO_DATA_IN",
     [⟨"PALMAS_GPIO_DATA_IN_GPIO_7_IN", 0x80, 7⟩,
      ⟨"PALMAS_GPIO_DATA_IN_GPIO_6_IN", 0x40, 6⟩,
      ⟨"PALMAS_GPIO_DATA_IN_GPIO_5_IN", 0x20, 5⟩,
      ⟨"PALMAS_GPIO_DATA_IN_GPIO_4_IN", 0x10, 4⟩,
      ⟨"PALMAS_GPIO_DATA_IN_GPIO_3_IN", 0x08, 3⟩,
      ⟨"PALMAS_GPIO_DATA_IN_GPIO_2_IN", 0x04, 2⟩,
      ⟨"PALMAS_GPIO_DATA_IN_GPIO_1_IN", 0x02, 1⟩,
      ⟨"PALMAS_GPIO_DATA_IN_GPIO_0_IN", 0x01, 0⟩]⟩,
   ⟨"GPIO_DATA_DIR",
     [⟨"PALMAS_GPIO_DATA_DIR_GPIO_7_DIR", 0x80, 7⟩,
      ⟨"PALMAS_GPIO_DATA_DIR_GPIO_6_DIR", 0x40, 6⟩,
      ⟨"PALMAS_GPIO_DATA_DIR_GPIO_5_DIR", 0x20, 5⟩,
      ⟨"PALMAS_GPIO_DATA_DIR_GPIO_4_DIR", 0x10, 4⟩,
      ⟨"PALMAS_GPIO_DATA_DIR_GPIO_3_DIR", 0x08, 3⟩,
      ⟨"PALMAS_GPIO_DATA_DIR_GPIO_2_DIR", 0x04, 2⟩,
      ⟨"PALMAS_GPIO_DATA_DIR_GPIO_1_DIR", 0x02, 1⟩,
      ⟨"PALMAS_GPIO_DATA_DIR_GPIO_0_DIR", 0x01, 0⟩]⟩,
   ⟨"GPIO_DATA_OUT",
     [⟨"PALMAS_GPIO_DATA_OUT_GPIO_7_OUT", 0x80, 7⟩,
      ⟨"PALMAS_GPIO_DATA_OUT_GPIO_6_OUT", 0x40, 6⟩,
      ⟨"PALMAS_GPIO_DATA_OUT_GPIO_5_OUT", 0x20, 5⟩,
      ⟨"PALMAS_GPIO_DATA_OUT_GPIO_4_OUT", 0x10, 4⟩,
      ⟨"PALMAS_GPIO_DATA_OUT_GPIO_3_OUT", 0x08, 3⟩,
      ⟨"PALMAS_GPIO_DATA_OUT_GPIO_2_OUT", 0x04, 2⟩,
      ⟨"PALMAS_GPIO_DATA_OUT_GPIO_1_OUT", 0x02, 1⟩,
      ⟨"PALMAS_GPIO_DATA_OUT_GPIO_0_OUT", 0x01, 0⟩]⟩,
   ⟨"GPIO_DEBOUNCE_EN",
     [⟨"PALMAS_GPIO_DEBOUNCE_EN_GPIO_7_DEBOUNCE_EN", 0x80, 7⟩,
      ⟨"PALMAS_GPIO_DEBOUNCE_EN_GPIO_6_DEBOUNCE_EN", 0x40, 6⟩,
      ⟨"PALMAS_GPIO_DEBOUNCE_EN_GPIO_5_DEBOUNCE_EN", 0x20, 5⟩,
      ⟨"PALMAS_GPIO_DEBOUNCE_EN_GPIO_4_DEBOUNCE_EN", 0x10, 4⟩,
      ⟨"PALMAS_GPIO_DEBOUNCE_EN_GPIO_3_DEBOUNCE_EN", 0x08, 3⟩,
      ⟨"PALMAS_GPIO_DEBOUNCE_EN_GPIO_2_DEBOUNCE_EN", 0x04, 2⟩,
      ⟨"PALMAS_GPIO_DEBOUNCE_EN_GPIO_1_DEBOUNCE_EN", 0x02, 1⟩,
      ⟨"PALMAS_GPIO_DEBOUNCE_EN_GPIO_0_DEBOUNCE_EN", 0x01, 0⟩]⟩,
   ⟨"GPIO_CLEAR_DATA_OUT",
     [⟨"PALMAS_GPIO_CLEAR_DATA_OUT_GPIO_7_CLEAR_DATA_OUT", 0x80, 7⟩,
      ⟨"PALMAS_GPIO_CLEAR_DATA_OUT_GPIO_6_CLEAR_DATA_OUT", 0x40, 6⟩,
      ⟨"PALMAS_GPIO_CLEAR_DATA_OUT_GPIO_5_CLEAR_DATA_OUT", 0x20, 5⟩,
      ⟨"PALMAS_GPIO_CLEAR_DATA_OUT_GPIO_4_CLEAR_DATA_OUT", 0x10, 4⟩,
      ⟨"PALMAS_GPIO_CLEAR_DATA_OUT_GPIO_3_CLEAR_DATA_OUT", 0x08, 3⟩,
      ⟨"PALMAS_GPIO_CLEAR_DATA_OUT_GPIO_2_CLEAR_DATA_OUT", 0x04, 2⟩,
      ⟨"PALMAS_GPIO_CLEAR_DATA_OUT_GPIO_1_CLEAR_DATA_OUT", 0x02, 1⟩,
      ⟨"PALMAS_GPIO_CLEAR_DATA_OUT_GPIO_0_CLEAR_DATA_OUT", 0x01, 0⟩]⟩,
   ⟨"GPIO_SET_DATA_OUT",
     [⟨"PALMAS_GPIO_SET_DATA_OUT_GPIO_7_SET_DATA_OUT", 0x80, 7⟩,
      ⟨"PALMAS_GPIO_SET_DATA_OUT_GPIO_6_SET_DATA_OUT", 0x40, 6⟩,
      ⟨"PALMAS_GPIO_SET_DATA_OUT_GPIO_5_SET_DATA_OUT", 0x20, 5⟩,
      ⟨"PALMAS_GPIO_SET_DATA_OUT_GPIO_4_SET_DATA_OUT", 0x10, 4⟩,
      ⟨"PALMAS_GPIO_SET_DATA_OUT_GPIO_3_SET_DATA_OUT", 0x08, 3⟩,
      ⟨"PALMAS_GPIO_SET_DATA_OUT_GPIO_2_SET_DATA_OUT", 0x04, 2⟩,
      ⟨"PALMAS_GPIO_SET_DATA_OUT_GPIO_1_SET_DATA_OUT", 0x02, 1⟩,
      ⟨"PALMAS_GPIO_SET_DATA_OUT_GPIO_0_SET_DATA_OUT", 0x01, 0⟩]⟩,
   ⟨"PU_PD_GPIO_CTRL1",
     [⟨"PALMAS_PU_PD_GPIO_CTRL1_GPIO_3_PD", 0x40, 6⟩,
      ⟨"PALMAS_PU_PD_GPIO_CTRL1_GPIO_2_PU", 0x20, 5⟩,
      ⟨"PALMAS_PU_PD_GPIO_CTRL1_GPIO_2_PD", 0x10, 4⟩,
      ⟨"PALMAS_PU_PD_GPIO_CTRL1_GPIO_1_PU", 0x08, 3⟩,
      ⟨"PALMAS_PU_PD_GPIO_CTRL1_GPIO_1_PD", 0x04, 2⟩,
      ⟨"PALMAS_PU_PD_GPIO_CTRL1_GPIO_0_PD", 0x01, 0⟩]⟩,
   ⟨"PU_PD_GPIO_CTRL2",
     [⟨"PALMAS_PU_PD_GPIO_CTRL2_GPIO_7_PD", 0x40, 6⟩,
      ⟨"PALMAS_PU_PD_GPIO_CTRL2_GPIO_6_PU", 0x20, 5⟩,
      ⟨"PALMAS_PU_PD_GPIO_CTRL2_GPIO_6_PD", 0x10, 4⟩,
      ⟨"PALMAS_PU_PD_GPIO_CTRL2_GPIO_5_PU", 0x08, 3⟩,
      ⟨"PALMAS_PU_PD_GPIO_CTRL2_GPIO_5_PD", 0x04, 2⟩,
      ⟨"PALMAS_PU_PD_GPIO_CTRL2_GPIO_4_PU", 0x02, 1⟩,
      ⟨"PALMAS_PU_PD_GPIO_CTRL2_GPIO_4_PD", 0x01, 0⟩]⟩,
   ⟨"OD_OUTPUT_GPIO_CTRL",
     [⟨"PALMAS_OD_OUTPUT_GPIO_CTRL_GPIO_5_OD", 0x20, 5⟩,
      ⟨"PALMAS_OD_OUTPUT_GPIO_CTRL_GPIO_2_OD", 0x04, 2⟩,
      ⟨"PALMAS_OD_OUTPUT_GPIO_CTRL_GPIO_1_OD", 0x02, 1⟩]⟩,
   ⟨"GPIO_DATA_IN2",
     [⟨"PALMAS_GPIO_DATA_IN_GPIO_15_IN", 0x80, 7⟩,
      ⟨"PALMAS_GPIO_DATA_IN_GPIO_14_IN", 0x40, 6⟩,
      ⟨"PALMAS_GPIO_DATA_IN_GPIO_13_IN", 0x20, 5⟩,
      ⟨"PALMAS_GPIO_DATA_IN_GPIO_12_IN", 0x10, 4⟩,
      ⟨"PALMAS_GPIO_DATA_IN_GPIO_11_IN", 0x08, 3⟩,
      ⟨"PALMAS_GPIO_DATA_IN_GPIO_10_IN", 0x04, 2⟩,
      ⟨"PALMAS_GPIO_DATA_IN_GPIO_9_IN", 0x02, 1⟩,
      ⟨"PALMAS_GPIO_DATA_IN_GPIO_8_IN", 0x01, 0⟩]⟩,
   ⟨"GPIO_DATA_DIR2",
     [⟨"PALMAS_GPIO_DATA_DIR_GPIO_15_DIR", 0x80, 7⟩,
      ⟨"PALMAS_GPIO_DATA_DIR_GPIO_14_DIR", 0x40, 6⟩,
      ⟨"PALMAS_GPIO_DATA_DIR_GPIO_13_DIR", 0x20, 5⟩,
      ⟨"PALMAS_GPIO_DATA_DIR_GPIO_12_DIR", 0x10, 4⟩,
      ⟨"PALMAS_GPIO_DATA_DIR_GPIO_11_DIR", 0x08, 3⟩,
      ⟨"PALMAS_GPIO_DATA_DIR_GPIO_10_DIR", 0x04, 2⟩,
      ⟨"PALMAS_GPIO_DATA_DIR_GPIO_9_DIR", 0x02, 1⟩,
      ⟨"PALMAS_GPIO_DATA_DIR_GPIO_8_DIR", 0x01, 0⟩]⟩,
   ⟨"GPIO_DATA_OUT2",
     [⟨"PALMAS_GPIO_DATA_OUT_GPIO_15_OUT", 0x80, 7⟩,
      ⟨"PALMAS_GPIO_DATA_OUT_GPIO_14_OUT", 0x40, 6⟩,
      ⟨"PALMAS_GPIO_DATA_OUT_GPIO_13_OUT", 0x20, 5⟩,
      ⟨"PALMAS_GPIO_DATA_OUT_GPIO_12_OUT", 0x10, 4⟩,
      ⟨"PALMAS_GPIO_DATA_OUT_GPIO_11_OUT", 0x08, 3⟩,
      ⟨"PALMAS_GPIO_DATA_OUT_GPIO_10_OUT", 0x04, 2⟩,
      ⟨"PALMAS_GPIO_DATA_OUT_GPIO_9_OUT", 0x02, 1⟩,
      ⟨"PALMAS_GPIO_DATA_OUT_GPIO_8_OUT", 0x01, 0⟩]⟩,
   ⟨"GPIO_DEBOUNCE_EN2",
     [⟨"PALMAS_GPIO_DEBOUNCE_EN_GPIO_15_DEBOUNCE_EN", 0x80, 7⟩,
      ⟨"PALMAS_GPIO_DEBOUNCE_EN_GPIO_14_DEBOUNCE_EN", 0x40, 6⟩,
      ⟨"PALMAS_GPIO_DEBOUNCE_EN_GPIO_13_DEBOUNCE_EN", 0x20, 5⟩,
      ⟨"PALMAS_GPIO_DEBOUNCE_EN_GPIO_12_DEBOUNCE_EN", 0x10, 4⟩,
      ⟨"PALMAS_GPIO_DEBOUNCE_EN_GPIO_11_DEBOUNCE_EN", 0x08, 3⟩,
      ⟨"PALMAS_GPIO_DEBOUNCE_EN_GPIO_10_DEBOUNCE_EN", 0x04, 2⟩,
      ⟨"PALMAS_GPIO_DEBOUNCE_EN_GPIO_9_DEBOUNCE_EN", 0x02, 1⟩,
      ⟨"PALMAS_GPIO_DEBOUNCE_EN_GPIO_8_DEBOUNCE_EN", 0x01, 0⟩]⟩,
   ⟨"GPIO_CLEAR_DATA_OUT2",
     [⟨"PALMAS_GPIO_CLEAR_DATA_OUT_GPIO_15_CLEAR_DATA_OUT", 0x80, 7⟩,
      ⟨"PALMAS_GPIO_CLEAR_DATA_OUT_GPIO_14_CLEAR_DATA_OUT", 0x40, 6⟩,
      ⟨"PALMAS_GPIO_CLEAR_DATA_OUT_GPIO_13_CLEAR_DATA_OUT", 0x20, 5⟩,
      ⟨"PALMAS_GPIO_CLEAR_DATA_OUT_GPIO_12_CLEAR_DATA_OUT", 0x10, 4⟩,
      ⟨"PALMAS_GPIO_CLEAR_DATA_OUT_GPIO_11_CLEAR_DATA_OUT", 0x08, 3⟩,
      ⟨"PALMAS_GPIO_CLEAR_DATA_OUT_GPIO_10_CLEAR_DATA_OUT", 0x04, 2⟩,
      ⟨"PALMAS_GPIO_CLEAR_DATA_OUT_GPIO_9_CLEAR_DATA_OUT", 0x02, 1⟩,
      ⟨"PALMAS_GPIO_CLEAR_DATA_OUT_GPIO_8_CLEAR_DATA_OUT", 0x01, 0⟩]⟩,
   ⟨"GPIO_SET_DATA_OUT2",
     [⟨"PALMAS_GPIO_SET_DATA_OUT_GPIO_15_SET_DATA_OUT", 0x80, 7⟩,
      ⟨"PALMAS_GPIO_SET_DATA_OUT_GPIO_14_SET_DATA_OUT", 0x40, 6⟩,
      ⟨"PALMAS_GPIO_SET_DATA_OUT_GPIO_13_SET_DATA_OUT", 0x20, 5⟩,
      ⟨"PALMAS_GPIO_SET_DATA_OUT_GPIO_12_SET_DATA_OUT", 0x10, 4⟩,
      ⟨"PALMAS_GPIO_SET_DATA_OUT_GPIO_11_SET_DATA_OUT", 0x08, 3⟩,
      ⟨"PALMAS_GPIO_SET_DATA_OUT_GPIO_10_SET_DATA_OUT", 0x04, 2⟩,
      ⟨"PALMAS_GPIO_SET_DATA_OUT_GPIO_9_SET_DATA_OUT", 0x02, 1⟩,
      ⟨"PALMAS_GPIO_SET_DATA_OUT_GPIO_8_SET_DATA_OUT", 0x01, 0⟩]⟩,
   ⟨"PU_PD_GPIO_CTRL3",
     [⟨"PALMAS_PU_PD_GPIO_CTRL3_GPIO_11_PD", 0x40, 6⟩,
      ⟨"PALMAS_PU_PD_GPIO_CTRL3_GPIO_10_PU", 0x20, 5⟩,
      ⟨"PALMAS_PU_PD_GPIO_CTRL3_GPIO_10_PD", 0x10, 4⟩,
      ⟨"PALMAS_PU_PD_GPIO_CTRL3_GPIO_9_PU", 0x08, 3⟩,
      ⟨"PALMAS_PU_PD_GPIO_CTRL3_GPIO_9_PD", 0x04, 2⟩]⟩,
   ⟨"PU_PD_GPIO_CTRL4",
     [⟨"PALMAS_PU_PD_GPIO_CTRL4_GPIO_14_PU", 0x20, 5⟩,
      ⟨"PALMAS_PU_PD_GPIO_CTRL4_GPIO_14_PD", 0x10, 4⟩]⟩,
   ⟨"OD_OUTPUT_GPIO_CTRL2",
     [⟨"PALMAS_OD_OUTPUT_GPIO_CTRL_GPIO_10_OD", 0x04, 2⟩]⟩]

/-- Source: the blocks "Bit definitions for ..." of function GPADC (lines 3504 to 3626). -/
def gpadc_bits : List register_bits :=
  [⟨"GPADC_CTRL1",
     [⟨"PALMAS_GPADC_CTRL1_RESERVED_MASK", 0xc0, 6⟩,
      ⟨"PALMAS_GPADC_CTRL1_CURRENT_SRC_CH3_MASK", 0x30, 4⟩,
      ⟨"PALMAS_GPADC_CTRL1_CURRENT_SRC_CH0_MASK", 0x0c, 2⟩,
      ⟨"PALMAS_GPADC_CTRL1_BAT_REMOVAL_DET", 0x02, 1⟩,
      ⟨"PALMAS_GPADC_CTRL1_GPADC_FORCE", 0x01, 0⟩]⟩,
   ⟨"GPADC_CTRL2",
     [⟨"PALMAS_GPADC_CTRL2_RESERVED_MASK", 0x06, 1⟩]⟩,
   ⟨"GPADC_RT_CTRL",
     [⟨"PALMAS_GPADC_RT_CTRL_EXTEND_DELAY", 0x02, 1⟩,
      ⟨"PALMAS_GPADC_RT_CTRL_START_POLARITY", 0x01, 0⟩]⟩,
   ⟨"GPADC_AUTO_CTRL",
     [⟨"PALMAS_GPADC_AUTO_CTRL_SHUTDOWN_CONV1", 0x80, 7⟩,
      ⟨"PALMAS_GPADC_AUTO_CTRL_SHUTDOWN_CONV0", 0x40, 6⟩,
      ⟨"PALMAS_GPADC_AUTO_CTRL_AUTO_CONV1_EN", 0x20, 5⟩,
      ⟨"PALMAS_GPADC_AUTO_CTRL_AUTO_CONV0_EN", 0x10, 4⟩,
      ⟨"PALMAS_GPADC_AUTO_CTRL_COUNTER_CONV_MASK", 0x0f, 0⟩]⟩,
   ⟨"GPADC_STATUS",
     [⟨"PALMAS_GPADC_STATUS_GPADC_AVAILABLE", 0x10, 4⟩]⟩,
   ⟨"GPADC_RT_SELECT",
     [⟨"PALMAS_GPADC_RT_SELECT_RT_CONV_EN", 0x80, 7⟩,
      ⟨"PALMAS_GPADC_RT_SELECT_RT_CONV0_SEL_MASK", 0x0f, 0⟩]⟩,
   ⟨"GPADC_RT_CONV0_LSB",
     [⟨"PALMAS_GPADC_RT_CONV0_LSB_RT_CONV0_LSB_MASK", 0xff, 0⟩]⟩,
   ⟨"GPADC_RT_CONV0_MSB",
     [⟨"PALMAS_GPADC_RT_CONV0_MSB_RT_CONV0_MSB_MASK", 0x0f, 0⟩]⟩,
   ⟨"GPADC_AUTO_SELECT",
     [⟨"PALMAS_GPADC_AUTO_SELECT_AUTO_CONV1_SEL_MASK", 0xf0, 4⟩,
      ⟨"PALMAS_GPADC_AUTO_SELECT_AUTO_CONV0_SEL_MASK", 0x0f, 0⟩]⟩,
   ⟨"GPADC_AUTO_CONV0_LSB",
     [⟨"PALMAS_GPADC_AUTO_CONV0_LSB_AUTO_CONV0_LSB_MASK", 0xff, 0⟩]⟩,
   ⟨"GPADC_AUTO_CONV0_MSB",
     [⟨"PALMAS_GPADC_AUTO_CONV0_MSB_AUTO_CONV0_MSB_MASK", 0x0f, 0⟩]⟩,
   ⟨"GPADC_AUTO_CONV1_LSB",
     [⟨"PALMAS_GPADC_AUTO_CONV1_LSB_AUTO_CONV1_LSB_MASK", 0xff, 0⟩]⟩,
   ⟨"GPADC_AUTO_CONV1_MSB",
     [⟨"PALMAS_GPADC_AUTO_CONV1_MSB_AUTO_CONV1_MSB_MASK", 0x0f, 0⟩]⟩,
   ⟨"GPADC_SW_SELECT",
     [⟨"PALMAS_GPADC_SW_SELECT_SW_CONV_EN", 0x80, 7⟩,
      ⟨"PALMAS_GPADC_SW_SELECT_SW_START_CONV0", 0x10, 4⟩,
      ⟨"PALMAS_GPADC_SW_SELECT_SW_CONV0_SEL_MASK", 0x0f, 0⟩]⟩,
   ⟨"GPADC_SW_CONV0_LSB",
     [⟨"PALMAS_GPADC_SW_CONV0_LSB_SW_CONV0_LSB_MASK", 0xff, 0⟩]⟩,
   ⟨"GPADC_SW_CONV0_MSB",
     [⟨"PALMAS_GPADC_SW_CONV0_MSB_SW_CONV0_MSB_MASK", 0x0f, 0⟩]⟩,
   ⟨"GPADC_THRES_CONV0_LSB",
     [⟨"PALMAS_GPADC_THRES_CONV0_LSB_THRES_CONV0_LSB_MASK", 0xff, 0⟩]⟩,
   ⟨"GPADC_THRES_CONV0_MSB",
     [⟨"PALMAS_GPADC_THRES_CONV0_MSB_THRES_CONV0_POL", 0x80, 7⟩,
      ⟨"PALMAS_GPADC_THRES_CONV0_MSB_THRES_CONV0_MSB_MASK", 0x0f, 0⟩]⟩,
   ⟨"GPADC_THRES_CONV1_LSB",
     [⟨"PALMAS_GPADC_THRES_CONV1_LSB_THRES_CONV1_LSB_MASK", 0xff, 0⟩]⟩,
   ⟨"GPADC_THRES_CONV1_MSB",
     [⟨"PALMAS_GPADC_THRES_CONV1_MSB_THRES_CONV1_POL", 0x80, 7⟩,
      ⟨"PALMAS_GPADC_THRES_CONV1_MSB_THRES_CONV1_MSB_MASK", 0x0f, 0⟩]⟩,
   ⟨"GPADC_SMPS_ILMONITOR_EN",
     [⟨"PALMAS_GPADC_SMPS_ILMONITOR_EN_SMPS_ILMON_EN", 0x20, 5⟩,
      ⟨"PALMAS_GPADC_SMPS_ILMONITOR_EN_SMPS_ILMON_REXT", 0x10, 4⟩,
      ⟨"PALMAS_GPADC_SMPS_ILMONITOR_EN_SMPS_ILMON_SEL_MASK", 0x0f, 0⟩]⟩,
   ⟨"GPADC_SMPS_VSEL_MONITORING",
     [⟨"PALMAS_GPADC_SMPS_VSEL_MONITORING_ACTIVE_PHASE", 0x80, 7⟩,
      ⟨"PALMAS_GPADC_SMPS_VSEL_MONITORING_SMPS_VSEL_MONITORING_MASK", 0x7f, 0⟩]⟩]

/-- Source: the blocks "Bit definitions for ..." of function FUEL_GAUGE (lines 3743 to 3861). -/
def fuel_gauge_bits : List register_bits :=
  [⟨"FG_REG_00",
     [⟨"PALMAS_FG_REG_00_CC_ACTIVE_MODE_MASK", 0xc0, 6⟩,
      ⟨"PALMAS_FG_REG_00_CC_BAT_STABLE_EN", 0x20, 5⟩,
      ⟨"PALMAS_FG_REG_00_CC_DITH_EN", 0x10, 4⟩,
      ⟨"PALMAS_FG_REG_00_CC_FG_EN", 0x08, 3⟩,
      ⟨"PALMAS_FG_REG_00_CC_AUTOCLEAR", 0x04, 2⟩,
      ⟨"PALMAS_FG_REG_00_CC_CAL_EN", 0x02, 1⟩,
      ⟨"PALMAS_FG_REG_00_CC_PAUSE", 0x01, 0⟩]⟩,
   ⟨"FG_REG_01",
     [⟨"PALMAS_FG_REG_01_CC_SAMPLE_CNTR_MASK", 0xff, 0⟩]⟩,
   ⟨"FG_REG_02",
     [⟨"PALMAS_FG_REG_02_CC_SAMPLE_CNTR_MASK", 0xff, 0⟩]⟩,
   ⟨"FG_REG_03",
     [⟨"PALMAS_FG_REG_03_CC_SAMPLE_CNTR_MASK", 0xff, 0⟩]⟩,
   ⟨"FG_REG_04",
     [⟨"PALMAS_FG_REG_04_CC_ACCUM_MASK", 0xff, 0⟩]⟩,
   ⟨"FG_REG_05",
     [⟨"PALMAS_FG_REG_05_CC_ACCUM_MASK", 0xff, 0⟩]⟩,
   ⟨"FG_REG_06",
     [⟨"PALMAS_FG_REG_06_CC_ACCUM_MASK", 0xff, 0⟩]⟩,
   ⟨"FG_REG_07",
     [⟨"PALMAS_FG_REG_07_CC_ACCUM_MASK", 0xff, 0⟩]⟩,
   ⟨"FG_REG_08",
     [⟨"PALMAS_FG_REG_08_CC_OFFSET_MASK", 0xff, 0⟩]⟩,
   ⟨"FG_REG_09",
     [⟨"PALMAS_FG_REG_09_CC_OFFSET_MASK", 0x03, 0⟩]⟩,
   ⟨"FG_REG_10",
     [⟨"PALMAS_FG_REG_10_CC_INTEG_MASK", 0xff, 0⟩]⟩,
   ⟨"FG_REG_11",
     [⟨"PALMAS_FG_REG_11_CC_INTEG_MASK", 0x3f, 0⟩]⟩,
   ⟨"FG_REG_12",
     [⟨"PALMAS_FG_REG_12_CC_VBAT_SYNC_MASK", 0xfc, 2⟩,
      ⟨"PALMAS_FG_REG_12_CC_SYNC_EN", 0x02, 1⟩,
      ⟨"PALMAS_FG_REG_12_CC_SYNC_RDY", 0x01, 0⟩]⟩,
   ⟨"FG_REG_13",
     [⟨"PALMAS_FG_REG_13_CC_VBAT_SYNC_MASK", 0x3f, 0⟩]⟩,
   ⟨"FG_REG_14",
     [⟨"PALMAS_FG_REG_14_CC_VBAT_CNTR_MASK", 0xff, 0⟩]⟩,
   ⟨"FG_REG_15",
     [⟨"PALMAS_FG_REG_15_CC_VBAT_CNTR_MASK", 0x03, 0⟩]⟩,
   ⟨"FG_REG_16",
     [⟨"PALMAS_FG_REG_16_CC_VBAT_ACCUM_MASK", 0xff, 0⟩]⟩,
   ⟨"FG_REG_17",
     [⟨"PALMAS_FG_REG_17_CC_VBAT_ACCUM_MASK", 0xff, 0⟩]⟩,
   ⟨"FG_REG_18",
     [⟨"PALMAS_FG_REG_18_CC_VBAT_ACCUM_MASK", 0x3f, 0⟩]⟩,
   ⟨"FG_REG_19",
     [⟨"PALMAS_FG_REG_19_CC_CUR_LVL_MASK", 0x3f, 0⟩]⟩,
   ⟨"FG_REG_20",
     [⟨"PALMAS_FG_REG_20_BAT_SLEEP_STATUS", 0x40, 6⟩,
      ⟨"PALMAS_FG_REG_20_CC_BAT_SLEEP_PERIOD_MASK", 0x30, 4⟩,
      ⟨"PALMAS_FG_REG_20_CC_BAT_SLEEP_EXIT_MASK", 0x0c, 2⟩,
      ⟨"PALMAS_FG_REG_20_CC_BAT_SLEEP_ENTER_MASK", 0x03, 0⟩]⟩,
   ⟨"FG_REG_21",
     [⟨"PALMAS_FG_REG_21_CC_OVERCUR_THRES_MASK", 0x7f, 0⟩]⟩,
   ⟨"FG_REG_22",
     [⟨"PALMAS_FG_REG_22_CC_CHOPPER_DIS", 0x80, 7⟩,
      ⟨"PALMAS_FG_REG_22_CC_NSLEEP_GATE", 0x08, 3⟩,
      ⟨"PALMAS_FG_REG_22_CC_OVC_EN", 0x04, 2⟩,
      ⟨"PALMAS_FG_REG_22_CC_OVC_PER_MASK", 0x03, 0⟩]⟩]

/-- Every block "Bit definitions for ..." of the header, in source order. -/
def bit_definitions : List register_bits :=
  charge_pump_bits ++ rtc_bits ++ backup_bits ++ smps_bits ++
  ldo_bits ++ simcard_bits ++ pmu_control_bits ++ resource_bits ++
  pad_control_bits ++ led_pwm_bits ++ interrupt_bits ++ usb_otg_bits ++
  vibrator_bits ++ gpio_bits ++ gpadc_bits ++ fuel_gauge_bits

/-! ## Function blocks and their registers -/

/-- One block "Registers for function F" of the header: the function `name`,
the `PALMAS_*_BASE` constant of the IP block it belongs to, and its register
offsets under their own names, in source order. Each block goes with the base
of the same name; PAD_CONTROL goes with `PALMAS_PU_PD_OD_BASE`, LED_PWM with
`PALMAS_LED_BASE`, the second block headed GPADC (`PALMAS_GPADC_TRIM1` ..)
with `PALMAS_TRIM_GPADC_BASE`, and BQ24192 (`PALMAS_CHARGER_REG00` ..) with
`PALMAS_CHARGER_BASE`. -/
structure function_block where
  name : String
  base : Nat
  registers : List (String × Nat)

/-- Source: the blocks "Registers for function ..." of the header, in source
order. The constants inside those blocks that are not register offsets are
left out: the five `PALMAS_SMPS_DVFS1_*_SHIFT` bit positions of the DVFS block
and the marker `PALMAS_GPADC_TRIMINVALID` (-1). The block BACKUP is left out
too: the header names no base address for it. -/
def function_blocks : List function_block :=
  [⟨"RTC", PALMAS_RTC_BASE,
     [("PALMAS_SECONDS_REG", 0x0), ("PALMAS_MINUTES_REG", 0x1), ("PALMAS_HOURS_REG", 0x2),
      ("PALMAS_DAYS_REG", 0x3), ("PALMAS_MONTHS_REG", 0x4), ("PALMAS_YEARS_REG", 0x5),
      ("PALMAS_WEEKS_REG", 0x6), ("PALMAS_ALARM_SECONDS_REG", 0x8),
      ("PALMAS_ALARM_MINUTES_REG", 0x9), ("PALMAS_ALARM_HOURS_REG", 0xA),
      ("PALMAS_ALARM_DAYS_REG", 0xB), ("PALMAS_ALARM_MONTHS_REG", 0xC),
      ("PALMAS_ALARM_YEARS_REG", 0xD), ("PALMAS_RTC_CTRL_REG", 0x10),
      ("PALMAS_RTC_STATUS_REG", 0x11), ("PALMAS_RTC_INTERRUPTS_REG", 0x12),
      ("PALMAS_RTC_COMP_LSB_REG", 0x13), ("PALMAS_RTC_COMP_MSB_REG", 0x14),
      ("PALMAS_RTC_RES_PROG_REG", 0x15), ("PALMAS_RTC_RESET_STATUS_REG", 0x16)]⟩,
   ⟨"SMPS", PALMAS_SMPS_BASE,
     [("PALMAS_SMPS12_CTRL", 0x0), ("PALMAS_SMPS12_TSTEP", 0x1), ("PALMAS_SMPS12_FORCE", 0x2),
      ("PALMAS_SMPS12_VOLTAGE", 0x3), ("PALMAS_SMPS3_CTRL", 0x4), ("PALMAS_SMPS3_TSTEP", 0x5),
      ("PALMAS_SMPS3_FORCE", 0x6), ("PALMAS_SMPS3_VOLTAGE", 0x7), ("PALMAS_SMPS45_CTRL", 0x8),
      ("PALMAS_SMPS45_TSTEP", 0x9), ("PALMAS_SMPS45_FORCE", 0xA), ("PALMAS_SMPS45_VOLTAGE", 0xB),
      ("PALMAS_SMPS6_CTRL", 0xC), ("PALMAS_SMPS6_TSTEP", 0xD), ("PALMAS_SMPS6_FORCE", 0xE),
      ("PALMAS_SMPS6_VOLTAGE", 0xF), ("PALMAS_SMPS7_CTRL", 0x10), ("PALMAS_SMPS7_VOLTAGE", 0x13),
      ("PALMAS_SMPS8_CTRL", 0x14), ("PALMAS_SMPS8_TSTEP", 0x15), ("PALMAS_SMPS8_FORCE", 0x16),
      ("PALMAS_SMPS8_VOLTAGE", 0x17), ("PALMAS_SMPS9_CTRL", 0x18),
      ("PALMAS_SMPS9_VOLTAGE", 0x1B), ("PALMAS_SMPS10_CTRL", 0x1C),
      ("PALMAS_SMPS10_STATUS", 0x1F), ("PALMAS_SMPS_CTRL", 0x24), ("PALMAS_SMPS_PD_CTRL", 0x25),
      ("PALMAS_SMPS_DITHER_EN", 0x26), ("PALMAS_SMPS_THERMAL_EN", 0x27),
      ("PALMAS_SMPS_THERMAL_STATUS", 0x28), ("PALMAS_SMPS_SHORT_STATUS", 0x29),
      ("PALMAS_SMPS_NEGATIVE_CURRENT_LIMIT_EN", 0x2A), ("PALMAS_SMPS_POWERGOOD_MASK1", 0x2B),
      ("PALMAS_SMPS_POWERGOOD_MASK2", 0x2C)]⟩,
   ⟨"LDO", PALMAS_LDO_BASE,
     [("PALMAS_LDO1_CTRL", 0x0), ("PALMAS_LDO1_VOLTAGE", 0x1), ("PALMAS_LDO2_CTRL", 0x2),
      ("PALMAS_LDO2_VOLTAGE", 0x3), ("PALMAS_LDO3_CTRL", 0x4), ("PALMAS_LDO3_VOLTAGE", 0x5),
      ("PALMAS_LDO4_CTRL", 0x6), ("PALMAS_LDO4_VOLTAGE", 0x7), ("PALMAS_LDO5_CTRL", 0x8),
      ("PALMAS_LDO5_VOLTAGE", 0x9), ("PALMAS_LDO6_CTRL", 0xA), ("PALMAS_LDO6_VOLTAGE", 0xB),
      ("PALMAS_LDO7_CTRL", 0xC), ("PALMAS_LDO7_VOLTAGE", 0xD), ("PALMAS_LDO8_CTRL", 0xE),
      ("PALMAS_LDO8_VOLTAGE", 0xF), ("PALMAS_LDO9_CTRL", 0x10), ("PALMAS_LDO9_VOLTAGE", 0x11),
      ("PALMAS_LDOLN_CTRL", 0x12), ("PALMAS_LDOLN_VOLTAGE", 0x13), ("PALMAS_LDOUSB_CTRL", 0x14),
      ("PALMAS_LDOUSB_VOLTAGE", 0x15), ("PALMAS_LDO10_CTRL", 0x16),
      ("PALMAS_LDO10_VOLTAGE", 0x17), ("PALMAS_LDO11_CTRL", 0x18),
      ("PALMAS_LDO11_VOLTAGE", 0x19), ("PALMAS_LDO12_CTRL", 0x1F),
      ("PALMAS_LDO12_VOLTAGE", 0x20), ("PALMAS_LDO13_CTRL", 0x21),
      ("PALMAS_LDO13_VOLTAGE", 0x22), ("PALMAS_LDO14_CTRL", 0x23),
      ("PALMAS_LDO14_VOLTAGE", 0x24), ("PALMAS_LDO_CTRL", 0x1A), ("PALMAS_LDO_PD_CTRL1", 0x1B),
      ("PALMAS_LDO_PD_CTRL2", 0x1C), ("PALMAS_LDO_SHORT_STATUS1", 0x1D),
      ("PALMAS_LDO_SHORT_STATUS2", 0x1E)]⟩,
   ⟨"DVFS", PALMAS_DVFS_BASE,
     [("PALMAS_SMPS_DVFS1_CTRL", 0x0), ("PALMAS_SMPS_DVFS1_VOLTAGE_MAX", 0x1),
      ("PALMAS_SMPS_DVFS1_STATUS", 0x2)]⟩,
   ⟨"SIMCARD", PALMAS_SIMCARD_BASE,
     [("PALMAS_SIM_DEBOUNCE", 0x0), ("PALMAS_SIM_PWR_DOWN", 0x1)]⟩,
   ⟨"PMU_CONTROL", PALMAS_PMU_CONTROL_BASE,
     [("PALMAS_DEV_CTRL", 0x0), ("PALMAS_POWER_CTRL", 0x1), ("PALMAS_VSYS_LO", 0x2),
      ("PALMAS_VSYS_MON", 0x3), ("PALMAS_VBAT_MON", 0x4), ("PALMAS_WATCHDOG", 0x5),
      ("PALMAS_BOOT_STATUS", 0x6), ("PALMAS_BATTERY_BOUNCE", 0x7),
      ("PALMAS_BACKUP_BATTERY_CTRL", 0x8), ("PALMAS_LONG_PRESS_KEY", 0x9),
      ("PALMAS_OSC_THERM_CTRL", 0xA), ("PALMAS_BATDEBOUNCING", 0xB), ("PALMAS_SWOFF_HWRST", 0xF),
      ("PALMAS_SWOFF_COLDRST", 0x10), ("PALMAS_SWOFF_STATUS", 0x11), ("PALMAS_PMU_CONFIG", 0x12),
      ("PALMAS_SPARE", 0x14), ("PALMAS_PMU_SECONDARY_INT", 0x15), ("PALMAS_SW_REVISION", 0x17),
      ("PALMAS_EXT_CHRG_CTRL", 0x18), ("PALMAS_PMU_SECONDARY_INT2", 0x19),
      ("PALMAS_USB_CHGCTL1", 0x1A), ("PALMAS_USB_CHGCTL2", 0x1B)]⟩,
   ⟨"RESOURCE", PALMAS_RESOURCE_BASE,
     [("PALMAS_CLK32KG_CTRL", 0x0), ("PALMAS_CLK32KGAUDIO_CTRL", 0x1),
      ("PALMAS_REGEN1_CTRL", 0x2), ("PALMAS_REGEN2_CTRL", 0x3), ("PALMAS_SYSEN1_CTRL", 0x4),
      ("PALMAS_SYSEN2_CTRL", 0x5), ("PALMAS_NSLEEP_RES_ASSIGN", 0x6),
      ("PALMAS_NSLEEP_SMPS_ASSIGN", 0x7), ("PALMAS_NSLEEP_LDO_ASSIGN1", 0x8),
      ("PALMAS_NSLEEP_LDO_ASSIGN2", 0x9), ("PALMAS_ENABLE1_RES_ASSIGN", 0xA),
      ("PALMAS_ENABLE1_SMPS_ASSIGN", 0xB), ("PALMAS_ENABLE1_LDO_ASSIGN1", 0xC),
      ("PALMAS_ENABLE1_LDO_ASSIGN2", 0xD), ("PALMAS_ENABLE2_RES_ASSIGN", 0xE),
      ("PALMAS_ENABLE2_SMPS_ASSIGN", 0xF), ("PALMAS_ENABLE2_LDO_ASSIGN1", 0x10),
      ("PALMAS_ENABLE2_LDO_ASSIGN2", 0x11), ("PALMAS_REGEN3_CTRL", 0x12),
      ("PALMAS_REGEN4_CTRL", 0x13), ("PALMAS_REGEN5_CTRL", 0x14), ("PALMAS_REGEN7_CTRL", 0x16),
      ("PALMAS_NSLEEP_RES_ASSIGN2", 0x18), ("PALMAS_ENABLE1_RES_ASSIGN2", 0x19),
      ("PALMAS_ENABLE2_RES_ASSIGN2", 0x1A)]⟩,
   ⟨"PAD_CONTROL", PALMAS_PU_PD_OD_BASE,
     [("PALMAS_OD_OUTPUT_CTRL2", 0x2), ("PALMAS_POLARITY_CTRL2", 0x3),
      ("PALMAS_PU_PD_INPUT_CTRL1", 0x4), ("PALMAS_PU_PD_INPUT_CTRL2", 0x5),
      ("PALMAS_PU_PD_INPUT_CTRL3", 0x6), ("PALMAS_PU_PD_INPUT_CTRL5", 0x7),
      ("PALMAS_OD_OUTPUT_CTRL", 0x8), ("PALMAS_POLARITY_CTRL", 0x9),
      ("PALMAS_PRIMARY_SECONDARY_PAD1", 0xA), ("PALMAS_PRIMARY_SECONDARY_PAD2", 0xB),
      ("PALMAS_I2C_SPI", 0xC), ("PALMAS_PU_PD_INPUT_CTRL4", 0xD),
      ("PALMAS_PRIMARY_SECONDARY_PAD3", 0xE), ("PALMAS_PRIMARY_SECONDARY_PAD4", 0xF)]⟩,
   ⟨"LED_PWM", PALMAS_LED_BASE,
     [("PALMAS_LED_PERIOD_CTRL", 0x0), ("PALMAS_LED_CTRL", 0x1), ("PALMAS_PWM_CTRL1", 0x2),
      ("PALMAS_PWM_CTRL2", 0x3)]⟩,
   ⟨"INTERRUPT", PALMAS_INTERRUPT_BASE,
     [("PALMAS_INT1_STATUS", 0x0), ("PALMAS_INT1_MASK", 0x1), ("PALMAS_INT1_LINE_STATE", 0x2),
      ("PALMAS_INT1_EDGE_DETECT1_RESERVED", 0x3), ("PALMAS_INT1_EDGE_DETECT2_RESERVED", 0x4),
      ("PALMAS_INT2_STATUS", 0x5), ("PALMAS_INT2_MASK", 0x6), ("PALMAS_INT2_LINE_STATE", 0x7),
      ("PALMAS_INT2_EDGE_DETECT1_RESERVED", 0x8), ("PALMAS_INT2_EDGE_DETECT2_RESERVED", 0x9),
      ("PALMAS_INT3_STATUS", 0xA), ("PALMAS_INT3_MASK", 0xB), ("PALMAS_INT3_LINE_STATE", 0xC),
      ("PALMAS_INT3_EDGE_DETECT1_RESERVED", 0xD), ("PALMAS_INT3_EDGE_DETECT2_RESERVED", 0xE),
      ("PALMAS_INT4_STATUS", 0xF), ("PALMAS_INT4_MASK", 0x10), ("PALMAS_INT4_LINE_STATE", 0x11),
      ("PALMAS_INT4_EDGE_DETECT1", 0x12), ("PALMAS_INT4_EDGE_DETECT2", 0x13),
      ("PALMAS_INT5_STATUS", 0x15), ("PALMAS_INT5_MASK", 0x16), ("PALMAS_INT5_LINE_STATE", 0x17),
      ("PALMAS_INT5_EDGE_DETECT1", 0x18), ("PALMAS_INT5_EDGE_DETECT2", 0x19),
      ("PALMAS_INT_CTRL", 0x14), ("PALMAS_INT5_STATUS", 0x15), ("PALMAS_INT5_MASK", 0x16),
      ("PALMAS_INT5_LINE_STATE", 0x17), ("PALMAS_INT5_EDGE_DETECT1", 0x18),
      ("PALMAS_INT5_EDGE_DETECT2", 0x19), ("PALMAS_INT6_STATUS", 0x1A),
      ("PALMAS_INT6_MASK", 0x1B), ("PALMAS_INT6_LINE_STATE", 0x1C),
      ("PALMAS_INT6_EDGE_DETECT1_RESERVED", 0x1D), ("PALMAS_INT6_EDGE_DETECT2_RESERVED", 0x1E)]⟩,
   ⟨"USB_OTG", PALMAS_USB_OTG_BASE,
     [("PALMAS_USB_WAKEUP", 0x3), ("PALMAS_USB_VBUS_CTRL_SET", 0x4),
      ("PALMAS_USB_VBUS_CTRL_CLR", 0x5), ("PALMAS_USB_ID_CTRL_SET", 0x6),
      ("PALMAS_USB_ID_CTRL_CLEAR", 0x7), ("PALMAS_USB_VBUS_INT_SRC", 0x8),
      ("PALMAS_USB_VBUS_INT_LATCH_SET", 0x9), ("PALMAS_USB_VBUS_INT_LATCH_CLR", 0xA),
      ("PALMAS_USB_VBUS_INT_EN_LO_SET", 0xB), ("PALMAS_USB_VBUS_INT_EN_LO_CLR", 0xC),
      ("PALMAS_USB_VBUS_INT_EN_HI_SET", 0xD), ("PALMAS_USB_VBUS_INT_EN_HI_CLR", 0xE),
      ("PALMAS_USB_ID_INT_SRC", 0xF), ("PALMAS_USB_ID_INT_LATCH_SET", 0x10),
      ("PALMAS_USB_ID_INT_LATCH_CLR", 0x11), ("PALMAS_USB_ID_INT_EN_LO_SET", 0x12),
      ("PALMAS_USB_ID_INT_EN_LO_CLR", 0x13), ("PALMAS_USB_ID_INT_EN_HI_SET", 0x14),
      ("PALMAS_USB_ID_INT_EN_HI_CLR", 0x15), ("PALMAS_USB_OTG_ADP_CTRL", 0x16),
      ("PALMAS_USB_OTG_ADP_HIGH", 0x17), ("PALMAS_USB_OTG_ADP_LOW", 0x18),
      ("PALMAS_USB_OTG_ADP_RISE", 0x19), ("PALMAS_USB_OTG_REVISION", 0x1A)]⟩,
   ⟨"VIBRATOR", PALMAS_VIBRATOR_BASE,
     [("PALMAS_VIBRA_CTRL", 0x0)]⟩,
   ⟨"GPIO", PALMAS_GPIO_BASE,
     [("PALMAS_GPIO_DATA_IN", 0x0), ("PALMAS_GPIO_DATA_DIR", 0x1), ("PALMAS_GPIO_DATA_OUT", 0x2),
      ("PALMAS_GPIO_DEBOUNCE_EN", 0x3), ("PALMAS_GPIO_CLEAR_DATA_OUT", 0x4),
      ("PALMAS_GPIO_SET_DATA_OUT", 0x5), ("PALMAS_PU_PD_GPIO_CTRL1", 0x6),
      ("PALMAS_PU_PD_GPIO_CTRL2", 0x7), ("PALMAS_OD_OUTPUT_GPIO_CTRL", 0x8),
      ("PALMAS_GPIO_DATA_IN2", 0x9), ("PALMAS_GPIO_DATA_DIR2", 0x0A),
      ("PALMAS_GPIO_DATA_OUT2", 0x0B), ("PALMAS_GPIO_DEBOUNCE_EN2", 0x0C),
      ("PALMAS_GPIO_CLEAR_DATA_OUT2", 0x0D), ("PALMAS_GPIO_SET_DATA_OUT2", 0x0E),
      ("PALMAS_PU_PD_GPIO_CTRL3", 0x0F), ("PALMAS_PU_PD_GPIO_CTRL4", 0x10),
      ("PALMAS_OD_OUTPUT_GPIO_CTRL2", 0x11)]⟩,
   ⟨"GPADC", PALMAS_GPADC_BASE,
     [("PALMAS_GPADC_CTRL1", 0x0), ("PALMAS_GPADC_CTRL2", 0x1), ("PALMAS_GPADC_RT_CTRL", 0x2),
      ("PALMAS_GPADC_AUTO_CTRL", 0x3), ("PALMAS_GPADC_STATUS", 0x4),
      ("PALMAS_GPADC_RT_SELECT", 0x5), ("PALMAS_GPADC_RT_CONV0_LSB", 0x6),
      ("PALMAS_GPADC_RT_CONV0_MSB", 0x7), ("PALMAS_GPADC_AUTO_SELECT", 0x8),
      ("PALMAS_GPADC_AUTO_CONV0_LSB", 0x9), ("PALMAS_GPADC_AUTO_CONV0_MSB", 0xA),
      ("PALMAS_GPADC_AUTO_CONV1_LSB", 0xB), ("PALMAS_GPADC_AUTO_CONV1_MSB", 0xC),
      ("PALMAS_GPADC_SW_SELECT", 0xD), ("PALMAS_GPADC_SW_CONV0_LSB", 0xE),
      ("PALMAS_GPADC_SW_CONV0_MSB", 0xF), ("PALMAS_GPADC_THRES_CONV0_LSB", 0x10),
      ("PALMAS_GPADC_THRES_CONV0_MSB", 0x11), ("PALMAS_GPADC_THRES_CONV1_LSB", 0x12),
      ("PALMAS_GPADC_THRES_CONV1_MSB", 0x13), ("PALMAS_GPADC_SMPS_ILMONITOR_EN", 0x14),
      ("PALMAS_GPADC_SMPS_VSEL_MONITORING", 0x15)]⟩,
   ⟨"GPADC_TRIM", PALMAS_TRIM_GPADC_BASE,
     [("PALMAS_GPADC_TRIM1", 0x0), ("PALMAS_GPADC_TRIM2", 0x1), ("PALMAS_GPADC_TRIM3", 0x2),
      ("PALMAS_GPADC_TRIM4", 0x3), ("PALMAS_GPADC_TRIM5", 0x4), ("PALMAS_GPADC_TRIM6", 0x5),
      ("PALMAS_GPADC_TRIM7", 0x6), ("PALMAS_GPADC_TRIM8", 0x7), ("PALMAS_GPADC_TRIM9", 0x8),
      ("PALMAS_GPADC_TRIM10", 0x9), ("PALMAS_GPADC_TRIM11", 0xA), ("PALMAS_GPADC_TRIM12", 0xB),
      ("PALMAS_GPADC_TRIM13", 0xC), ("PALMAS_GPADC_TRIM14", 0xD), ("PALMAS_GPADC_TRIM15", 0xE),
      ("PALMAS_GPADC_TRIM16", 0xF)]⟩,
   ⟨"BQ24192", PALMAS_CHARGER_BASE,
     [("PALMAS_CHARGER_REG00", 0x00), ("PALMAS_CHARGER_REG01", 0x01),
      ("PALMAS_CHARGER_REG02", 0x02), ("PALMAS_CHARGER_REG03", 0x03),
      ("PALMAS_CHARGER_REG04", 0x04), ("PALMAS_CHARGER_REG05", 0x05),
      ("PALMAS_CHARGER_REG06", 0x06), ("PALMAS_CHARGER_REG07", 0x07),
      ("PALMAS_CHARGER_REG08", 0x08), ("PALMAS_CHARGER_REG09", 0x09),
      ("PALMAS_CHARGER_REG10", 0x0a)]⟩,
   ⟨"FUEL_GAUGE", PALMAS_FUEL_GAUGE_BASE,
     [("PALMAS_FG_REG_00", 0x0), ("PALMAS_FG_REG_01", 0x1), ("PALMAS_FG_REG_02", 0x2),
      ("PALMAS_FG_REG_03", 0x3), ("PALMAS_FG_REG_04", 0x4), ("PALMAS_FG_REG_05", 0x5),
      ("PALMAS_FG_REG_06", 0x6), ("PALMAS_FG_REG_07", 0x7), ("PALMAS_FG_REG_08", 0x8),
      ("PALMAS_FG_REG_09", 0x9), ("PALMAS_FG_REG_10", 0xA), ("PALMAS_FG_REG_11", 0xB),
      ("PALMAS_FG_REG_12", 0xC), ("PALMAS_FG_REG_13", 0xD), ("PALMAS_FG_REG_14", 0xE),
      ("PALMAS_FG_REG_15", 0xF), ("PALMAS_FG_REG_16", 0x10), ("PALMAS_FG_REG_17", 0x11),
      ("PALMAS_FG_REG_18", 0x12), ("PALMAS_FG_REG_19", 0x13), ("PALMAS_FG_REG_20", 0x14),
      ("PALMAS_FG_REG_21", 0x15), ("PALMAS_FG_REG_22", 0x16)]⟩]

/-! ## Properties of bit definitions -/

/-- The lowest set bit of the mask of a field is at bit position `shift`: no
bit below `shift` is set, and bit `shift` is. -/
def bitfield.lowest_set_bit_at_shift (f : bitfield) : Prop :=
  f.mask % 2 ^ f.shift = 0 ∧ (f.mask >>> f.shift) % 2 = 1

instance (f : bitfield) : Decidable f.lowest_set_bit_at_shift := by
  unfold bitfield.lowest_set_bit_at_shift; infer_instance

/-- The set bits of the mask of a field are contiguous from `shift` upwards:
`mask >> shift` is of the form `2^k - 1`. -/
def bitfield.contiguous (f : bitfield) : Prop :=
  ∃ k : Nat, f.mask >>> f.shift = 2 ^ k - 1

/-- The mask and the shift of a field describe the same bit field: the mask
is non-zero, its lowest set bit is at `shift`, and its set bits are
contiguous. -/
def bitfield.consistent (f : bitfield) : Prop :=
  f.mask ≠ 0 ∧ f.lowest_set_bit_at_shift ∧ f.contiguous

/-- An executable test of `bitfield.consistent` for masks of up to 32 bits. -/
def bitfield.check (f : bitfield) : Bool :=
  decide (f.mask ≠ 0) && decide f.lowest_set_bit_at_shift &&
    (List.range 33).any (fun k => f.mask >>> f.shift == 2 ^ k - 1)

/-- Source: `PALMAS_PRIMARY_SECONDARY_PAD2_GPIO_4_MSB 0x04` with
`PALMAS_PRIMARY_SECONDARY_PAD2_GPIO_4_MSB_SHIFT 6` (lines 2334 and 2335). -/
def PAD2_GPIO_4_MSB : bitfield := ⟨"PALMAS_PRIMARY_SECONDARY_PAD2_GPIO_4_MSB", 0x04, 6⟩

/-- Every constant of the header that has a companion `_SHIFT`, in source
order. -/
def all_bitfields : List bitfield := bit_definitions.flatMap register_bits.fields

/-- The test `bitfield.check` on every field of a list of registers, the field
`PAD2_GPIO_4_MSB` apart. -/
def fields_checked (l : List register_bits) : Bool :=
  l.all (fun r => r.fields.all (fun f => f.check || f == PAD2_GPIO_4_MSB))

/-- The masks of the fields of one register are pairwise disjoint. -/
def masks_disjoint (fields : List bitfield) : Prop :=
  fields.Pairwise (fun a b => a.mask &&& b.mask = 0)

instance (fields : List bitfield) : Decidable (masks_disjoint fields) := by
  unfold masks_disjoint; infer_instance

/-- The names of the fuel-gauge registers `FG_REG_00` .. `FG_REG_22`, as the
"Bit definitions for" comments give them. -/
def fg_register_names : List String :=
  ["FG_REG_00", "FG_REG_01", "FG_REG_02", "FG_REG_03", "FG_REG_04", "FG_REG_05",
   "FG_REG_06", "FG_REG_07", "FG_REG_08", "FG_REG_09", "FG_REG_10", "FG_REG_11",
   "FG_REG_12", "FG_REG_13", "FG_REG_14", "FG_REG_15", "FG_REG_16", "FG_REG_17",
   "FG_REG_18", "FG_REG_19", "FG_REG_20", "FG_REG_21", "FG_REG_22"]

/-- The one-bit-per-LDO registers of the LDO function: `LDO_PD_CTRL1`,
`LDO_PD_CTRL2`, `LDO_SHORT_STATUS1`, `LDO_SHORT_STATUS2`, with their bits. -/
def ldo_per_ldo_bits : List register_bits :=
  ldo_bits.filter (fun r =>
    decide (r.reg ∈ ["LDO_PD_CTRL1", "LDO_PD_CTRL2", "LDO_SHORT_STATUS1", "LDO_SHORT_STATUS2"]))

/-- Source: `PALMAS_LDO_SHORT_STATUS2_LDO10 0x08` with shift 3 (line 1553). -/
def SHORT_STATUS2_LDO10 : bitfield := ⟨"PALMAS_LDO_SHORT_STATUS2_LDO10", 0x08, 3⟩

/-- Source: `PALMAS_LDO_SHORT_STATUS2_LDOVANA 0x08` with shift 3 (line 1555). -/
def SHORT_STATUS2_LDOVANA : bitfield := ⟨"PALMAS_LDO_SHORT_STATUS2_LDOVANA", 0x08, 3⟩

/-- Two fields are the pair `LDO10`/`LDOVANA` of `LDO_SHORT_STATUS2`, in
either order. -/
def ldo10_ldovana_pair (a b : bitfield) : Prop :=
  (a = SHORT_STATUS2_LDO10 ∧ b = SHORT_STATUS2_LDOVANA) ∨
  (a = SHORT_STATUS2_LDOVANA ∧ b = SHORT_STATUS2_LDO10)

instance (a b : bitfield) : Decidable (ldo10_ldovana_pair a b) := by
  unfold ldo10_ldovana_pair; infer_instance

/-! ## Interrupt numbers -/

/-- Source: `enum palmas_irqs`, the enumerators before `PALMAS_NUM_IRQ`, in
source order. No enumerator has an initialiser, so the value of each is its
position in this list. -/
def palmas_irqs : List String :=
  ["PALMAS_CHARG_DET_N_VBUS_OVV_IRQ", "PALMAS_PWRON_IRQ", "PALMAS_LONG_PRESS_KEY_IRQ",
   "PALMAS_RPWRON_IRQ", "PALMAS_PWRDOWN_IRQ", "PALMAS_HOTDIE_IRQ", "PALMAS_VSYS_MON_IRQ",
   "PALMAS_VBAT_MON_IRQ",
   "PALMAS_RTC_ALARM_IRQ", "PALMAS_RTC_TIMER_IRQ", "PALMAS_WDT_IRQ", "PALMAS_BATREMOVAL_IRQ",
   "PALMAS_RESET_IN_IRQ", "PALMAS_FBI_BB_IRQ", "PALMAS_SHORT_IRQ", "PALMAS_VAC_ACOK_IRQ",
   "PALMAS_GPADC_AUTO_0_IRQ", "PALMAS_GPADC_AUTO_1_IRQ", "PALMAS_GPADC_EOC_SW_IRQ",
   "PALMAS_GPADC_EOC_RT_IRQ", "PALMAS_ID_OTG_IRQ", "PALMAS_ID_IRQ", "PALMAS_VBUS_OTG_IRQ",
   "PALMAS_VBUS_IRQ",
   "PALMAS_GPIO_0_IRQ", "PALMAS_GPIO_1_IRQ", "PALMAS_GPIO_2_IRQ", "PALMAS_GPIO_3_IRQ",
   "PALMAS_GPIO_4_IRQ", "PALMAS_GPIO_5_IRQ", "PALMAS_GPIO_6_IRQ", "PALMAS_GPIO_7_IRQ",
   "PALMAS_GPIO_8_IRQ", "PALMAS_GPIO_9_IRQ", "PALMAS_GPIO_10_IRQ", "PALMAS_GPIO_11_IRQ",
   "PALMAS_GPIO_12_IRQ", "PALMAS_GPIO_13_IRQ", "PALMAS_GPIO_14_IRQ", "PALMAS_GPIO_15_IRQ",
   "PALMAS_CHARGER_IRQ", "PALMAS_SIM1_IRQ", "PALMAS_SIM2_IRQ",
   "PALMAS_BAT_TEMP_FAULT_IRQ"]

/-- Source: the last enumerator `PALMAS_NUM_IRQ` ("Total Number IRQs"). -/
def PALMAS_NUM_IRQ : Nat := palmas_irqs.length

/-- The value of the enumerator `name` of `enum palmas_irqs`, if there is
one. -/
def irq_number (name : String) : Option Nat :=
  if name ∈ palmas_irqs then some (palmas_irqs.indexOf name) else none

/-- The interrupt status registers `PALMAS_INTn_STATUS`, `n = 1..6`, each with
the name of its "Bit definitions for" block. -/
def int_status_registers : List (Nat × String) :=
  [(1, "INT1_STATUS"), (2, "INT2_STATUS"), (3, "INT3_STATUS"), (4, "INT4_STATUS"),
   (5, "INT5_STATUS"), (6, "INT6_STATUS")]

/-- What is left of the characters `s` after the leading characters `stem`,
if `s` starts with them. -/
def after_stem : List Char → List Char → Option (List Char)
  | [], rest => some rest
  | _ :: _, [] => none
  | c :: cs, d :: ds => if c = d then after_stem cs ds else none

/-- The IRQ constant of the same name as a status bit: the bit
`PALMAS_<reg>_<X>` of register `reg` goes with `PALMAS_<X>_IRQ`. -/
def same_named_irq (reg : String) (f : bitfield) : Option String :=
  (after_stem ("PALMAS_" ++ reg ++ "_").data f.name.data).map
    (fun x => "PALMAS_" ++ String.mk x ++ "_IRQ")

/-- One status bit with an IRQ constant of the same name: the number `n` of
its register `PALMAS_INTn_STATUS`, the IRQ constant, the IRQ number and the
`_SHIFT` of the status bit. -/
structure irq_status_bit where
  n : Nat
  irq : String
  number : Nat
  shift : Nat
  deriving DecidableEq, Repr

/-- The status bits of one register `PALMAS_INTn_STATUS` that have an IRQ
constant of the same name. -/
def irq_status_bits_of (n : Nat) (r : register_bits) : List irq_status_bit :=
  r.fields.filterMap (fun f =>
    match same_named_irq r.reg f with
    | none => none
    | some irq =>
      match irq_number irq with
      | none => none
      | some k => some ⟨n, irq, k, f.shift⟩)

/-- Every status bit of `PALMAS_INT1_STATUS` .. `PALMAS_INT6_STATUS` that has
an IRQ constant of the same name in `enum palmas_irqs`. -/
def irq_status_bits : List irq_status_bit :=
  int_status_registers.flatMap (fun p =>
    (interrupt_bits.filter (fun r => r.reg == p.2)).flatMap (irq_status_bits_of p.1))

/-! ## Array dimensions of the fuel-gauge layout and of the regulator tables -/

/-- The entries of the OCV lookup table `table[OCV_TABLE_SIZE]` of a `struct
ocv_config`, in index order. -/
def ocv_config.entries (o : ocv_config) : List Nat := List.ofFn o.table

/-- The EDV calibration points `edv[3]` of a `struct edv_config`, in index
order. -/
def edv_config.points (e : edv_config) : List edv_point := List.ofFn e.edv

/-- The EDV latch flags of a `struct cell_state`, in source order: `edv0`,
`edv1`, `edv2`. -/
def cell_state.edv_flags (s : cell_state) : List Bool := [s.edv0, s.edv1, s.edv2]

/-- Source: the dimension of `int range[PALMAS_REG_SMPS10]` in `struct
palmas_pmic`. -/
def palmas_pmic_range_size : Nat := palmas_regulators.PALMAS_REG_SMPS10.id

/-- The SMPS regulators other than SMPS10, in source order. -/
def smps_regulators_below_smps10 : List palmas_regulators :=
  [.PALMAS_REG_SMPS12, .PALMAS_REG_SMPS123, .PALMAS_REG_SMPS3, .PALMAS_REG_SMPS45,
   .PALMAS_REG_SMPS457, .PALMAS_REG_SMPS6, .PALMAS_REG_SMPS7, .PALMAS_REG_SMPS8,
   .PALMAS_REG_SMPS9]

/-! ## Flat addresses -/

/-- The smallest `PALMAS_*_BASE` constant that is greater than `b`, if there
is one. -/
def next_base (b : Nat) : Option Nat :=
  (ip_block_bases.filter (fun x => decide (b < x))).foldl
    (fun acc x =>
      match acc with
      | none => some x
      | some m => some (min m x))
    none

/-- The registers of a function block lie below the next base: every flat
address `base + offset` of the registers `regs` is strictly below the smallest
base constant greater than `base`, when there is one. -/
def below_next_base (base : Nat) (regs : List (String × Nat)) : Prop :=
  ∀ nb, next_base base = some nb → ∀ r ∈ regs, base + r.2 < nb

instance (base : Nat) (regs : List (String × Nat)) : Decidable (below_next_base base regs) := by
  unfold below_next_base
  cases h : next_base base with
  | none => exact isTrue (fun nb hnb => by cases hnb)
  | some m =>
    exact decidable_of_iff (∀ r ∈ regs, base + r.2 < m)
      ⟨fun hall nb hnb r hr => by cases hnb; exact hall r hr, fun hall => hall m rfl⟩

/-! ## GPADC channels and channel-select fields -/

/-- Source: the enum "Palma GPADC Channels", the enumerators before
`PALMAS_ADC_CH_MAX`, in source order. No enumerator has an initialiser, so the
value of each is its position in this list. -/
def palmas_adc_channels : List String :=
  ["PALMAS_ADC_CH_IN0", "PALMAS_ADC_CH_IN1", "PALMAS_ADC_CH_IN2", "PALMAS_ADC_CH_IN3",
   "PALMAS_ADC_CH_IN4", "PALMAS_ADC_CH_IN5", "PALMAS_ADC_CH_IN6", "PALMAS_ADC_CH_IN7",
   "PALMAS_ADC_CH_IN8", "PALMAS_ADC_CH_IN9", "PALMAS_ADC_CH_IN10", "PALMAS_ADC_CH_IN11",
   "PALMAS_ADC_CH_IN12", "PALMAS_ADC_CH_IN13", "PALMAS_ADC_CH_IN14", "PALMAS_ADC_CH_IN15"]

/-- Source: the last enumerator `PALMAS_ADC_CH_MAX` of the GPADC channel
enum: it follows every channel, so its value is their number. -/
def PALMAS_ADC_CH_MAX : Nat := palmas_adc_channels.length

/-- The names of the four channel-select fields of the GPADC: `SW_CONV0_SEL`
of `GPADC_SW_SELECT`, `RT_CONV0_SEL` of `GPADC_RT_SELECT`, `AUTO_CONV0_SEL`
and `AUTO_CONV1_SEL` of `GPADC_AUTO_SELECT`. -/
def gpadc_select_names : List String :=
  ["PALMAS_GPADC_SW_SELECT_SW_CONV0_SEL_MASK", "PALMAS_GPADC_RT_SELECT_RT_CONV0_SEL_MASK",
   "PALMAS_GPADC_AUTO_SELECT_AUTO_CONV0_SEL_MASK",
   "PALMAS_GPADC_AUTO_SELECT_AUTO_CONV1_SEL_MASK"]

/-- The four channel-select fields, as the bit definitions of the GPADC
function give them (in source order). -/
def gpadc_select_fields : List bitfield :=
  (gpadc_bits.flatMap register_bits.fields).filter
    (fun f => decide (f.name ∈ gpadc_select_names))

/-- Writing the value `c` into the field `f` of a register:
`(c << SHIFT) & MASK`, in unsigned 32-bit arithmetic. -/
def field_write (f : bitfield) (c : Nat) : Nat :=
  ((c <<< f.shift) % 4294967296) &&& f.mask

/-- Reading the field `f` from the register value `v`: `(v & MASK) >>
SHIFT`. -/
def field_read (f : bitfield) (v : Nat) : Nat := (v &&& f.mask) >>> f.shift

/-! # Theorems -/

/-! ## Machine-integer helpers -/

theorem base_to_slave_eq (base : Nat) (hb : base < 4294967296) :
    PALMAS_BASE_TO_SLAVE base = ((base >>> 8 : Nat) : Int) - 1 := by
  have h8 : base >>> 8 < 16777216 := by
    rw [Nat.shiftRight_eq_div_pow]
    omega
  unfold PALMAS_BASE_TO_SLAVE to_int
  generalize base >>> 8 = q at h8
  omega

/-! ## Register-access helpers -/

/-- C1: each of the five helpers makes exactly one call, of its own regmap
operation, on `p.regmap[slave]` with `slave = (base >> 8) - 1` and
`address = (base & 0xff) + reg` modulo `2^32`, passes the remaining
arguments through unchanged and returns what the call returned, whatever the
regmap layer `h` answers. -/
theorem palmas_helpers_delegate (p : palmas) (base reg : Nat)
    (hb : base < 4294967296) (hr : reg < 4294967296)
    (h : regmap_call → Int) (val value val_count mask : Nat) :
    PALMAS_BASE_TO_SLAVE base = ((base >>> 8 : Nat) : Int) - 1 ∧
    PALMAS_BASE_TO_REG base reg = ((base &&& 0xff) + reg) % 2 ^ 32 ∧
    (palmas_read p base reg val).run h =
      (h (.regmap_read (p.regmap (PALMAS_BASE_TO_SLAVE base)) (PALMAS_BASE_TO_REG base reg) val),
       [.regmap_read (p.regmap (PALMAS_BASE_TO_SLAVE base)) (PALMAS_BASE_TO_REG base reg) val]) ∧
    (palmas_write p base reg value).run h =
      (h (.regmap_write (p.regmap (PALMAS_BASE_TO_SLAVE base)) (PALMAS_BASE_TO_REG base reg) value),
       [.regmap_write (p.regmap (PALMAS_BASE_TO_SLAVE base)) (PALMAS_BASE_TO_REG base reg) value]) ∧
    (palmas_bulk_read p base reg val val_count).run h =
      (h (.regmap_bulk_read (p.regmap (PALMAS_BASE_TO_SLAVE base)) (PALMAS_BASE_TO_REG base reg)
            val val_count),
       [.regmap_bulk_read (p.regmap (PALMAS_BASE_TO_SLAVE base)) (PALMAS_BASE_TO_REG base reg)
            val val_count]) ∧
    (palmas_bulk_write p base reg val val_count).run h =
      (h (.regmap_bulk_write (p.regmap (PALMAS_BASE_TO_SLAVE base)) (PALMAS_BASE_TO_REG base reg)
            val val_count),
       [.regmap_bulk_write (p.regmap (PALMAS_BASE_TO_SLAVE base)) (PALMAS_BASE_TO_REG base reg)
            val val_count]) ∧
    (palmas_update_bits p base reg mask val).run h =
      (h (.regmap_update_bits (p.regmap (PALMAS_BASE_TO_SLAVE base)) (PALMAS_BASE_TO_REG base reg)
            mask val),
       [.regmap_update_bits (p.regmap (PALMAS_BASE_TO_SLAVE base)) (PALMAS_BASE_TO_REG base reg)
            mask val]) := by
  have _ := hr
  refine ⟨base_to_slave_eq base hb, rfl, rfl, rfl, rfl, rfl, rfl⟩

/-- Witness of C1: `palmas_read` and its siblings at the fuel-gauge base
`0x230` and register `0x05`. -/
theorem palmas_helpers_delegate_witness :
    PALMAS_FUEL_GAUGE_BASE < 4294967296 ∧ (5 : Nat) < 4294967296 ∧
    (palmas_read ⟨0, fun _ => 0, fun i => (i + 7).toNat, 0, 0, 0, 0, 0, 0, 0, 0, 0, 0, 0, 0, 0, 0, 0⟩
        PALMAS_FUEL_GAUGE_BASE 5 64).run (fun _ => -5) =
      (-5, [.regmap_read 8 0x35 64]) := by
  refine ⟨by decide, by decide, ?_⟩
  have h := (palmas_helpers_delegate
    ⟨0, fun _ => 0, fun i => (i + 7).toNat, 0, 0, 0, 0, 0, 0, 0, 0, 0, 0, 0, 0, 0, 0, 0⟩
    PALMAS_FUEL_GAUGE_BASE 5 (by decide) (by decide) (fun _ => -5) 64 0 0 0).2.2.1
  rw [h]
  decide

/-! ## ES version comparison -/

/-- C2: `palmas_is_es_version_or_less(p, major, minor)` returns 1 exactly
when `(es_major_version, es_minor_version)` is lexicographically at most
`(major, minor)`, and 0 otherwise. -/
theorem palmas_is_es_version_or_less_lex (p : palmas) (major minor : Int) :
    (palmas_is_es_version_or_less p major minor = 1 ↔
      (p.es_major_version < major ∨
        (p.es_major_version = major ∧ p.es_minor_version ≤ minor))) ∧
    palmas_is_es_version_or_less p major minor =
      (if p.es_major_version < major ∨
          (p.es_major_version = major ∧ p.es_minor_version ≤ minor) then 1 else 0) := by
  unfold palmas_is_es_version_or_less
  by_cases h1 : p.es_major_version < major
  · simp [h1]
  · by_cases h2 : p.es_major_version = major ∧ p.es_minor_version ≤ minor
    · simp [h1, h2]
    · simp [h1, h2]

/-! ## Slave numbers of the IP-block bases -/

/-- C3, as stated, fails: `PALMAS_SMPS_DVS_BASE = 0x20` is one of the 21 base
constants and its slave number is `-1`, not an index of `regmap`. -/
theorem smps_dvs_base_slave_out_of_bounds :
    PALMAS_SMPS_DVS_BASE ∈ ip_block_bases ∧ ip_block_bases.length = 21 ∧
    PALMAS_BASE_TO_SLAVE PALMAS_SMPS_DVS_BASE = -1 ∧
    ¬ (0 ≤ PALMAS_BASE_TO_SLAVE PALMAS_SMPS_DVS_BASE ∧
        PALMAS_BASE_TO_SLAVE PALMAS_SMPS_DVS_BASE < PALMAS_NUM_CLIENTS) := by
  decide

/-- C3, amended: every base constant of the header other than
`PALMAS_SMPS_DVS_BASE` has a slave number that is an index of `regmap`,
`0 ≤ slave < PALMAS_NUM_CLIENTS`. -/
theorem ip_block_base_slave_in_bounds (base : Nat) (hmem : base ∈ ip_block_bases)
    (hne : base ≠ PALMAS_SMPS_DVS_BASE) :
    0 ≤ PALMAS_BASE_TO_SLAVE base ∧ PALMAS_BASE_TO_SLAVE base < PALMAS_NUM_CLIENTS := by
  simp only [ip_block_bases, List.mem_cons, List.mem_singleton, List.not_mem_nil,
    or_false] at hmem
  rcases hmem with h | h | h | h | h | h | h | h | h | h | h | h | h | h | h | h | h | h | h |
    h | h
  · exact absurd h hne
  all_goals (subst h; decide)

/-- Witness of the amended C3 at `PALMAS_CHARGER_BASE = 0x400`, the base with
the largest slave number. -/
theorem ip_block_base_slave_in_bounds_witness :
    PALMAS_CHARGER_BASE ∈ ip_block_bases ∧ PALMAS_CHARGER_BASE ≠ PALMAS_SMPS_DVS_BASE ∧
    0 ≤ PALMAS_BASE_TO_SLAVE PALMAS_CHARGER_BASE ∧
    PALMAS_BASE_TO_SLAVE PALMAS_CHARGER_BASE < PALMAS_NUM_CLIENTS :=
  ⟨by decide, by decide, ip_block_base_slave_in_bounds PALMAS_CHARGER_BASE (by decide) (by decide)⟩

/-! ## Regulator identifiers -/

/-- C10: every regulator of `enum palmas_regulators` has an id below
`PALMAS_NUM_REGS`, distinct regulators have distinct ids, `PALMAS_NUM_REGS`
is 35 and is the number of regulators listed, and every slot of an array of
`PALMAS_NUM_REGS` elements is the slot of a regulator: one in-bounds slot per
regulator id. -/
theorem palmas_regulators_ids_index_arrays :
    (∀ r : palmas_regulators, r.id < PALMAS_NUM_REGS) ∧
    Function.Injective palmas_regulators.id ∧
    PALMAS_NUM_REGS = 35 ∧
    PALMAS_NUM_REGS = palmas_regulators.listed.length ∧
    palmas_regulators.listed.Nodup ∧
    (∀ r : palmas_regulators, r ∈ palmas_regulators.listed) ∧
    (∀ i : Fin PALMAS_NUM_REGS, ∃ r : palmas_regulators, r.id = i.val) := by
  have hall : ∀ r : palmas_regulators, r ∈ palmas_regulators.listed := by
    intro r; cases r <;> decide
  refine ⟨?_, ?_, rfl, rfl, by decide, hall, ?_⟩
  · intro r; cases r <;> decide
  · intro a b hab
    have ha := hall a
    have hb := hall b
    unfold palmas_regulators.id at hab
    exact (List.indexOf_inj ha hb).mp hab
  · intro i
    have hi : i.val < palmas_regulators.listed.length := i.isLt
    refine ⟨palmas_regulators.listed.get ⟨i.val, hi⟩, ?_⟩
    unfold palmas_regulators.id
    exact List.get_indexOf (by decide) ⟨i.val, hi⟩

/-! ## Fuel-gauge estimator: helper lemmas -/

theorem clamp_bounds (x lo hi : Int) (h : lo ≤ hi) : lo ≤ clamp x lo hi ∧ clamp x lo hi ≤ hi := by
  unfold clamp
  split_ifs <;> omega

theorem to_short_of_range (x : Int) (h1 : -32768 ≤ x) (h2 : x ≤ 32767) : to_short x = x := by
  unfold to_short
  omega

theorem recompute_soc_soc (s : cell_state) :
    0 ≤ (recompute_soc s).soc ∧ (recompute_soc s).soc ≤ MAX_SOC := by
  unfold recompute_soc
  exact clamp_bounds _ 0 MAX_SOC (by decide)

theorem update_soc_range (r : sample_range) (s : cell_state) (x : RawSample) (dt : Nat)
    (h : 0 ≤ s.soc ∧ s.soc ≤ MAX_SOC) :
    0 ≤ (update r s x dt).2.soc ∧ (update r s x dt).2.soc ≤ MAX_SOC := by
  unfold update
  split_ifs
  · split
    · exact h
    · exact recompute_soc_soc _
  · exact h

theorem run_updates_soc_range (r : sample_range) (samples : List (RawSample × Nat)) :
    ∀ s : cell_state, (0 ≤ s.soc ∧ s.soc ≤ MAX_SOC) →
      0 ≤ (run_updates r s samples).soc ∧ (run_updates r s samples).soc ≤ MAX_SOC := by
  induction samples with
  | nil => intro s h; exact h
  | cons p rest ih =>
    intro s h
    obtain ⟨x, dt⟩ := p
    exact ih _ (update_soc_range r s x dt h)

theorem initialize_cell_ok (cfg : cell_config) (s : cell_state)
    (h : initialize_cell cfg = .ok s) :
    cfg.valid = true ∧
    s = { cell_state.fresh with
          nac := to_short cfg.design_capacity
          fcc := to_short cfg.design_capacity
          qmax := to_short cfg.design_qmax
          relax := true
          config := some cfg } := by
  unfold initialize_cell at h
  split_ifs at h with hv
  · refine ⟨hv, ?_⟩
    injection h with h
    rw [← h]
    rfl

/-! ## Fuel-gauge estimator: state of charge -/

/-- C4: for every valid configuration (one that `initialize` accepts) and
every finite sequence of samples, the state after `initialize` and after each
`update` of the run has `0 ≤ soc ≤ MAX_SOC`; the empty sequence is the state
right after `initialize`, and every prefix of a run is a run. -/
theorem soc_within_bounds (r : sample_range) (cfg : cell_config) (s0 : cell_state)
    (samples : List (RawSample × Nat)) (hinit : initialize_cell cfg = .ok s0) :
    0 ≤ (run_updates r s0 samples).soc ∧ (run_updates r s0 samples).soc ≤ MAX_SOC := by
  apply run_updates_soc_range
  rw [(initialize_cell_ok cfg s0 hinit).2]
  show (0 : Int) ≤ 0 ∧ (0 : Int) ≤ MAX_SOC
  decide

/-! ## Fuel-gauge estimator: initialisation and rejected samples -/

theorem example_state_init : initialize_cell example_config = .ok example_state := by
  rfl

/-- Witness of C4: the scenario of §8, one hour of discharge at 200 mA from the
example state. -/
theorem soc_within_bounds_witness :
    initialize_cell example_config = .ok example_state ∧
    0 ≤ (run_updates example_range example_state [(⟨3900, -200, 250⟩, 3600)]).soc ∧
    (run_updates example_range example_state [(⟨3900, -200, 250⟩, 3600)]).soc ≤ MAX_SOC :=
  ⟨example_state_init,
    soc_within_bounds example_range example_config example_state [(⟨3900, -200, 250⟩, 3600)]
      example_state_init⟩

/-- C6, as stated, fails: `design_capacity = 40000` is a value of `unsigned
short` and the configuration is valid, but `nac` and `fcc` are `short`, and
`initialize` leaves `-25536` in both. -/
theorem initialize_wraps_large_design_capacity :
    large_config.valid = true ∧ large_config.capacities_typed ∧
    large_config.design_capacity = 40000 ∧
    (∃ s, initialize_cell large_config = .ok s ∧
      s.nac = -25536 ∧ s.fcc = -25536 ∧
      s.nac ≠ (large_config.design_capacity : Int) ∧
      s.fcc ≠ (large_config.design_capacity : Int)) := by
  refine ⟨by decide, by decide, rfl, _, rfl, by decide, by decide, by decide, by decide⟩

/-- C6, amended: for every valid configuration whose `design_capacity` is at
most `MAX_CAPACITY = 0x7fff` (and whose two design capacities are values of
their C types), `initialize` returns a state with `nac = fcc =
design_capacity`, `qmax = design_qmax`, cycle count 0 and the latches `edv0`,
`edv1`, `edv2`, `full` cleared. -/
theorem initialize_sets_capacities (cfg : cell_config) (hvalid : cfg.valid = true)
    (htyped : cfg.capacities_typed) (hcap : (cfg.design_capacity : Int) ≤ MAX_CAPACITY) :
    ∃ s, initialize_cell cfg = .ok s ∧
      s.nac = cfg.design_capacity ∧ s.fcc = cfg.design_capacity ∧ s.qmax = cfg.design_qmax ∧
      s.cycle_count = 0 ∧ s.edv0 = false ∧ s.edv1 = false ∧ s.edv2 = false ∧ s.full = false := by
  have h1 : to_short (cfg.design_capacity : Int) = cfg.design_capacity := by
    unfold MAX_CAPACITY at hcap
    exact to_short_of_range _ (by omega) (by omega)
  have h2 : to_short cfg.design_qmax = cfg.design_qmax :=
    to_short_of_range _ htyped.2.1 htyped.2.2
  unfold initialize_cell
  rw [if_pos hvalid]
  exact ⟨_, rfl, h1, h1, h2, rfl, rfl, rfl, rfl, rfl⟩

/-- Witness of the amended C6 at the example configuration (2000 mAh). -/
theorem initialize_sets_capacities_witness :
    example_config.valid = true ∧ example_config.capacities_typed ∧
    ((example_config.design_capacity : Int) ≤ MAX_CAPACITY) ∧
    ∃ s, initialize_cell example_config = .ok s ∧
      s.nac = example_config.design_capacity ∧ s.fcc = example_config.design_capacity ∧
      s.qmax = example_config.design_qmax ∧
      s.cycle_count = 0 ∧ s.edv0 = false ∧ s.edv1 = false ∧ s.edv2 = false ∧ s.full = false :=
  ⟨by decide, by decide, by decide,
    initialize_sets_capacities example_config (by decide) (by decide) (by decide)⟩

/-- C7: for every state and every sample out of the plausible range, `update`
returns `InvalidSample` and the state after the call is the state before it,
field for field; a sample of `-5` mV is out of every plausible range; and in
general `update` either succeeds with the complete new state of the seven
steps or fails with the state untouched. -/
theorem update_rejects_bad_sample_atomically (r : sample_range) (s : cell_state)
    (x : RawSample) (dt : Nat) (hbad : sample_in_range r x = false) :
    update r s x dt = (.error .InvalidSample, s) ∧
    (∀ (r1 : sample_range) (c t : Int), sample_in_range r1 ⟨-5, c, t⟩ = false) ∧
    (∀ (s1 : cell_state) (x1 : RawSample) (dt1 : Nat),
      (∃ cfg, s1.config = some cfg ∧ update r s1 x1 dt1 = (.ok (), update_steps cfg s1 x1 dt1)) ∨
      (∃ e, update r s1 x1 dt1 = (.error e, s1))) := by
  refine ⟨?_, ?_, ?_⟩
  · unfold update
    simp [hbad]
  · intro r1 c t
    unfold sample_in_range
    simp
  · intro s1 x1 dt1
    unfold update
    by_cases hp : sample_in_range r x1 = true
    · cases hc : s1.config with
      | none => right; exact ⟨.Uninitialized, by simp [hp]⟩
      | some cfg => left; exact ⟨cfg, rfl, by simp [hp]⟩
    · right; exact ⟨.InvalidSample, by simp [hp]⟩

/-- Witness of C7: the scenario of §8, a sample with `voltage_mV = -5`. -/
theorem update_rejects_bad_sample_atomically_witness :
    sample_in_range example_range ⟨-5, -200, 250⟩ = false ∧
    update example_range example_state ⟨-5, -200, 250⟩ 3600 =
      (.error .InvalidSample, example_state) :=
  ⟨by decide,
    (update_rejects_bad_sample_atomically example_range example_state ⟨-5, -200, 250⟩ 3600
      (by decide)).1⟩

/-! ## Fuel-gauge estimator: what each step leaves alone -/

theorem recompute_soc_fields (s : cell_state) :
    (recompute_soc s).edv1 = s.edv1 ∧ (recompute_soc s).chg = s.chg ∧
    (recompute_soc s).nac = s.nac ∧ (recompute_soc s).fcc = s.fcc ∧
    (recompute_soc s).qmax = s.qmax ∧ (recompute_soc s).cycle_count = s.cycle_count :=
  ⟨rfl, rfl, rfl, rfl, rfl, rfl⟩

theorem cycle_learning_fields (cfg : cell_config) (s : cell_state) :
    (cycle_learning cfg s).edv1 = s.edv1 ∧ (cycle_learning cfg s).chg = s.chg ∧
    (cycle_learning cfg s).nac = s.nac := by
  unfold cycle_learning
  dsimp only
  split_ifs <;> exact ⟨rfl, rfl, rfl⟩

theorem edv_capture_fields (pt : edv_point) (b : Bool) (x : RawSample) (s : cell_state) :
    (edv_capture pt b x s).chg = s.chg ∧ (edv_capture pt b x s).nac = s.nac ∧
    (edv_capture pt b x s).fcc = s.fcc ∧ (edv_capture pt b x s).qmax = s.qmax ∧
    (edv_capture pt b x s).cycle_count = s.cycle_count ∧
    (edv_capture pt b x s).discharge_cycle_q = s.discharge_cycle_q ∧
    (edv_capture pt b x s).learn_q = s.learn_q := by
  unfold edv_capture
  split_ifs <;> exact ⟨rfl, rfl, rfl, rfl, rfl, rfl, rfl⟩

theorem edv_track_fields (cfg : cell_config) (x : RawSample) (s : cell_state) :
    (edv_track cfg x s).chg = s.chg ∧ (edv_track cfg x s).nac = s.nac ∧
    (edv_track cfg x s).fcc = s.fcc ∧ (edv_track cfg x s).qmax = s.qmax ∧
    (edv_track cfg x s).cycle_count = s.cycle_count ∧
    (edv_track cfg x s).discharge_cycle_q = s.discharge_cycle_q := by
  unfold edv_track
  split_ifs
  · exact ⟨rfl, rfl, rfl, rfl, rfl, rfl⟩
  · cases cfg.edv with
    | none => exact ⟨rfl, rfl, rfl, rfl, rfl, rfl⟩
    | some e =>
      simp only
      have h0 := edv_capture_fields (e.edv 0) s.edv0 x
        (edv_capture (e.edv 1) s.edv1 x (edv_capture (e.edv 2) s.edv2 x s))
      have h1 := edv_capture_fields (e.edv 1) s.edv1 x (edv_capture (e.edv 2) s.edv2 x s)
      have h2 := edv_capture_fields (e.edv 2) s.edv2 x s
      refine ⟨?_, ?_, ?_, ?_, ?_, ?_⟩
      · exact h0.1.trans (h1.1.trans h2.1)
      · exact h0.2.1.trans (h1.2.1.trans h2.2.1)
      · exact h0.2.2.1.trans (h1.2.2.1.trans h2.2.2.1)
      · exact h0.2.2.2.1.trans (h1.2.2.2.1.trans h2.2.2.2.1)
      · exact h0.2.2.2.2.1.trans (h1.2.2.2.2.1.trans h2.2.2.2.2.1)
      · exact h0.2.2.2.2.2.1.trans (h1.2.2.2.2.2.1.trans h2.2.2.2.2.2.1)
  · exact ⟨rfl, rfl, rfl, rfl, rfl, rfl⟩

theorem edv_track_keeps_edv1 (cfg : cell_config) (x : RawSample) (s : cell_state)
    (h1 : s.edv1 = true) (hclr : (edv_track cfg x s).edv1 = false) :
    s.chg = true ∧ near_full_reached cfg s = true := by
  unfold edv_track at hclr
  split_ifs at hclr with ha hb
  · exact ha
  · cases hc : cfg.edv with
    | none => rw [hc] at hclr; simp only at hclr; rw [h1] at hclr; cases hclr
    | some e => rw [hc] at hclr; simp only at hclr; rw [h1] at hclr; simp at hclr
  · rw [h1] at hclr; cases hclr

theorem classify_mode_edv1 (cfg : cell_config) (x : RawSample) (s : cell_state) :
    (classify_mode cfg x s).edv1 = s.edv1 := by
  unfold classify_mode commit_mode
  dsimp only
  split_ifs <;> rfl

theorem integrate_edv1 (x : RawSample) (dt : Nat) (s : cell_state) :
    (integrate x dt s).edv1 = s.edv1 := by
  unfold integrate
  dsimp only
  split_ifs <;> rfl

theorem track_rest_edv1 (o : ocv_config) (prev : cell_state) (x : RawSample) (dt : Nat)
    (s : cell_state) : (track_rest o prev x dt s).edv1 = s.edv1 := by
  unfold track_rest
  split_ifs <;> rfl

theorem ocv_correct_edv1 (o : ocv_config) (x : RawSample) (s : cell_state) :
    (ocv_correct o x s).edv1 = s.edv1 := by
  unfold ocv_correct ocv_blend
  dsimp only
  split_ifs <;> rfl

theorem update_integrate_edv1 (cfg : cell_config) (s : cell_state) (x : RawSample)
    (dt : Nat) : (update_integrate cfg s x dt).edv1 = s.edv1 := by
  unfold update_integrate
  dsimp only
  cases cfg.ocv with
  | none =>
    dsimp only
    rw [integrate_edv1, classify_mode_edv1]
    rfl
  | some o =>
    dsimp only
    rw [track_rest_edv1, integrate_edv1, classify_mode_edv1]
    rfl

theorem update_steps_clears_edv1 (cfg : cell_config) (s : cell_state) (x : RawSample)
    (dt : Nat) (h1 : s.edv1 = true) (hclr : (update_steps cfg s x dt).edv1 = false) :
    (update_steps cfg s x dt).chg = true ∧
      near_full_reached cfg (update_steps cfg s x dt) = true := by
  unfold update_steps at hclr ⊢
  dsimp only at hclr ⊢
  generalize hs4 : (match cfg.ocv with
    | none => update_integrate cfg s x dt
    | some o => ocv_correct o x (update_integrate cfg s x dt)) = s4 at hclr ⊢
  have h4 : s4.edv1 = true := by
    rw [← hs4, ← h1]
    cases cfg.ocv with
    | none => exact update_integrate_edv1 cfg s x dt
    | some o =>
      dsimp only
      rw [ocv_correct_edv1]
      exact update_integrate_edv1 cfg s x dt
  rw [(recompute_soc_fields _).1, (cycle_learning_fields cfg _).1] at hclr
  have hev := edv_track_keeps_edv1 cfg x s4 h4 hclr
  have hf := edv_track_fields cfg x s4
  constructor
  · rw [(recompute_soc_fields _).2.1, (cycle_learning_fields cfg _).2.1, hf.1]
    exact hev.1
  · unfold near_full_reached at hev ⊢
    rw [(recompute_soc_fields _).2.2.1, (cycle_learning_fields cfg _).2.2, hf.2.1]
    exact hev.2

theorem update_keeps_edv1 (r : sample_range) (s : cell_state) (x : RawSample) (dt : Nat)
    (h1 : s.edv1 = true) (hno : charge_near_full_event r s x dt = false) :
    (update r s x dt).2.edv1 = true := by
  by_contra hne
  have hclr : (update r s x dt).2.edv1 = false := by
    cases h : (update r s x dt).2.edv1 with
    | true => exact absurd h hne
    | false => rfl
  unfold charge_near_full_event at hno
  by_cases hp : sample_in_range r x = true
  · cases hc : s.config with
    | none =>
      have : (update r s x dt).2 = s := by unfold update; simp [hp, hc]
      rw [this, h1] at hclr
      cases hclr
    | some cfg =>
      have hu : (update r s x dt).2 = update_steps cfg s x dt := by
        unfold update; simp [hp, hc]
      rw [hu] at hclr
      have hev := update_steps_clears_edv1 cfg s x dt h1 hclr
      rw [hp, hc] at hno
      simp only [Bool.true_and] at hno
      rw [hu, hev.1, hev.2] at hno
      cases hno
  · have : (update r s x dt).2 = s := by unfold update; simp [hp]
    rw [this, h1] at hclr
    cases hclr

/-! ## Fuel-gauge estimator: EDV latching -/

/-- C8: in every run that starts with `edv1` set and contains no
charge-to-near-full event (an accepted update that leaves `chg` true with
`near_full` reached), `edv1` is still set at the end, whatever the voltages
of the samples are. -/
theorem edv1_latched_until_charge_near_full (r : sample_range)
    (samples : List (RawSample × Nat)) (s : cell_state) (h1 : s.edv1 = true)
    (hno : no_charge_near_full_event r s samples = true) :
    (run_updates r s samples).edv1 = true := by
  induction samples generalizing s with
  | nil => exact h1
  | cons p rest ih =>
    obtain ⟨x, dt⟩ := p
    unfold no_charge_near_full_event at hno
    simp only [Bool.and_eq_true, Bool.not_eq_true'] at hno
    exact ih _ (update_keeps_edv1 r s x dt h1 hno.1) hno.2

/-- Witness of C8: from a discharging state with `edv1` latched, the voltage
sags below the EDV points, recovers above them, and the cell is then charged
without reaching near-full; `edv1` stays set. -/
theorem edv1_latched_until_charge_near_full_witness :
    latched_state.edv1 = true ∧
    no_charge_near_full_event example_range latched_state
      [(⟨3150, -200, 250⟩, 60), (⟨3600, -200, 250⟩, 60), (⟨3700, 300, 250⟩, 60),
       (⟨3700, 300, 250⟩, 60)] = true ∧
    (run_updates example_range latched_state
      [(⟨3150, -200, 250⟩, 60), (⟨3600, -200, 250⟩, 60), (⟨3700, 300, 250⟩, 60),
       (⟨3700, 300, 250⟩, 60)]).edv1 = true :=
  ⟨by decide, by decide,
    edv1_latched_until_charge_near_full example_range _ latched_state (by decide) (by decide)⟩

/-! ## Fuel-gauge estimator: coulomb counting -/

theorem tdiv_3600_nonneg (a : Int) (h : 0 ≤ a) :
    3600 * a.tdiv 3600 ≤ a ∧ a ≤ 3600 * a.tdiv 3600 + 3599 := by
  rw [Int.tdiv_eq_ediv h (by decide)]
  omega

theorem tdiv_3600_nonpos (a : Int) (h : a ≤ 0) :
    a ≤ 3600 * a.tdiv 3600 ∧ 3600 * a.tdiv 3600 ≤ a + 3599 := by
  have h1 : a.tdiv 3600 = -((-a).tdiv 3600) := by
    rw [Int.neg_tdiv, neg_neg]
  rw [h1, Int.tdiv_eq_ediv (by omega) (by decide)]
  omega

theorem filter_sample_caps (cfg : cell_config) (x : RawSample) (dt : Nat) (s : cell_state) :
    (filter_sample cfg x dt s).nac = s.nac ∧ (filter_sample cfg x dt s).fcc = s.fcc ∧
    (filter_sample cfg x dt s).qmax = s.qmax ∧
    (filter_sample cfg x dt s).cycle_count = s.cycle_count :=
  ⟨rfl, rfl, rfl, rfl⟩

theorem classify_mode_caps (cfg : cell_config) (x : RawSample) (s : cell_state) :
    (classify_mode cfg x s).nac = s.nac ∧ (classify_mode cfg x s).fcc = s.fcc ∧
    (classify_mode cfg x s).qmax = s.qmax ∧
    (classify_mode cfg x s).cycle_count = s.cycle_count := by
  unfold classify_mode commit_mode
  dsimp only
  split_ifs <;> exact ⟨rfl, rfl, rfl, rfl⟩

theorem integrate_caps (x : RawSample) (dt : Nat) (s : cell_state) :
    (integrate x dt s).nac = to_short (clamp (s.nac + charge_step x dt) 0 s.fcc) ∧
    (integrate x dt s).fcc = s.fcc ∧ (integrate x dt s).qmax = s.qmax ∧
    (integrate x dt s).cycle_count = s.cycle_count := by
  unfold integrate
  dsimp only
  split_ifs <;> exact ⟨rfl, rfl, rfl, rfl⟩

theorem track_rest_caps (o : ocv_config) (prev : cell_state) (x : RawSample) (dt : Nat)
    (s : cell_state) :
    (track_rest o prev x dt s).nac = s.nac ∧ (track_rest o prev x dt s).fcc = s.fcc ∧
    (track_rest o prev x dt s).qmax = s.qmax ∧
    (track_rest o prev x dt s).cycle_count = s.cycle_count := by
  unfold track_rest
  split_ifs <;> exact ⟨rfl, rfl, rfl, rfl⟩

theorem update_integrate_caps (cfg : cell_config) (s : cell_state) (x : RawSample)
    (dt : Nat) :
    (update_integrate cfg s x dt).nac = to_short (clamp (s.nac + charge_step x dt) 0 s.fcc) ∧
    (update_integrate cfg s x dt).fcc = s.fcc ∧ (update_integrate cfg s x dt).qmax = s.qmax ∧
    (update_integrate cfg s x dt).cycle_count = s.cycle_count := by
  have hi := integrate_caps x dt (classify_mode cfg x (filter_sample cfg x dt s))
  have hc := classify_mode_caps cfg x (filter_sample cfg x dt s)
  have hf := filter_sample_caps cfg x dt s
  rw [hc.1, hc.2.1, hc.2.2.1, hc.2.2.2, hf.1, hf.2.1, hf.2.2.1, hf.2.2.2] at hi
  unfold update_integrate
  dsimp only
  cases cfg.ocv with
  | none => exact hi
  | some o =>
    dsimp only
    have ht := track_rest_caps o s x dt
      (integrate x dt (classify_mode cfg x (filter_sample cfg x dt s)))
    rw [ht.1, ht.2.1, ht.2.2.1, ht.2.2.2]
    exact hi

theorem ocv_correct_caps (o : ocv_config) (x : RawSample) (s : cell_state) :
    (ocv_correct o x s).fcc = s.fcc ∧ (ocv_correct o x s).qmax = s.qmax ∧
    (ocv_correct o x s).cycle_count = s.cycle_count ∧
    (ocv_due o s = false → (ocv_correct o x s).nac = s.nac) := by
  unfold ocv_correct
  by_cases h : ocv_due o s = true
  · rw [if_pos h]
    exact ⟨rfl, rfl, rfl, fun h2 => by rw [h] at h2; cases h2⟩
  · rw [if_neg h]
    exact ⟨rfl, rfl, rfl, fun _ => rfl⟩

theorem update_steps_nac (cfg : cell_config) (s : cell_state) (x : RawSample) (dt : Nat)
    (hocv : ocv_correction_applies cfg s x dt = false) :
    (update_steps cfg s x dt).nac = to_short (clamp (s.nac + charge_step x dt) 0 s.fcc) := by
  unfold update_steps
  dsimp only
  rw [(recompute_soc_fields _).2.2.1, (cycle_learning_fields cfg _).2.2,
    (edv_track_fields cfg x _).2.1]
  unfold ocv_correction_applies at hocv
  cases ho : cfg.ocv with
  | none => exact (update_integrate_caps cfg s x dt).1
  | some o =>
    rw [ho] at hocv
    dsimp only at hocv ⊢
    rw [(ocv_correct_caps o x _).2.2.2 hocv]
    exact (update_integrate_caps cfg s x dt).1

theorem to_short_le (x : Int) : -32768 ≤ to_short x ∧ to_short x ≤ 32767 := by
  unfold to_short
  omega

theorem cycle_learning_caps (cfg : cell_config) (s : cell_state) :
    (s.fcc ≤ 32767 → (cycle_learning cfg s).fcc ≤ 32767) ∧
    ((cycle_learning cfg s).cycle_count ≤ NO_LEARNING_CYCLES →
      (cycle_learning cfg s).fcc = s.fcc ∧ (cycle_learning cfg s).qmax = s.qmax) := by
  unfold cycle_learning
  dsimp only
  split_ifs with h1 h2
  · exact ⟨fun _ => (to_short_le _).2, fun h => absurd h (not_le.mpr h2)⟩
  · exact ⟨fun h => h, fun _ => ⟨rfl, rfl⟩⟩
  · exact ⟨fun h => h, fun _ => ⟨rfl, rfl⟩⟩

theorem update_steps_fcc_le (cfg : cell_config) (s : cell_state) (x : RawSample) (dt : Nat)
    (h : s.fcc ≤ 32767) : (update_steps cfg s x dt).fcc ≤ 32767 := by
  unfold update_steps
  dsimp only
  rw [(recompute_soc_fields _).2.2.2.1]
  apply (cycle_learning_caps cfg _).1
  rw [(edv_track_fields cfg x _).2.2.1]
  cases cfg.ocv with
  | none => dsimp only; rw [(update_integrate_caps cfg s x dt).2.1]; exact h
  | some o =>
    dsimp only
    rw [(ocv_correct_caps o x _).1, (update_integrate_caps cfg s x dt).2.1]
    exact h

theorem update_coulomb_only (r : sample_range) (s : cell_state) (x : RawSample) (dt : Nat)
    (hfcc : s.fcc ≤ 32767) (hstep : coulomb_only_step r s x dt = true) :
    (update r s x dt).2.nac = s.nac + charge_step x dt ∧ (update r s x dt).2.fcc ≤ 32767 := by
  unfold coulomb_only_step at hstep
  cases hc : s.config with
  | none => rw [hc] at hstep; simp at hstep
  | some cfg =>
    rw [hc] at hstep
    simp only [Bool.and_eq_true, Bool.not_eq_true', decide_eq_true_eq] at hstep
    obtain ⟨hp, hocv, hlo, hhi⟩ := hstep
    have hu : (update r s x dt).2 = update_steps cfg s x dt := by
      unfold update; simp [hp, hc]
    rw [hu]
    refine ⟨?_, update_steps_fcc_le cfg s x dt hfcc⟩
    rw [update_steps_nac cfg s x dt hocv]
    have hcl : clamp (s.nac + charge_step x dt) 0 s.fcc = s.nac + charge_step x dt := by
      unfold clamp
      rw [if_neg (by omega), if_neg (by omega)]
    rw [hcl]
    exact to_short_of_range _ (by omega) (by omega)

theorem run_coulomb_only (r : sample_range) (l : List (RawSample × Nat)) :
    ∀ s : cell_state, s.fcc ≤ 32767 → coulomb_only_run r s l = true →
      (run_updates r s l).nac = s.nac + charge_counted l ∧ (run_updates r s l).fcc ≤ 32767 := by
  induction l with
  | nil => intro s h _; exact ⟨by simp [run_updates, charge_counted], h⟩
  | cons p rest ih =>
    intro s hfcc hrun
    obtain ⟨x, dt⟩ := p
    unfold coulomb_only_run at hrun
    rw [Bool.and_eq_true] at hrun
    have hstep := update_coulomb_only r s x dt hfcc hrun.1
    have hrest := ih _ hstep.2 hrun.2
    unfold run_updates charge_counted
    rw [hrest.1, hstep.1]
    exact ⟨by ring, hrest.2⟩

theorem run_updates_append (r : sample_range) (l1 l2 : List (RawSample × Nat)) :
    ∀ s : cell_state, run_updates r s (l1 ++ l2) = run_updates r (run_updates r s l1) l2 := by
  induction l1 with
  | nil => intro s; rfl
  | cons p rest ih => intro s; obtain ⟨x, dt⟩ := p; exact ih _

theorem charge_counted_append (l1 l2 : List (RawSample × Nat)) :
    charge_counted (l1 ++ l2) = charge_counted l1 + charge_counted l2 := by
  induction l1 with
  | nil => simp [charge_counted]
  | cons p rest ih =>
    obtain ⟨x, dt⟩ := p
    show charge_step x dt + charge_counted (rest ++ l2) = _
    rw [ih]
    show _ = charge_step x dt + charge_counted rest + charge_counted l2
    ring

theorem charge_counted_charging (l : List (RawSample × Nat))
    (h : ∀ p ∈ l, 0 ≤ p.1.current_mA) :
    3600 * charge_counted l ≤ charge_moved l ∧
    charge_moved l ≤ 3600 * charge_counted l + 3599 * l.length := by
  induction l with
  | nil => simp [charge_counted, charge_moved]
  | cons p rest ih =>
    obtain ⟨x, dt⟩ := p
    have hx : 0 ≤ x.current_mA := h (x, dt) (List.mem_cons_self _ _)
    have hrest := ih (fun q hq => h q (List.mem_cons_of_mem _ hq))
    have hb := tdiv_3600_nonneg (x.current_mA * dt) (Int.mul_nonneg hx (Int.ofNat_nonneg dt))
    show 3600 * (charge_step x dt + charge_counted rest) ≤
        x.current_mA * dt + charge_moved rest ∧
      x.current_mA * dt + charge_moved rest ≤
        3600 * (charge_step x dt + charge_counted rest) + 3599 * ((rest.length + 1 : Nat) : Int)
    unfold charge_step
    push_cast
    omega

theorem charge_counted_discharging (l : List (RawSample × Nat))
    (h : ∀ p ∈ l, p.1.current_mA ≤ 0) :
    charge_moved l ≤ 3600 * charge_counted l ∧
    3600 * charge_counted l ≤ charge_moved l + 3599 * l.length := by
  induction l with
  | nil => simp [charge_counted, charge_moved]
  | cons p rest ih =>
    obtain ⟨x, dt⟩ := p
    have hx : x.current_mA ≤ 0 := h (x, dt) (List.mem_cons_self _ _)
    have hrest := ih (fun q hq => h q (List.mem_cons_of_mem _ hq))
    have hb := tdiv_3600_nonpos (x.current_mA * dt)
      (Int.mul_nonpos_of_nonpos_of_nonneg hx (Int.ofNat_nonneg dt))
    show x.current_mA * dt + charge_moved rest ≤
        3600 * (charge_step x dt + charge_counted rest) ∧
      3600 * (charge_step x dt + charge_counted rest) ≤
        x.current_mA * dt + charge_moved rest + 3599 * ((rest.length + 1 : Nat) : Int)
    unfold charge_step
    push_cast
    omega

/-- C9: from every starting state (with `fcc` a `short`), a run of charging
updates that move exactly `N` mAh (`3600 * N` mA·s) followed by discharging
updates that move exactly `N` mAh, all accepted, without OCV correction and
without hitting the clamp to `[0, fcc]`, brings `nac` back to its starting
value up to the rounding of the integration steps: each charging update can
lose less than 1 mAh and each discharging update can keep less than 1 mAh, so
the difference is between minus the number of charging updates and the number
of discharging updates. -/
theorem coulomb_counting_round_trip (r : sample_range) (s : cell_state)
    (cs ds : List (RawSample × Nat)) (N : Int)
    (htyped : s.capacities_typed)
    (hcs : ∀ p ∈ cs, 0 ≤ p.1.current_mA) (hds : ∀ p ∈ ds, p.1.current_mA ≤ 0)
    (hcharge : charge_moved cs = 3600 * N) (hdischarge : charge_moved ds = -(3600 * N))
    (hrun : coulomb_only_run r s (cs ++ ds) = true) :
    -(cs.length : Int) ≤ (run_updates r s (cs ++ ds)).nac - s.nac ∧
    (run_updates r s (cs ++ ds)).nac - s.nac ≤ ds.length := by
  have hnac := (run_coulomb_only r (cs ++ ds) s htyped.2.1.2 hrun).1
  rw [charge_counted_append] at hnac
  have h1 := charge_counted_charging cs hcs
  have h2 := charge_counted_discharging ds hds
  omega

/-- Witness of C9: 1 mAh charged in two half-hour steps of 1 mA (each rounds
to 0 mAh) and 1 mAh discharged in one step. -/
theorem coulomb_counting_round_trip_witness :
    half_state.capacities_typed ∧
    coulomb_only_run example_range half_state
      ([(⟨3900, 1, 250⟩, 1800), (⟨3900, 1, 250⟩, 1800)] ++ [(⟨3900, -1, 250⟩, 3600)]) = true ∧
    (run_updates example_range half_state
      ([(⟨3900, 1, 250⟩, 1800), (⟨3900, 1, 250⟩, 1800)] ++ [(⟨3900, -1, 250⟩, 3600)])).nac
        - half_state.nac = -1 ∧
    -(([(⟨3900, 1, 250⟩, 1800), (⟨3900, 1, 250⟩, 1800)] : List (RawSample × Nat)).length : Int) ≤
      (run_updates example_range half_state
        ([(⟨3900, 1, 250⟩, 1800), (⟨3900, 1, 250⟩, 1800)] ++ [(⟨3900, -1, 250⟩, 3600)])).nac
        - half_state.nac :=
  ⟨by decide, by decide, by decide,
    (coulomb_counting_round_trip example_range half_state
      [(⟨3900, 1, 250⟩, 1800), (⟨3900, 1, 250⟩, 1800)] [(⟨3900, -1, 250⟩, 3600)] 1
      (by decide) (by decide) (by decide) (by decide) (by decide) (by decide)).1⟩

/-! ## Fuel-gauge estimator: capacity ordering -/

theorem tdiv_weight_between (d w P : Int) (hP : 0 < P) (hw0 : 0 ≤ w) (hwP : w ≤ P) :
    (0 ≤ d → 0 ≤ (d * w).tdiv P ∧ (d * w).tdiv P ≤ d) ∧
    (d ≤ 0 → d ≤ (d * w).tdiv P ∧ (d * w).tdiv P ≤ 0) := by
  have key : ∀ e : Int, 0 ≤ e → 0 ≤ (e * w) / P ∧ (e * w) / P ≤ e := by
    intro e he
    constructor
    · exact Int.ediv_nonneg (Int.mul_nonneg he hw0) (le_of_lt hP)
    · exact Int.ediv_le_of_le_mul hP (Int.mul_le_mul_of_nonneg_left hwP he)
  constructor
  · intro hd
    rw [Int.tdiv_eq_ediv (Int.mul_nonneg hd hw0) (le_of_lt hP)]
    exact key d hd
  · intro hd
    have h1 : (d * w).tdiv P = -((-d * w).tdiv P) := by
      rw [Int.neg_mul, Int.neg_tdiv, neg_neg]
    have hk := key (-d) (by omega)
    rw [h1, Int.tdiv_eq_ediv (Int.mul_nonneg (by omega) hw0) (le_of_lt hP)]
    omega

theorem ocv_lookup_range (table : Fin OCV_TABLE_SIZE → Nat) (v : Int) :
    0 ≤ ocv_lookup table v ∧ ocv_lookup table v ≤ MAX_PERCENTAGE := by
  unfold ocv_lookup
  split_ifs
  · exact ⟨le_refl 0, by decide⟩
  · exact clamp_bounds _ 0 MAX_PERCENTAGE (by decide)

theorem reference_capacity_range (p fcc : Int) (hp0 : 0 ≤ p) (hp : p ≤ MAX_PERCENTAGE)
    (hf : 0 ≤ fcc) :
    0 ≤ (p * fcc).tdiv MAX_PERCENTAGE ∧ (p * fcc).tdiv MAX_PERCENTAGE ≤ fcc := by
  rw [Int.tdiv_eq_ediv (Int.mul_nonneg hp0 hf) (by decide)]
  constructor
  · exact Int.ediv_nonneg (Int.mul_nonneg hp0 hf) (by decide)
  · apply Int.ediv_le_of_le_mul (by decide)
    rw [Int.mul_comm fcc]
    exact Int.mul_le_mul_of_nonneg_right hp hf

theorem ocv_blend_nac_range (o : ocv_config) (x : RawSample) (s : cell_state)
    (hf0 : 0 ≤ s.fcc) (hf : s.fcc ≤ 32767) (hn0 : 0 ≤ s.nac) (hn : s.nac ≤ s.fcc) :
    0 ≤ (ocv_blend o x s).nac ∧ (ocv_blend o x s).nac ≤ s.fcc := by
  have href := reference_capacity_range (ocv_lookup o.table x.voltage_mV) s.fcc
    (ocv_lookup_range _ _).1 (ocv_lookup_range _ _).2 hf0
  unfold ocv_blend
  dsimp only
  generalize (ocv_lookup o.table x.voltage_mV * s.fcc).tdiv MAX_PERCENTAGE = ref at href ⊢
  by_cases hP : o.ocv_period = 0
  · rw [if_pos hP, to_short_of_range _ (by omega) (by omega)]
    exact href
  · rw [if_neg hP]
    have hPpos : (0 : Int) < (o.ocv_period : Int) := by omega
    have hw0 : (0 : Int) ≤ min (s.cumulative_sleep : Int) (o.ocv_period : Int) := by
      apply le_min <;> omega
    have hwP : min (s.cumulative_sleep : Int) (o.ocv_period : Int) ≤ (o.ocv_period : Int) :=
      min_le_right _ _
    have hb := tdiv_weight_between (ref - s.nac) _ _ hPpos hw0 hwP
    generalize ((ref - s.nac) * min (s.cumulative_sleep : Int) (o.ocv_period : Int)).tdiv
      (o.ocv_period : Int) = q at hb ⊢
    have hq : 0 ≤ s.nac + q ∧ s.nac + q ≤ s.fcc := by
      by_cases hd : 0 ≤ ref - s.nac
      · have := hb.1 hd; omega
      · have := hb.2 (by omega); omega
    rw [to_short_of_range _ (by omega) (by omega)]
    exact hq

theorem ocv_correct_nac_range (o : ocv_config) (x : RawSample) (s : cell_state)
    (hf0 : 0 ≤ s.fcc) (hf : s.fcc ≤ 32767) (hn0 : 0 ≤ s.nac) (hn : s.nac ≤ s.fcc) :
    0 ≤ (ocv_correct o x s).nac ∧ (ocv_correct o x s).nac ≤ s.fcc := by
  unfold ocv_correct
  split_ifs
  · exact ocv_blend_nac_range o x s hf0 hf hn0 hn
  · exact ⟨hn0, hn⟩

theorem update_integrate_nac_range (cfg : cell_config) (s : cell_state) (x : RawSample)
    (dt : Nat) (hf0 : 0 ≤ s.fcc) (hf : s.fcc ≤ 32767) :
    0 ≤ (update_integrate cfg s x dt).nac ∧ (update_integrate cfg s x dt).nac ≤ s.fcc := by
  rw [(update_integrate_caps cfg s x dt).1]
  have hc := clamp_bounds (s.nac + charge_step x dt) 0 s.fcc hf0
  rw [to_short_of_range _ (by omega) (by omega)]
  exact hc

theorem update_steps_ordered (cfg : cell_config) (s : cell_state) (x : RawSample) (dt : Nat)
    (hs : capacities_ordered s)
    (hfree : (update_steps cfg s x dt).cycle_count ≤ NO_LEARNING_CYCLES) :
    capacities_ordered (update_steps cfg s x dt) := by
  obtain ⟨hn0, hn, hq, hf⟩ := hs
  have hf0 : 0 ≤ s.fcc := le_trans hn0 hn
  unfold update_steps at hfree ⊢
  dsimp only at hfree ⊢
  generalize hs4 : (match cfg.ocv with
    | none => update_integrate cfg s x dt
    | some o => ocv_correct o x (update_integrate cfg s x dt)) = s4 at hfree ⊢
  have hi := update_integrate_caps cfg s x dt
  have hir := update_integrate_nac_range cfg s x dt hf0 hf
  have h4 : s4.fcc = s.fcc ∧ s4.qmax = s.qmax ∧ 0 ≤ s4.nac ∧ s4.nac ≤ s.fcc := by
    rw [← hs4]
    cases cfg.ocv with
    | none => exact ⟨hi.2.1, hi.2.2.1, hir⟩
    | some o =>
      dsimp only
      have hc := ocv_correct_caps o x (update_integrate cfg s x dt)
      have hr := ocv_correct_nac_range o x (update_integrate cfg s x dt)
        (by rw [hi.2.1]; exact hf0) (by rw [hi.2.1]; exact hf) hir.1 (by rw [hi.2.1]; exact hir.2)
      rw [hi.2.1] at hr
      exact ⟨hc.1.trans hi.2.1, hc.2.1.trans hi.2.2.1, hr⟩
  rw [(recompute_soc_fields _).2.2.2.2.2] at hfree
  have hl := (cycle_learning_caps cfg (edv_track cfg x s4)).2 hfree
  have he := edv_track_fields cfg x s4
  unfold capacities_ordered
  rw [(recompute_soc_fields _).2.2.1, (recompute_soc_fields _).2.2.2.1,
    (recompute_soc_fields _).2.2.2.2.1, (cycle_learning_fields cfg _).2.2, hl.1, hl.2,
    he.2.1, he.2.2.1, he.2.2.2.1, h4.1, h4.2.1]
  exact ⟨h4.2.2.1, h4.2.2.2, hq, hf⟩

theorem update_ordered (r : sample_range) (s : cell_state) (x : RawSample) (dt : Nat)
    (hs : capacities_ordered s)
    (hfree : (update r s x dt).2.cycle_count ≤ NO_LEARNING_CYCLES) :
    capacities_ordered (update r s x dt).2 := by
  unfold update at hfree ⊢
  split_ifs at hfree ⊢
  · cases hc : s.config with
    | none => exact hs
    | some cfg =>
      rw [hc] at hfree
      exact update_steps_ordered cfg s x dt hs hfree
  · exact hs

theorem run_updates_ordered (r : sample_range) (samples : List (RawSample × Nat)) :
    ∀ s : cell_state, capacities_ordered s → learning_free_run r s samples = true →
      capacities_ordered (run_updates r s samples) := by
  induction samples with
  | nil => intro s hs _; exact hs
  | cons p rest ih =>
    intro s hs hfree
    obtain ⟨x, dt⟩ := p
    unfold learning_free_run at hfree
    simp only [Bool.and_eq_true, decide_eq_true_eq] at hfree
    exact ih _ (update_ordered r s x dt hs hfree.1) hfree.2

set_option maxRecDepth 100000 in
/-- C5, as stated, fails in two ways. A valid configuration may have its
design capacity above its design maximum, and then `fcc > qmax` after the
first update. And with the capacities in order, the learning of step 6 can
move `fcc` below `nac`: 26 discharge steps of 11 mAh complete 26 cycles, the
26th nudges `fcc` and `qmax` to the 286 mAh counted, and `nac` is 1714. -/
theorem capacities_out_of_order :
    (initialize_cell reversed_config = .ok reversed_state ∧
      (update example_range reversed_state ⟨3900, -200, 250⟩ 3600).1.toBool = true ∧
      (update example_range reversed_state ⟨3900, -200, 250⟩ 3600).2.fcc = 2200 ∧
      (update example_range reversed_state ⟨3900, -200, 250⟩ 3600).2.qmax = 2000 ∧
      ¬ ((update example_range reversed_state ⟨3900, -200, 250⟩ 3600).2.fcc ≤
        (update example_range reversed_state ⟨3900, -200, 250⟩ 3600).2.qmax)) ∧
    (initialize_cell learning_config = .ok learning_state ∧
      (learning_config.design_capacity : Int) ≤ learning_config.design_qmax ∧
      (run_updates example_range learning_state
        (List.replicate 26 (⟨3900, -660, 250⟩, 60))).nac = 1714 ∧
      (run_updates example_range learning_state
        (List.replicate 26 (⟨3900, -660, 250⟩, 60))).fcc = 286 ∧
      (run_updates example_range learning_state
        (List.replicate 26 (⟨3900, -660, 250⟩, 60))).qmax = 286 ∧
      ¬ ((run_updates example_range learning_state
          (List.replicate 26 (⟨3900, -660, 250⟩, 60))).nac ≤
        (run_updates example_range learning_state
          (List.replicate 26 (⟨3900, -660, 250⟩, 60))).fcc)) := by
  refine ⟨⟨rfl, by decide, by decide, by decide, by decide⟩,
    ⟨rfl, by decide, ?_, ?_, ?_, ?_⟩⟩ <;> decide

/-- C5, amended: for every valid configuration whose design capacity is at
most its design maximum (both values of their C types), and every finite
sequence of samples during which the cycle count has not exceeded
`NO_LEARNING_CYCLES` (so that step 6 has not adjusted FCC/QMAX), the state
after each update has `nac ≤ fcc ≤ qmax`. -/
theorem capacities_ordered_before_learning (r : sample_range) (cfg : cell_config)
    (s0 : cell_state) (samples : List (RawSample × Nat))
    (hinit : initialize_cell cfg = .ok s0) (htyped : cfg.capacities_typed)
    (hcap : (cfg.design_capacity : Int) ≤ cfg.design_qmax)
    (hfree : learning_free_run r s0 samples = true) :
    (run_updates r s0 samples).nac ≤ (run_updates r s0 samples).fcc ∧
    (run_updates r s0 samples).fcc ≤ (run_updates r s0 samples).qmax := by
  have h0 : capacities_ordered s0 := by
    rw [(initialize_cell_ok cfg s0 hinit).2]
    obtain ⟨_, hq1, hq2⟩ := htyped
    show 0 ≤ to_short (cfg.design_capacity : Int) ∧
      to_short (cfg.design_capacity : Int) ≤ to_short (cfg.design_capacity : Int) ∧
      to_short (cfg.design_capacity : Int) ≤ to_short cfg.design_qmax ∧
      to_short (cfg.design_capacity : Int) ≤ 32767
    rw [to_short_of_range (cfg.design_capacity : Int) (by omega) (by omega),
      to_short_of_range cfg.design_qmax hq1 hq2]
    omega
  have h := run_updates_ordered r samples s0 h0 hfree
  exact ⟨h.2.1, h.2.2.1⟩

/-- Witness of the amended C5: two hours of discharge at 200 mA from the
example state. -/
theorem capacities_ordered_before_learning_witness :
    initialize_cell example_config = .ok example_state ∧
    example_config.capacities_typed ∧
    (example_config.design_capacity : Int) ≤ example_config.design_qmax ∧
    learning_free_run example_range example_state
      [(⟨3900, -200, 250⟩, 3600), (⟨3800, -200, 250⟩, 3600)] = true ∧
    (run_updates example_range example_state
      [(⟨3900, -200, 250⟩, 3600), (⟨3800, -200, 250⟩, 3600)]).nac ≤
    (run_updates example_range example_state
      [(⟨3900, -200, 250⟩, 3600), (⟨3800, -200, 250⟩, 3600)]).fcc :=
  ⟨example_state_init, by decide, by decide, by decide,
    (capacities_ordered_before_learning example_range example_config example_state
      [(⟨3900, -200, 250⟩, 3600), (⟨3800, -200, 250⟩, 3600)]
      example_state_init (by decide) (by decide) (by decide)).1⟩

/-! ## Bit definitions -/

theorem bitfield.check_sound (f : bitfield) (h : f.check = true) : f.consistent := by
  unfold bitfield.check at h
  simp only [Bool.and_eq_true, decide_eq_true_eq, List.any_eq_true, beq_iff_eq] at h
  obtain ⟨⟨h0, h1⟩, k, _, hk⟩ := h
  exact ⟨h0, h1, k, hk⟩

theorem fields_checked_sound (l : List register_bits) (h : fields_checked l = true)
    (r : register_bits) (hr : r ∈ l) (f : bitfield) (hf : f ∈ r.fields)
    (hne : f ≠ PAD2_GPIO_4_MSB) : f.consistent := by
  unfold fields_checked at h
  rw [List.all_eq_true] at h
  have h1 := h r hr
  rw [List.all_eq_true] at h1
  have h2 := h1 f hf
  rw [Bool.or_eq_true] at h2
  rcases h2 with h2 | h2
  · exact bitfield.check_sound f h2
  · exact absurd (eq_of_beq h2) hne

set_option maxRecDepth 100000 in
theorem bit_definitions_checked : fields_checked bit_definitions = true := by
  decide

set_option maxRecDepth 100000 in
/-- C13 (the header's slip): `PALMAS_PRIMARY_SECONDARY_PAD2_GPIO_4_MSB` is
`0x04` while its companion `_SHIFT` is 6, so the lowest set bit of the mask
(bit 2) is not at the shift; it is the only one of the 1098 constants with a
companion `_SHIFT` for which mask and shift disagree: every other one is
non-zero, has its lowest set bit at its shift and has contiguous set bits. -/
theorem pad2_gpio_4_msb_mask_and_shift_disagree :
    PAD2_GPIO_4_MSB ∈ all_bitfields ∧
    PAD2_GPIO_4_MSB.mask = 0x04 ∧ PAD2_GPIO_4_MSB.shift = 6 ∧
    ¬ PAD2_GPIO_4_MSB.lowest_set_bit_at_shift ∧
    ¬ PAD2_GPIO_4_MSB.consistent ∧
    all_bitfields.length = 1098 ∧
    (∀ f ∈ all_bitfields, f ≠ PAD2_GPIO_4_MSB → f.consistent) := by
  refine ⟨by decide, rfl, rfl, by decide, fun h => absurd h.2.1 (by decide), by decide, ?_⟩
  intro f hf hne
  unfold all_bitfields at hf
  rw [List.mem_flatMap] at hf
  obtain ⟨r, hr, hfr⟩ := hf
  exact fields_checked_sound bit_definitions bit_definitions_checked r hr f hfr hne

set_option maxRecDepth 100000 in
/-- C14: the bit-definition blocks of the fuel gauge are those of `FG_REG_00`
.. `FG_REG_22`; within each register the masks of the fields are pairwise
disjoint, every mask fits in 8 bits and has its lowest set bit at its
`_SHIFT`; and each of the 8 bits of `FG_REG_00` belongs to exactly one of its
fields. -/
theorem fuel_gauge_fields_partition_registers :
    fuel_gauge_bits.map register_bits.reg = fg_register_names ∧
    (∀ r ∈ fuel_gauge_bits,
      masks_disjoint r.fields ∧
      ∀ f ∈ r.fields, f.mask ≤ 0xff ∧ f.lowest_set_bit_at_shift) ∧
    (∀ r ∈ fuel_gauge_bits, r.reg = "FG_REG_00" →
      ∀ i < 8, (r.fields.filter (fun f => f.mask.testBit i)).length = 1) := by
  refine ⟨by decide, by decide, by decide⟩

set_option maxRecDepth 100000 in
/-- C20, as stated, fails: in `LDO_SHORT_STATUS2` the two different names
`LDO10` and `LDOVANA` both have the mask `0x08`. -/
theorem ldo10_and_ldovana_share_a_bit :
    ldo_per_ldo_bits.map register_bits.reg =
      ["LDO_PD_CTRL1", "LDO_PD_CTRL2", "LDO_SHORT_STATUS1", "LDO_SHORT_STATUS2"] ∧
    (∃ r ∈ ldo_per_ldo_bits, r.reg = "LDO_SHORT_STATUS2" ∧
      SHORT_STATUS2_LDO10 ∈ r.fields ∧ SHORT_STATUS2_LDOVANA ∈ r.fields) ∧
    SHORT_STATUS2_LDO10.name ≠ SHORT_STATUS2_LDOVANA.name ∧
    SHORT_STATUS2_LDO10.mask &&& SHORT_STATUS2_LDOVANA.mask = 0x08 ∧
    ¬ (SHORT_STATUS2_LDO10.mask &&& SHORT_STATUS2_LDOVANA.mask = 0) := by
  refine ⟨by decide, by decide, by decide, by decide, by decide⟩

set_option maxRecDepth 100000 in
/-- C20, amended: in each of `LDO_PD_CTRL1`, `LDO_PD_CTRL2`,
`LDO_SHORT_STATUS1` and `LDO_SHORT_STATUS2`, two different bit names of the
same register have masks with no bit in common, the one pair
`LDO10`/`LDOVANA` of `LDO_SHORT_STATUS2` apart; in particular the first three
registers have no such pair. -/
theorem ldo_bits_distinct_except_ldo10_ldovana :
    (∀ r ∈ ldo_per_ldo_bits, ∀ a ∈ r.fields, ∀ b ∈ r.fields, a.name ≠ b.name →
      a.mask &&& b.mask = 0 ∨ (r.reg = "LDO_SHORT_STATUS2" ∧ ldo10_ldovana_pair a b)) ∧
    (∀ r ∈ ldo_per_ldo_bits, r.reg ≠ "LDO_SHORT_STATUS2" →
      ∀ a ∈ r.fields, ∀ b ∈ r.fields, a.name ≠ b.name → a.mask &&& b.mask = 0) := by
  refine ⟨by decide, by decide⟩

/-! ## Array dimensions -/

/-- C11: the OCV lookup table of every `struct ocv_config` has exactly
`OCV_TABLE_SIZE = 21` entries, so it is never empty, and `i` is an index of
the table exactly when `0 ≤ i ≤ 20`. -/
theorem ocv_table_has_21_entries (o : ocv_config) :
    OCV_TABLE_SIZE = 21 ∧ o.entries.length = OCV_TABLE_SIZE ∧ o.entries ≠ [] ∧
    (∀ i : Nat, i < o.entries.length ↔ i ≤ 20) ∧
    (∀ i : Fin OCV_TABLE_SIZE, o.entries.get? i.val = some (o.table i)) := by
  have hlen : o.entries.length = OCV_TABLE_SIZE := by
    unfold ocv_config.entries
    exact List.length_ofFn _
  refine ⟨rfl, hlen, ?_, ?_, ?_⟩
  · intro h
    rw [h] at hlen
    exact absurd hlen (by decide)
  · intro i
    rw [hlen]
    unfold OCV_TABLE_SIZE
    omega
  · intro i
    unfold ocv_config.entries
    rw [List.get?_ofFn]
    simp [List.ofFnNthVal, i.isLt]

/-- C12: every `struct edv_config` has exactly 3 EDV points, each made of a
voltage and a percent; every `struct cell_state` has exactly 3 EDV latch
flags, `edv0`, `edv1`, `edv2`; the two numbers are equal, so an index is an
index of an EDV point exactly when it is the index of a latch flag. -/
theorem edv_points_match_edv_flags (e : edv_config) (s : cell_state) :
    e.points.length = 3 ∧ s.edv_flags.length = 3 ∧
    e.points.length = s.edv_flags.length ∧
    (∀ p : edv_point, p = ⟨p.voltage, p.percent⟩) ∧
    (∀ i : Fin 3, e.points.get? i.val = some (e.edv i)) ∧
    s.edv_flags.get? 0 = some s.edv0 ∧ s.edv_flags.get? 1 = some s.edv1 ∧
    s.edv_flags.get? 2 = some s.edv2 ∧
    (∀ i : Nat, i < e.points.length ↔ i < s.edv_flags.length) := by
  have hlen : e.points.length = 3 := by
    unfold edv_config.points
    exact List.length_ofFn _
  refine ⟨hlen, rfl, hlen, fun p => rfl, ?_, rfl, rfl, rfl, ?_⟩
  · intro i
    unfold edv_config.points
    rw [List.get?_ofFn]
    simp [List.ofFnNthVal, i.isLt]
  · intro i
    rw [hlen]
    rfl

/-- C15: `palmas_pmic.range` has `PALMAS_REG_SMPS10 = 9` elements; a
regulator id is an index of `range` exactly when the regulator is one of the
SMPS regulators other than SMPS10, every slot of `range` is the slot of one of
them, and neither SMPS10 nor any regulator listed after it (the LDOs and the
external regulators) has an in-bounds id. -/
theorem range_indexed_by_smps_below_smps10 :
    palmas_pmic_range_size = 9 ∧
    (∀ r : palmas_regulators,
      r.id < palmas_pmic_range_size ↔ r ∈ smps_regulators_below_smps10) ∧
    (∀ i : Fin palmas_pmic_range_size, ∃ r ∈ smps_regulators_below_smps10, r.id = i.val) ∧
    ¬ (palmas_regulators.PALMAS_REG_SMPS10.id < palmas_pmic_range_size) ∧
    (∀ r : palmas_regulators, palmas_regulators.PALMAS_REG_SMPS10.id ≤ r.id →
      ¬ (r.id < palmas_pmic_range_size)) := by
  refine ⟨by decide, ?_, by decide, by decide, ?_⟩
  · intro r
    cases r <;> decide
  · intro r h
    exact Nat.not_lt.mpr h

/-! ## Flat addresses -/

/-- C16: for every 32-bit `base ≥ 0x100` and every 32-bit `reg`,
`256 * (PALMAS_BASE_TO_SLAVE(base) + 1) + PALMAS_BASE_TO_REG(base, reg)` is
`base + reg` in unsigned 32-bit arithmetic; and two pairs with the same flat
address `base + reg` and the same `base >> 8` have the same slave and the same
register address. -/
theorem slave_and_register_decompose_flat_address (base reg : Nat)
    (hb : base < 4294967296) (hr : reg < 4294967296) (hpage : 0x100 ≤ base) :
    (256 * (PALMAS_BASE_TO_SLAVE base + 1) + (PALMAS_BASE_TO_REG base reg : Int)) % 4294967296
      = (((base + reg) % 4294967296 : Nat) : Int) ∧
    (∀ base2 reg2 : Nat, base2 < 4294967296 → reg2 < 4294967296 →
      (base + reg) % 4294967296 = (base2 + reg2) % 4294967296 →
      base >>> 8 = base2 >>> 8 →
      PALMAS_BASE_TO_SLAVE base = PALMAS_BASE_TO_SLAVE base2 ∧
      PALMAS_BASE_TO_REG base reg = PALMAS_BASE_TO_REG base2 reg2) := by
  have _ := hr
  have _ := hpage
  have hand : ∀ b : Nat, b &&& 0xff = b % 256 := fun b =>
    Nat.and_pow_two_sub_one_eq_mod b 8
  have hshift : ∀ b : Nat, b >>> 8 = b / 256 := fun b => Nat.shiftRight_eq_div_pow b 8
  constructor
  · rw [base_to_slave_eq base hb]
    unfold PALMAS_BASE_TO_REG
    rw [hand, hshift]
    omega
  · intro base2 reg2 hb2 _ hflat hq
    constructor
    · rw [base_to_slave_eq base hb, base_to_slave_eq base2 hb2, hq]
    · unfold PALMAS_BASE_TO_REG
      rw [hand, hand]
      rw [hshift, hshift] at hq
      omega

/-- Witness of C16 at the fuel-gauge base `0x230` and register `0x05`. -/
theorem slave_and_register_decompose_flat_address_witness :
    PALMAS_FUEL_GAUGE_BASE < 4294967296 ∧ (5 : Nat) < 4294967296 ∧
    0x100 ≤ PALMAS_FUEL_GAUGE_BASE ∧
    (256 * (PALMAS_BASE_TO_SLAVE PALMAS_FUEL_GAUGE_BASE + 1) +
        (PALMAS_BASE_TO_REG PALMAS_FUEL_GAUGE_BASE 5 : Int)) % 4294967296
      = (((PALMAS_FUEL_GAUGE_BASE + 5) % 4294967296 : Nat) : Int) :=
  ⟨by decide, by decide, by decide,
    (slave_and_register_decompose_flat_address PALMAS_FUEL_GAUGE_BASE 5
      (by decide) (by decide) (by decide)).1⟩

set_option maxRecDepth 100000 in
/-- C17: for every function block of the header, with the base of its IP
block, and every register offset listed for it, the register address
`PALMAS_BASE_TO_REG(base, offset)` is `(base & 0xff) + offset` and is at most
`0xFF`. -/
theorem register_addresses_stay_in_page :
    function_blocks.map (fun blk => (blk.name, blk.base)) =
      [("RTC", 0x100), ("SMPS", 0x120), ("LDO", 0x150), ("DVFS", 0x180), ("SIMCARD", 0x19E),
       ("PMU_CONTROL", 0x1A0), ("RESOURCE", 0x1D4), ("PAD_CONTROL", 0x1F0), ("LED_PWM", 0x200),
       ("INTERRUPT", 0x210), ("USB_OTG", 0x250), ("VIBRATOR", 0x270), ("GPIO", 0x280),
       ("GPADC", 0x2C0), ("GPADC_TRIM", 0x3CD), ("BQ24192", 0x400), ("FUEL_GAUGE", 0x230)] ∧
    (∀ blk ∈ function_blocks, ∀ r ∈ blk.registers,
      PALMAS_BASE_TO_REG blk.base r.2 = (blk.base &&& 0xff) + r.2 ∧
      PALMAS_BASE_TO_REG blk.base r.2 ≤ 0xFF) := by
  refine ⟨by decide, by decide⟩

set_option maxRecDepth 100000 in
/-- C18, as stated, fails: the GPIO block lists `PALMAS_PU_PD_GPIO_CTRL4`
(`0x10`) and `PALMAS_OD_OUTPUT_GPIO_CTRL2` (`0x11`), whose flat addresses
`0x290` and `0x291` are not below `PALMAS_USB_BASE = 0x290`, the smallest base
above `PALMAS_GPIO_BASE`. -/
theorem gpio_registers_reach_usb_base :
    (∃ blk ∈ function_blocks, blk.name = "GPIO" ∧ blk.base = PALMAS_GPIO_BASE ∧
      ("PALMAS_PU_PD_GPIO_CTRL4", 0x10) ∈ blk.registers ∧
      ("PALMAS_OD_OUTPUT_GPIO_CTRL2", 0x11) ∈ blk.registers ∧
      ¬ below_next_base blk.base blk.registers) ∧
    next_base PALMAS_GPIO_BASE = some PALMAS_USB_BASE ∧
    PALMAS_GPIO_BASE + 0x10 = PALMAS_USB_BASE ∧
    ¬ (PALMAS_GPIO_BASE + 0x10 < PALMAS_USB_BASE) ∧
    ¬ (PALMAS_GPIO_BASE + 0x11 < PALMAS_USB_BASE) := by
  refine ⟨by decide, by decide, by decide, by decide, by decide⟩

set_option maxRecDepth 100000 in
/-- C18, amended: for every function block other than GPIO, every flat
address `base + offset` of the block is strictly below the smallest
`PALMAS_*_BASE` constant greater than the block's base; and so are the GPIO
registers with offsets up to `0x0F`. -/
theorem function_blocks_below_next_base :
    function_blocks.map (fun blk => (blk.name, next_base blk.base)) =
      [("RTC", some 0x118), ("SMPS", some 0x150), ("LDO", some 0x180), ("DVFS", some 0x19E),
       ("SIMCARD", some 0x1A0), ("PMU_CONTROL", some 0x1D4), ("RESOURCE", some 0x1F0),
       ("PAD_CONTROL", some 0x200), ("LED_PWM", some 0x210), ("INTERRUPT", some 0x230),
       ("USB_OTG", some 0x270), ("VIBRATOR", some 0x280), ("GPIO", some 0x290),
       ("GPADC", some 0x300), ("GPADC_TRIM", some 0x400), ("BQ24192", none),
       ("FUEL_GAUGE", some 0x250)] ∧
    (∀ blk ∈ function_blocks, blk.name ≠ "GPIO" → below_next_base blk.base blk.registers) ∧
    (∀ blk ∈ function_blocks, blk.name = "GPIO" →
      below_next_base blk.base (blk.registers.filter (fun r => decide (r.2 ≤ 0x0F)))) := by
  refine ⟨by decide, by decide, by decide⟩

/-! ## Interrupt numbers -/

set_option maxRecDepth 100000 in
/-- C19, as stated, fails: `PALMAS_CHARGER_IRQ` is 40, while its same-named
status bit `PALMAS_INT6_STATUS_CHARGER` has shift 5 in register 6, which would
give `8 * (6 - 1) + 5 = 45`. -/
theorem charger_irq_is_not_its_status_bit :
    (⟨6, "PALMAS_CHARGER_IRQ", 40, 5⟩ : irq_status_bit) ∈ irq_status_bits ∧
    irq_number "PALMAS_CHARGER_IRQ" = some 40 ∧
    (∃ r ∈ interrupt_bits, r.reg = "INT6_STATUS" ∧
      (⟨"PALMAS_INT6_STATUS_CHARGER", 0x20, 5⟩ : bitfield) ∈ r.fields) ∧
    (40 : Nat) ≠ 8 * (6 - 1) + 5 := by
  refine ⟨by decide, by decide, by decide, by decide⟩

set_option maxRecDepth 100000 in
/-- C19, amended: 43 status bits of `PALMAS_INT1_STATUS` ..
`PALMAS_INT6_STATUS` have an IRQ constant of the same name; for the 40 of
registers 1 to 5 the IRQ number is `8 * (n - 1)` plus the shift of the bit;
the 3 of register 6 (`CHARGER`, `SIM1`, `SIM2`) are numbered 40, 41, 42, which
is `8 * (n - 1)` plus the shift minus 5. -/
theorem irq_numbers_follow_status_bits :
    irq_status_bits.length = 43 ∧
    (irq_status_bits.filter (fun e => decide (e.n ≤ 5))).length = 40 ∧
    (∀ e ∈ irq_status_bits, e.n ≤ 5 → e.number = 8 * (e.n - 1) + e.shift) ∧
    (irq_status_bits.filter (fun e => decide (e.n = 6))).map (fun e => (e.irq, e.number, e.shift))
      = [("PALMAS_SIM2_IRQ", 42, 7), ("PALMAS_SIM1_IRQ", 41, 6), ("PALMAS_CHARGER_IRQ", 40, 5)] ∧
    (∀ e ∈ irq_status_bits, e.n = 6 → e.number + 5 = 8 * (e.n - 1) + e.shift) := by
  refine ⟨by decide, by decide, by decide, by decide, by decide⟩

/-! ## ES version comparison: order properties -/

/-- C21: `palmas_is_es_version_or_less` is monotone in its version argument:
when `(M, m)` is lexicographically at most `(M2, m2)` and the function returns
1 for `(M, m)`, it returns 1 for `(M2, m2)`; and it is reflexive: it returns 1
for the device's own version. -/
theorem palmas_is_es_version_or_less_monotone (p : palmas) (M m M2 m2 : Int)
    (hle : M < M2 ∨ (M = M2 ∧ m ≤ m2))
    (h : palmas_is_es_version_or_less p M m = 1) :
    palmas_is_es_version_or_less p M2 m2 = 1 ∧
    palmas_is_es_version_or_less p p.es_major_version p.es_minor_version = 1 := by
  unfold palmas_is_es_version_or_less at h ⊢
  constructor
  · by_cases h1 : p.es_major_version < M
    · have h3 : p.es_major_version < M2 := by omega
      rw [if_pos h3]
    · rw [if_neg h1] at h
      by_cases h2 : p.es_major_version = M ∧ p.es_minor_version ≤ m
      · by_cases h3 : p.es_major_version < M2
        · rw [if_pos h3]
        · have h4 : p.es_major_version = M2 ∧ p.es_minor_version ≤ m2 := by omega
          rw [if_neg h3, if_pos h4]
      · rw [if_neg h2] at h
        exact absurd h (by decide)
  · rw [if_neg (lt_irrefl _), if_pos ⟨rfl, le_refl _⟩]

/-- Witness of C21: a device of ES version 2.1 is at most 2.1, hence at most
3.0. -/
theorem palmas_is_es_version_or_less_monotone_witness :
    ((2 : Int) < 3 ∨ ((2 : Int) = 3 ∧ (1 : Int) ≤ 0)) ∧
    palmas_is_es_version_or_less
      ⟨0, fun _ => 0, fun _ => 0, 0, 0, 0, 0, 0, 0, 0, 0, 0, 0, 0, 0, 0, 1, 2⟩ 2 1 = 1 ∧
    palmas_is_es_version_or_less
      ⟨0, fun _ => 0, fun _ => 0, 0, 0, 0, 0, 0, 0, 0, 0, 0, 0, 0, 0, 0, 1, 2⟩ 3 0 = 1 :=
  ⟨by decide, by decide,
    (palmas_is_es_version_or_less_monotone
      ⟨0, fun _ => 0, fun _ => 0, 0, 0, 0, 0, 0, 0, 0, 0, 0, 0, 0, 0, 0, 1, 2⟩ 2 1 3 0
      (by decide) (by decide)).1⟩

/-! ## GPADC channel-select fields -/

theorem field_read_le (f : bitfield) (v : Nat) : field_read f v ≤ f.mask >>> f.shift := by
  unfold field_read
  rw [Nat.shiftRight_eq_div_pow, Nat.shiftRight_eq_div_pow]
  exact Nat.div_le_div_right Nat.and_le_right

set_option maxRecDepth 100000 in
theorem gpadc_select_fields_eq :
    gpadc_select_fields =
      [⟨"PALMAS_GPADC_RT_SELECT_RT_CONV0_SEL_MASK", 0x0f, 0⟩,
       ⟨"PALMAS_GPADC_AUTO_SELECT_AUTO_CONV1_SEL_MASK", 0xf0, 4⟩,
       ⟨"PALMAS_GPADC_AUTO_SELECT_AUTO_CONV0_SEL_MASK", 0x0f, 0⟩,
       ⟨"PALMAS_GPADC_SW_SELECT_SW_CONV0_SEL_MASK", 0x0f, 0⟩] := by
  decide

set_option maxRecDepth 100000 in
/-- C22: the GPADC channel enum has `PALMAS_ADC_CH_MAX = 16` channels; the
four channel-select fields are 4 bits wide; writing any channel id `c < 16`
into any of them and reading it back gives `c`, also through
`((c << SHIFT) & MASK) >> SHIFT`; and whatever the register holds, the value
read from any of them is below `PALMAS_ADC_CH_MAX`. -/
theorem gpadc_channels_fit_select_fields :
    PALMAS_ADC_CH_MAX = 16 ∧
    gpadc_select_fields.map bitfield.name =
      ["PALMAS_GPADC_RT_SELECT_RT_CONV0_SEL_MASK",
       "PALMAS_GPADC_AUTO_SELECT_AUTO_CONV1_SEL_MASK",
       "PALMAS_GPADC_AUTO_SELECT_AUTO_CONV0_SEL_MASK",
       "PALMAS_GPADC_SW_SELECT_SW_CONV0_SEL_MASK"] ∧
    (∀ f ∈ gpadc_select_fields, ∀ c < PALMAS_ADC_CH_MAX,
      field_read f (field_write f c) = c ∧
      ((c <<< f.shift) &&& f.mask) >>> f.shift = c) ∧
    (∀ f ∈ gpadc_select_fields, ∀ v : Nat, field_read f v < PALMAS_ADC_CH_MAX) := by
  refine ⟨by decide, by decide, by decide, ?_⟩
  intro f hf v
  have hmax : f.mask >>> f.shift = 15 := by
    rw [gpadc_select_fields_eq] at hf
    simp only [List.mem_cons, List.mem_singleton, List.not_mem_nil, or_false] at hf
    rcases hf with h | h | h | h <;> (subst h; decide)
  have hle := field_read_le f v
  rw [hmax] at hle
  exact Nat.lt_of_le_of_lt hle (by decide)

end Palmas
